import Mathlib

/-!
# API client resolver, configuration providers and command layer

A shallow embedding of the name/ID resolver of `apiclient` (node.go, user.go),
of the flag-backed and environment-backed configuration providers
(config/flags, config/environment), of the licence update of the OpenAPI
transport (apiclient/openapi/licence.go), of the run wrappers
(cmd/runwrappers) and of the delete node, delete volume, detach, update volume
description and update volume size commands (cmd/delete, cmd/detach,
cmd/update).

Conventions of the embedding:

* a Go result pair `(v, err)` is a Lean pair whose second component is an
  `Option` of the error, `none` standing for a nil error;
* a Go pointer result `*T` is an `Option T`, `none` standing for nil;
* a Go slice is a `List`; the nil slice and the empty slice are both `[]`;
* the elements of a fetched collection (`[]*node.Resource`) are non-nil, so
  they are embedded as the resource values themselves;
* a Go `map[K]V` is a finite lookup function `K → Option V`;
* the transport, the clients and the displayers are interfaces with side
  effects: each is embedded as a structure of state transformers over an
  arbitrary state type, and the code threads that state through every call
  it makes; a recorded client or displayer also appends each call to a log;
* a function whose only result is an `error` yields an `Outcome`: the error
  returned, or a run-time panic (indexing an empty slice, reading through a
  nil pointer);
* the process environment, the execution of an external command and the
  library parsers are the fields of `environment.Host`.
-/

set_option autoImplicit false

/-! ## Identifier and scalar types -/

namespace id

/-- Node identifier, `type Node string`. -/
abbrev Node := String

/-- User identifier, `type User string`. -/
abbrev User := String

/-- Policy group identifier, `type PolicyGroup string`. -/
abbrev PolicyGroup := String

end id

namespace version

/-- Version token of a resource, `type Version string`. -/
abbrev Version := String

end version

namespace time

/-- Duration in nanoseconds, a Go `int64`. -/
abbrev Duration := Int

/-- Instant in time, as nanoseconds since the epoch. -/
abbrev Time := Int

end time

namespace labels

/-- Label set of a resource, key/value pairs. -/
abbrev Set := List (String × String)

end labels

namespace health

/-- Health state of a node, `type NodeState string`. -/
abbrev NodeState := String

end health

namespace capacity

/-- Capacity statistics of a node. -/
structure Stats where
  Total : Nat
  Free : Nat
deriving DecidableEq, Repr

end capacity

/-! ## Resource models -/

namespace node

/-- Node API resource (node/node.go). -/
structure Resource where
  ID : id.Node
  Name : String
  Health : health.NodeState
  Capacity : capacity.Stats
  IOAddr : String
  SupervisorAddr : String
  GossipAddr : String
  ClusteringAddr : String
  Labels : labels.Set
  CreatedAt : time.Time
  UpdatedAt : time.Time
  Version : version.Version
deriving DecidableEq, Repr

end node

namespace user

/-- User API resource (user/user.go). -/
structure Resource where
  ID : id.User
  Username : String
  IsAdmin : Bool
  Groups : List id.PolicyGroup
  CreatedAt : time.Time
  UpdatedAt : time.Time
  Version : version.Version
deriving DecidableEq, Repr

end user

/-! ## Go maps -/

/-- Go map `map[K]V`, as its lookup function. -/
def GoMap (κ ν : Type) : Type := κ → Option ν

namespace GoMap

variable {κ ν : Type}

/-- The empty map, `map[K]V{}` or `make(map[K]V)`. -/
def empty : GoMap κ ν := fun _ => none

/-- Assignment `m[k] = v`: a later write to the same key replaces the earlier one. -/
def set [DecidableEq κ] (m : GoMap κ ν) (k : κ) (v : ν) : GoMap κ ν :=
  fun k' => if k' = k then some v else m k'

/-- Lookup `v, ok := m[k]`; `none` stands for `ok == false`. -/
def get (m : GoMap κ ν) (k : κ) : Option ν := m k

end GoMap

/-! ## apiclient: errors -/

namespace apiclient

/-- NodeNotFoundError of node.go: the node looked for by ID or by name. -/
structure NodeNotFoundError where
  uid : id.Node
  name : String
deriving DecidableEq, Repr

/-- UserNotFoundError of user.go. -/
structure UserNotFoundError where
  msg : String
  uid : id.User
  name : String
deriving DecidableEq, Repr

/-- Go `error` values that reach the client: the two not-found errors of this
package, and any other error (a transport error), kept by its message. -/
inductive Error where
  | nodeNotFound (e : NodeNotFoundError)
  | userNotFound (e : UserNotFoundError)
  | other (msg : String)
deriving DecidableEq, Repr

/-- NewNodeNotFoundError: only `uid` is set. -/
def NewNodeNotFoundError (uid : id.Node) : NodeNotFoundError :=
  { uid := uid, name := "" }

/-- NewNodeNameNotFoundError: only `name` is set. -/
def NewNodeNameNotFoundError (name : String) : NodeNotFoundError :=
  { uid := "", name := name }

/-- NewUserNotFoundError: `details` is the message, `name` is left empty. -/
def NewUserNotFoundError (details : String) (uID : id.User) : UserNotFoundError :=
  { msg := details, uid := uID, name := "" }

/-- NewUserNameNotFoundError: the message is built from the name, `uid` is left empty. -/
def NewUserNameNotFoundError (name : String) : UserNotFoundError :=
  { msg := "user with name " ++ name ++ " not found", uid := "", name := name }

/-! ## apiclient: transport and client -/

/-- The part of the transport interface the resolver uses. Each call takes the
transport state and returns the Go result pair and the next state. -/
structure Transport (σ : Type) where
  ListNodes : σ → (List node.Resource × Option Error) × σ
  ListUsers : σ → (List user.Resource × Option Error) × σ

/-- Client of the API: holds the transport. -/
structure Client (σ : Type) where
  Transport : Transport σ

/-- The scan `for _, n := range nodes { if n.Name == name { return n, nil } }`
of GetNodeByName, followed by the not-found return. -/
def scanNodesByName (name : String) : List node.Resource → Option node.Resource × Option Error
  | [] => (none, some (Error.nodeNotFound (NewNodeNameNotFoundError name)))
  | n :: rest => if n.Name = name then (some n, none) else scanNodesByName name rest

/-- GetNodeByName of node.go. -/
def Client.GetNodeByName {σ : Type} (c : Client σ) (name : String) (s : σ) :
    (Option node.Resource × Option Error) × σ :=
  match c.Transport.ListNodes s with
  | ((_, some err), s') => ((none, some err), s')
  | ((nodes, none), s') => (scanNodesByName name nodes, s')

/-- The scan of GetUserByName over `Username`, followed by the not-found return. -/
def scanUsersByName (username : String) : List user.Resource → Option user.Resource × Option Error
  | [] => (none, some (Error.userNotFound (NewUserNameNotFoundError username)))
  | u :: rest => if u.Username = username then (some u, none) else scanUsersByName username rest

/-- GetUserByName of user.go. -/
def Client.GetUserByName {σ : Type} (c : Client σ) (username : String) (s : σ) :
    (Option user.Resource × Option Error) × σ :=
  match c.Transport.ListUsers s with
  | ((_, some err), s') => ((none, some err), s')
  | ((list, none), s') => (scanUsersByName username list, s')

/-- The loop `for _, n := range nodes { retrieved[n.Name] = n }`. -/
def retrievedByName (nodes : List node.Resource) : GoMap String node.Resource :=
  nodes.foldl (fun m n => m.set n.Name n) GoMap.empty

/-- The loop `for _, n := range nodes { retrieved[n.ID] = n }`. -/
def retrievedByID (nodes : List node.Resource) : GoMap id.Node node.Resource :=
  nodes.foldl (fun m n => m.set n.ID n) GoMap.empty

/-- The second loop of filterNodesForNames: `filtered` grows by one resource
per requested name, and the first name missing from the map aborts with nil. -/
def filterNodesForNamesLoop (retrieved : GoMap String node.Resource) :
    List String → List node.Resource → List node.Resource × Option Error
  | [], filtered => (filtered, none)
  | name :: rest, filtered =>
    match retrieved.get name with
    | none => ([], some (Error.nodeNotFound (NewNodeNameNotFoundError name)))
    | some n => filterNodesForNamesLoop retrieved rest (filtered ++ [n])

/-- Function filterNodesForNames of node.go. -/
def filterNodesForNames (nodes : List node.Resource) (names : List String) :
    List node.Resource × Option Error :=
  if names.length = 0 then (nodes, none)
  else filterNodesForNamesLoop (retrievedByName nodes) names []

/-- The second loop of filterNodesForUIDs. -/
def filterNodesForUIDsLoop (retrieved : GoMap id.Node node.Resource) :
    List id.Node → List node.Resource → List node.Resource × Option Error
  | [], filtered => (filtered, none)
  | idVar :: rest, filtered =>
    match retrieved.get idVar with
    | none => ([], some (Error.nodeNotFound (NewNodeNotFoundError idVar)))
    | some n => filterNodesForUIDsLoop retrieved rest (filtered ++ [n])

/-- Function filterNodesForUIDs of node.go. -/
def filterNodesForUIDs (nodes : List node.Resource) (uids : List id.Node) :
    List node.Resource × Option Error :=
  if uids.length = 0 then (nodes, none)
  else filterNodesForUIDsLoop (retrievedByID nodes) uids []

/-- GetListNodesByUID of node.go. -/
def Client.GetListNodesByUID {σ : Type} (c : Client σ) (uids : List id.Node) (s : σ) :
    (List node.Resource × Option Error) × σ :=
  match c.Transport.ListNodes s with
  | ((_, some err), s') => (([], some err), s')
  | ((nodes, none), s') => (filterNodesForUIDs nodes uids, s')

/-- GetListNodesByName of node.go. -/
def Client.GetListNodesByName {σ : Type} (c : Client σ) (names : List String) (s : σ) :
    (List node.Resource × Option Error) × σ :=
  match c.Transport.ListNodes s with
  | ((_, some err), s') => (([], some err), s')
  | ((nodes, none), s') => (filterNodesForNames nodes names, s')

/-- The loop `for _, u := range list { toMap[u.ID] = u }`. -/
def usersByID (list : List user.Resource) : GoMap id.User user.Resource :=
  list.foldl (fun m u => m.set u.ID u) GoMap.empty

/-- The loop `for _, u := range list { toMap[u.Username] = u }`. -/
def usersByUsername (list : List user.Resource) : GoMap String user.Resource :=
  list.foldl (fun m u => m.set u.Username u) GoMap.empty

/-- The second loop of GetListUsersByUID. -/
def usersByUIDLoop (toMap : GoMap id.User user.Resource) :
    List id.User → List user.Resource → List user.Resource × Option Error
  | [], filtered => (filtered, none)
  | idVar :: rest, filtered =>
    match toMap.get idVar with
    | none => ([], some (Error.userNotFound (NewUserNotFoundError "user not found" idVar)))
    | some u => usersByUIDLoop toMap rest (filtered ++ [u])

/-- The second loop of GetListUsersByUsername. -/
def usersByUsernameLoop (toMap : GoMap String user.Resource) :
    List String → List user.Resource → List user.Resource × Option Error
  | [], filtered => (filtered, none)
  | username :: rest, filtered =>
    match toMap.get username with
    | none => ([], some (Error.userNotFound (NewUserNameNotFoundError username)))
    | some u => usersByUsernameLoop toMap rest (filtered ++ [u])

/-- GetListUsersByUID of user.go: there is no early return for an empty `uids`. -/
def Client.GetListUsersByUID {σ : Type} (c : Client σ) (uids : List id.User) (s : σ) :
    (List user.Resource × Option Error) × σ :=
  match c.Transport.ListUsers s with
  | ((_, some err), s') => (([], some err), s')
  | ((list, none), s') => (usersByUIDLoop (usersByID list) uids [], s')

/-- GetListUsersByUsername of user.go: there is no early return for an empty `usernames`. -/
def Client.GetListUsersByUsername {σ : Type} (c : Client σ) (usernames : List String) (s : σ) :
    (List user.Resource × Option Error) × σ :=
  match c.Transport.ListUsers s with
  | ((_, some err), s') => (([], some err), s')
  | ((list, none), s') => (usersByUsernameLoop (usersByUsername list) usernames [], s')

end apiclient

/-! ## output: format selector -/

namespace output

/-- Output format selector; flags.go and the command packages name the values
`Unknown`, `JSON`, `YAML` and `Text`. -/
inductive Format where
  | Unknown
  | JSON
  | YAML
  | Text
deriving DecidableEq, Repr

end output

/-! ## config: provider interface -/

namespace config

/-- Interface config.Provider of config.go: one accessor per setting, each
returning the Go pair `(value, error)`. The error type is that of the Go
`error` values the providers hand on. -/
structure Provider (ε : Type) where
  AuthCacheDisabled : Bool × Option ε
  APIEndpoints : List String × Option ε
  CacheDir : String × Option ε
  CommandTimeout : time.Duration × Option ε
  Username : String × Option ε
  Password : String × Option ε
  UseIDs : Bool × Option ε
  Namespace : String × Option ε
  OutputFormat : output.Format × Option ε
  ConfigFilePath : String × Option ε

end config

/-! ## config/flags: flag-backed provider -/

namespace flags

def AuthCacheDisabledFlag : String := "no-auth-cache"
def APIEndpointsFlag : String := "endpoints"
def CacheDirFlag : String := "cache-dir"
def CommandTimeoutFlag : String := "timeout"
def UsernameFlag : String := "username"
def PasswordFlag : String := "password"
def UseIDsFlag : String := "use-ids"
def NamespaceFlag : String := "namespace"
def OutputFormatFlag : String := "output"
def ConfigFileFlag : String := "config"

/-- The accessors of interface FlagSet that the provider's getters call. -/
structure FlagSet (ε : Type) where
  Changed : String → Bool
  GetBool : String → Bool × Option ε
  GetDuration : String → time.Duration × Option ε
  GetString : String → String × Option ε
  GetStringArray : String → List String × Option ε

/-- Struct Provider of flags.go. -/
structure Provider (ε : Type) where
  set : FlagSet ε
  fallback : config.Provider ε

variable {ε : Type}

/-- AuthCacheDisabled of flags.go. -/
def Provider.AuthCacheDisabled (flag : Provider ε) : Bool × Option ε :=
  match flag.set.GetBool AuthCacheDisabledFlag with
  | (_, some err) => (false, some err)
  | (disabled, none) =>
    if !flag.set.Changed AuthCacheDisabledFlag then flag.fallback.AuthCacheDisabled
    else (disabled, none)

/-- APIEndpoints of flags.go. -/
def Provider.APIEndpoints (flag : Provider ε) : List String × Option ε :=
  match flag.set.GetStringArray APIEndpointsFlag with
  | (_, some err) => ([], some err)
  | (hosts, none) =>
    if hosts.length == 0 || !flag.set.Changed APIEndpointsFlag then flag.fallback.APIEndpoints
    else (hosts, none)

/-- CacheDir of flags.go. -/
def Provider.CacheDir (flag : Provider ε) : String × Option ε :=
  match flag.set.GetString CacheDirFlag with
  | (_, some err) => ("", some err)
  | (cacheDir, none) =>
    if cacheDir == "" || !flag.set.Changed CacheDirFlag then flag.fallback.CacheDir
    else (cacheDir, none)

/-- CommandTimeout of flags.go. -/
def Provider.CommandTimeout (flag : Provider ε) : time.Duration × Option ε :=
  match flag.set.GetDuration CommandTimeoutFlag with
  | (_, some err) => (0, some err)
  | (timeout, none) =>
    if timeout == 0 || !flag.set.Changed CommandTimeoutFlag then flag.fallback.CommandTimeout
    else (timeout, none)

/-- Username of flags.go. -/
def Provider.Username (flag : Provider ε) : String × Option ε :=
  match flag.set.GetString UsernameFlag with
  | (_, some err) => ("", some err)
  | (username, none) =>
    if username == "" || !flag.set.Changed UsernameFlag then flag.fallback.Username
    else (username, none)

/-- Password of flags.go. -/
def Provider.Password (flag : Provider ε) : String × Option ε :=
  match flag.set.GetString PasswordFlag with
  | (_, some err) => ("", some err)
  | (password, none) =>
    if password == "" || !flag.set.Changed PasswordFlag then flag.fallback.Password
    else (password, none)

/-- UseIDs of flags.go. -/
def Provider.UseIDs (flag : Provider ε) : Bool × Option ε :=
  match flag.set.GetBool UseIDsFlag with
  | (_, some err) => (false, some err)
  | (useIDs, none) =>
    if !flag.set.Changed UseIDsFlag then flag.fallback.UseIDs
    else (useIDs, none)

/-- Namespace of flags.go. -/
def Provider.Namespace (flag : Provider ε) : String × Option ε :=
  match flag.set.GetString NamespaceFlag with
  | (_, some err) => ("", some err)
  | (ns, none) =>
    if !flag.set.Changed NamespaceFlag then flag.fallback.Namespace
    else (ns, none)

/-- ConfigFilePath of flags.go. -/
def Provider.ConfigFilePath (flag : Provider ε) : String × Option ε :=
  match flag.set.GetString ConfigFileFlag with
  | (_, some err) => ("", some err)
  | (path, none) =>
    if !flag.set.Changed ConfigFileFlag then flag.fallback.ConfigFilePath
    else (path, none)

end flags

/-! ## Generic forms of the resolver loops

The four bulk filters repeat the same two loops over different key fields and
error constructors. The generic forms below are what the lemmas are proved
about; each loop of the source is shown equal to an instance of them. -/

namespace apiclient

/-- A map-building loop `for _, r := range l { m[key r] = r }` from the empty map. -/
def buildMap {κ ρ : Type} [DecidableEq κ] (key : ρ → κ) (l : List ρ) : GoMap κ ρ :=
  l.foldl (fun m r => m.set (key r) r) GoMap.empty

/-- A strict selection loop: one resource per requested key, nil and the
error of the first key missing from the map. -/
def strictLoop {κ ρ : Type} (m : GoMap κ ρ) (mkErr : κ → Error) :
    List κ → List ρ → List ρ × Option Error
  | [], acc => (acc, none)
  | k :: rest, acc =>
    match m.get k with
    | none => ([], some (mkErr k))
    | some r => strictLoop m mkErr rest (acc ++ [r])

/-- Transport state that counts the calls made so far; its list calls fail
with the given error. -/
def failingTransport (e : Error) : Transport Nat where
  ListNodes := fun n => (([], some e), n + 1)
  ListUsers := fun n => (([], some e), n + 1)

/-- Transport with a fixed node and user collection and no state. -/
def fixedTransport (nodes : List node.Resource) (users : List user.Resource) : Transport Unit where
  ListNodes := fun _ => ((nodes, none), ())
  ListUsers := fun _ => ((users, none), ())

/-- Node resource with the given ID and name, every other field zero. -/
def mkNode (uid : id.Node) (name : String) : node.Resource :=
  { ID := uid, Name := name, Health := "", Capacity := { Total := 0, Free := 0 },
    IOAddr := "", SupervisorAddr := "", GossipAddr := "", ClusteringAddr := "",
    Labels := [], CreatedAt := 0, UpdatedAt := 0, Version := "" }

/-- User resource with the given ID and username, every other field zero. -/
def mkUser (uid : id.User) (username : String) : user.Resource :=
  { ID := uid, Username := username, IsAdmin := false, Groups := [],
    CreatedAt := 0, UpdatedAt := 0, Version := "" }

end apiclient

/-! ## Flag sets and fallbacks used as concrete inputs -/

namespace flags

/-- Flag set in which every flag has been set explicitly, each to the zero
value of its type. -/
def zeroFlagSet : FlagSet String where
  Changed := fun _ => true
  GetBool := fun _ => (false, none)
  GetDuration := fun _ => (0, none)
  GetString := fun _ => ("", none)
  GetStringArray := fun _ => ([], none)

/-- Flag set in which every flag has been set explicitly to a non-zero value. -/
def setFlagSet : FlagSet String where
  Changed := fun _ => true
  GetBool := fun _ => (true, none)
  GetDuration := fun _ => (5000000000, none)
  GetString := fun _ => ("from-flag", none)
  GetStringArray := fun _ => (["flag-host:5705"], none)

/-- Fallback provider whose every accessor succeeds with a non-zero value. -/
def sampleFallback : config.Provider String where
  AuthCacheDisabled := (true, none)
  APIEndpoints := (["fallback-host:5705"], none)
  CacheDir := ("fallback-cache", none)
  CommandTimeout := (15000000000, none)
  Username := ("fallback-user", none)
  Password := ("fallback-password", none)
  UseIDs := (true, none)
  Namespace := ("fallback-namespace", none)
  OutputFormat := (output.Format.JSON, none)
  ConfigFilePath := ("fallback-config", none)

end flags

/-! ## Go errors and library functions of the configuration layer -/

/-- Go `error` values of the configuration layer, by dynamic type: a value
made by `errors.New` or `fmt.Errorf` (kept by its message), a
`*strconv.NumError`, and the `*exec.ExitError` of a command that ran and
exited with a failure code. -/
inductive GoError where
  | errorString (msg : String)
  | numError (Func : String) (Num : String) (Err : String)
  | exitError (code : Int)
deriving DecidableEq, Repr

namespace strconv

/-- Library function strconv.ParseBool: it accepts 1, t, T, TRUE, true, True,
0, f, F, FALSE, false, False; any other value returns a syntax error. -/
def ParseBool (str : String) : Bool × Option GoError :=
  if str = "1" ∨ str = "t" ∨ str = "T" ∨ str = "true" ∨ str = "TRUE" ∨ str = "True" then
    (true, none)
  else if str = "0" ∨ str = "f" ∨ str = "F" ∨ str = "false" ∨ str = "FALSE" ∨ str = "False" then
    (false, none)
  else (false, some (GoError.numError "ParseBool" str "invalid syntax"))

end strconv

namespace unicode

/-- Library function unicode.IsSpace: the code points with the Unicode
White_Space property. -/
def IsSpace (c : Char) : Bool :=
  (9 ≤ c.toNat && c.toNat ≤ 13) || c.toNat == 32 || c.toNat == 0x85 || c.toNat == 0xA0 ||
  c.toNat == 0x1680 || (0x2000 ≤ c.toNat && c.toNat ≤ 0x200a) || c.toNat == 0x2028 ||
  c.toNat == 0x2029 || c.toNat == 0x202f || c.toNat == 0x205f || c.toNat == 0x3000

end unicode

namespace strings

/-- Library function strings.TrimSpace: the string without its leading and
trailing white space. -/
def TrimSpace (s : String) : String :=
  String.mk (((s.data.dropWhile unicode.IsSpace).reverse.dropWhile unicode.IsSpace).reverse)

end strings

/-! ## config/flags: the output format accessor -/

namespace flags

/-- OutputFormat of flags.go. The parser output.FormatFromString is not part
of the sources at hand and is taken as a parameter; the zero value of
output.Format returned with a read error is `Unknown`. -/
def Provider.OutputFormat {ε : Type} (flag : Provider ε)
    (FormatFromString : String → output.Format × Option ε) : output.Format × Option ε :=
  match flag.set.GetString OutputFormatFlag with
  | (_, some err) => (output.Format.Unknown, some err)
  | (out, none) =>
    if !flag.set.Changed OutputFormatFlag then flag.fallback.OutputFormat
    else
      match FormatFromString out with
      | (_, some err) => (output.Format.Unknown, some err)
      | (outputType, none) => (outputType, none)

end flags

/-! ## config/environment: environment-backed provider -/

namespace environment

def AuthCacheDisabledVar : String := "STORAGEOS_NO_AUTH_CACHE"
def CacheDirVar : String := "STORAGEOS_CACHE_DIR"
def CommandTimeoutVar : String := "STORAGEOS_API_TIMEOUT"
def UsernameVar : String := "STORAGEOS_USERNAME"
def PasswordVar : String := "STORAGEOS_PASSWORD"
def PasswordCommandVar : String := "STORAGEOS_PASSWORD_COMMAND"
def UseIDsVar : String := "STORAGEOS_USE_IDS"
def NamespaceVar : String := "STORAGEOS_NAMESPACE"
def OutputFormatVar : String := "STORAGEOS_OUTPUT_FORMAT"
def ConfigFilePathVar : String := "STORAGEOS_CONFIG"

/-- What the provider reaches outside the program. `Getenv` is os.Getenv, the
empty string standing for an unset variable. `Run` is
`exec.Command(name)` started with its standard output captured and run to
completion: the captured output and the error of `cmd.Run()`.
`ParseDuration` is time.ParseDuration and `FormatFromString` is
output.FormatFromString, both taken as given. -/
structure Host where
  Getenv : String → String
  Run : String → String × Option GoError
  ParseDuration : String → time.Duration × Option GoError
  FormatFromString : String → output.Format × Option GoError

/-- Struct Provider of environment.go. -/
structure Provider where
  fallback : config.Provider GoError

/-- AuthCacheDisabled of environment.go. -/
def Provider.AuthCacheDisabled (env : Provider) (os : Host) : Bool × Option GoError :=
  let disabledString := os.Getenv AuthCacheDisabledVar
  if disabledString = "" then env.fallback.AuthCacheDisabled
  else strconv.ParseBool disabledString

/-- CacheDir of environment.go. -/
def Provider.CacheDir (env : Provider) (os : Host) : String × Option GoError :=
  let cacheString := os.Getenv CacheDirVar
  if cacheString = "" then env.fallback.CacheDir
  else (cacheString, none)

/-- CommandTimeout of environment.go. -/
def Provider.CommandTimeout (env : Provider) (os : Host) : time.Duration × Option GoError :=
  let timeoutString := os.Getenv CommandTimeoutVar
  if timeoutString = "" then env.fallback.CommandTimeout
  else os.ParseDuration timeoutString

/-- Username of environment.go. -/
def Provider.Username (env : Provider) (os : Host) : String × Option GoError :=
  let username := os.Getenv UsernameVar
  if username = "" then env.fallback.Username
  else (username, none)

/-- Password of environment.go. -/
def Provider.Password (env : Provider) (os : Host) : String × Option GoError :=
  let passwordCommand := os.Getenv PasswordCommandVar
  if passwordCommand ≠ "" then
    match os.Run passwordCommand with
    | (_, some (GoError.exitError code)) =>
      ("", some (GoError.errorString
        ("password command exited with error code " ++ toString code)))
    | (_, some err) => ("", some err)
    | (b, none) => (strings.TrimSpace b, none)
  else
    let password := os.Getenv PasswordVar
    if password = "" then env.fallback.Password
    else (password, none)

/-- UseIDs of environment.go. -/
def Provider.UseIDs (env : Provider) (os : Host) : Bool × Option GoError :=
  let useIDs := os.Getenv UseIDsVar
  if useIDs = "" then env.fallback.UseIDs
  else strconv.ParseBool useIDs

/-- Namespace of environment.go. -/
def Provider.Namespace (env : Provider) (os : Host) : String × Option GoError :=
  let ns := os.Getenv NamespaceVar
  if ns = "" then env.fallback.Namespace
  else (ns, none)

/-- OutputFormat of environment.go. -/
def Provider.OutputFormat (env : Provider) (os : Host) : output.Format × Option GoError :=
  let out := os.Getenv OutputFormatVar
  if out = "" then env.fallback.OutputFormat
  else
    match os.FormatFromString out with
    | (_, some err) => (output.Format.Unknown, some err)
    | (outputType, none) => (outputType, none)

/-- ConfigFilePath of environment.go. -/
def Provider.ConfigFilePath (env : Provider) (os : Host) : String × Option GoError :=
  let path := os.Getenv ConfigFilePathVar
  if path = "" then env.fallback.ConfigFilePath
  else (path, none)

end environment

/-! ## licence, namespace and volume resources -/

namespace id

/-- Cluster identifier, `type Cluster string`. -/
abbrev Cluster := String

/-- Namespace identifier, `type Namespace string`. -/
abbrev Namespace := String

/-- Volume identifier, `type Volume string`. -/
abbrev Volume := String

/-- Deployment identifier, `type Deployment string`. -/
abbrev Deployment := String

end id

namespace health

/-- Health state of a volume deployment, `type VolumeState string`. -/
abbrev VolumeState := String

end health

namespace licence

/-- Licence resource (licence/licence.go). -/
structure Resource where
  ClusterID : id.Cluster
  ExpiresAt : time.Time
  ClusterCapacityBytes : Nat
  UsedBytes : Nat
  Kind : String
  CustomerName : String
  Features : List String
  Version : version.Version
deriving DecidableEq, Repr

end licence

namespace namespace_

/-- Namespace resource (namespace/namespace.go, package `namespace`). -/
structure Resource where
  ID : id.Namespace
  Name : String
  Labels : labels.Set
  CreatedAt : time.Time
  UpdatedAt : time.Time
  Version : version.Version
deriving DecidableEq, Repr

end namespace_

namespace volume

/-- Filesystem kind, `type FsType string`. -/
abbrev FsType := String

/-- Attachment type, `type AttachType string`. -/
abbrev AttachType := String

/-- SyncProgress of volume.go. -/
structure SyncProgress where
  BytesRemaining : Nat
  ThroughputBytes : Nat
  EstimatedSecondsRemaining : Nat
deriving DecidableEq, Repr

/-- Deployment of volume.go. -/
structure Deployment where
  ID : id.Deployment
  Node : id.Node
  Health : health.VolumeState
  Promotable : Bool
  SyncProgress : Option SyncProgress
deriving DecidableEq, Repr

/-- NFSExportConfigACLIdentity of volume.go. -/
structure NFSExportConfigACLIdentity where
  IdentityType : String
  Matcher : String
deriving DecidableEq, Repr

/-- NFSExportConfigACLSquashConfig of volume.go. -/
structure NFSExportConfigACLSquashConfig where
  GID : Int
  UID : Int
  Squash : String
deriving DecidableEq, Repr

/-- NFSExportConfigACL of volume.go. -/
structure NFSExportConfigACL where
  Identity : NFSExportConfigACLIdentity
  SquashConfig : NFSExportConfigACLSquashConfig
  AccessLevel : String
deriving DecidableEq, Repr

/-- NFSExportConfig of volume.go. -/
structure NFSExportConfig where
  ExportID : Nat
  Path : String
  PseudoPath : String
  ACLs : List NFSExportConfigACL
deriving DecidableEq, Repr

/-- NFSConfig of volume.go. -/
structure NFSConfig where
  Exports : List NFSExportConfig
  ServiceEndpoint : String
deriving DecidableEq, Repr

/-- Volume resource (volume/volume.go). -/
structure Resource where
  ID : id.Volume
  Name : String
  Description : String
  AttachedOn : id.Node
  AttachmentType : AttachType
  Nfs : NFSConfig
  Namespace : id.Namespace
  Labels : labels.Set
  Filesystem : FsType
  SizeBytes : Nat
  Master : Option Deployment
  Replicas : List Deployment
  CreatedAt : time.Time
  UpdatedAt : time.Time
  Version : version.Version
deriving DecidableEq, Repr

end volume

/-! ## Request parameters and the licence update of the OpenAPI transport -/

namespace version

/-- Modelled from the spec: function version.FromString, whose package is not
part of the sources at hand. Like the other FromString helpers of the
repository it wraps the string as a Version without any check. -/
def FromString (s : String) : Version := s

/-- Method String of Version: the string of the token. -/
def Version.String (v : Version) : String := v

end version

namespace apiclient

/-- DeleteNodeRequestParams of node.go (named here for the delete node command). -/
structure DeleteNodeRequestParams where
  CASVersion : version.Version
  AsyncMax : time.Duration
deriving DecidableEq, Repr

/-- DeleteVolumeRequestParams, with the fields the delete volume command sets. -/
structure DeleteVolumeRequestParams where
  CASVersion : version.Version
  AsyncMax : time.Duration
  OfflineDelete : Bool
deriving DecidableEq, Repr

/-- DetachVolumeRequestParams, with the fields the detach command sets. -/
structure DetachVolumeRequestParams where
  CASVersion : version.Version
  AsyncMax : time.Duration
deriving DecidableEq, Repr

/-- UpdateVolumeRequestParams, with the fields the update commands set. -/
structure UpdateVolumeRequestParams where
  CASVersion : version.Version
  AsyncMax : time.Duration
deriving DecidableEq, Repr

/-- ResizeVolumeRequestParams. The resize command sets CASVersion only; the
field AsyncMax is part of the model so that its value in the request can be
stated. -/
structure ResizeVolumeRequestParams where
  CASVersion : version.Version
  AsyncMax : time.Duration
deriving DecidableEq, Repr

/-- UpdateLicenceRequestParams: the CAS version, as in UpdateClusterRequestParams. -/
structure UpdateLicenceRequestParams where
  CASVersion : version.Version
deriving DecidableEq, Repr

end apiclient

namespace optional

/-- Function optional.NewBool: an optional boolean that is set; the unset
value is `none`. -/
def NewBool (b : Bool) : Option Bool := some b

end optional

namespace openapi

/-- Request body of the licence update; the command fills `Key` and `Version`. -/
structure UpdateLicence where
  Key : String
  Version : String
deriving DecidableEq, Repr

/-- Options of the licence update call. -/
structure UpdateLicenceOpts where
  IgnoreVersion : Option Bool
deriving DecidableEq, Repr

/-- The parts of the OpenAPI transport that UpdateLicence uses: the call
`o.client.DefaultApi.UpdateLicence`, the error mapping `mapOpenAPIError` and
the decoder `o.codec.decodeLicence`, none of which is part of the sources at
hand. `Model` is the type of the decoded body and `Resp` the type of the HTTP
response. -/
structure OpenAPI (Ctx σ ε Model Resp : Type) where
  DefaultApiUpdateLicence :
    Ctx → UpdateLicence → UpdateLicenceOpts → σ → (Model × Resp × Option ε) × σ
  mapOpenAPIError : ε → Resp → ε
  decodeLicence : Model → Option licence.Resource × Option ε

/-- Lines 33 to 45 of UpdateLicence: the request and the options that are
sent. The licence bytes (`licenceKey`) are embedded as a string, so that
`string(licence)` is the identity. -/
def updateLicenceRequest (licenceKey : String)
    (params : Option apiclient.UpdateLicenceRequestParams) :
    UpdateLicence × UpdateLicenceOpts :=
  let req : UpdateLicence := { Key := licenceKey, Version := "" }
  let opts : UpdateLicenceOpts := { IgnoreVersion := optional.NewBool true }
  match params with
  | some p =>
    if p.CASVersion ≠ "" then
      ({ req with Version := p.CASVersion.String },
       { opts with IgnoreVersion := optional.NewBool false })
    else (req, opts)
  | none => (req, opts)

/-- UpdateLicence of openapi/licence.go; `licenceKey` is its argument `licence`. -/
def OpenAPI.UpdateLicence {Ctx σ ε Model Resp : Type} (o : OpenAPI Ctx σ ε Model Resp)
    (ctx : Ctx) (licenceKey : String) (params : Option apiclient.UpdateLicenceRequestParams)
    (s : σ) : (Option licence.Resource × Option ε) × σ :=
  match o.DefaultApiUpdateLicence ctx (updateLicenceRequest licenceKey params).1
      (updateLicenceRequest licenceKey params).2 s with
  | ((_, resp, some err), s') => ((none, some (o.mapOpenAPIError err resp)), s')
  | ((lic, _, none), s') => (o.decodeLicence lic, s')

/-- The transport that behaves as `o` and appends the request and the options
of each licence update call to a log. -/
def OpenAPI.recorded {Ctx σ ε Model Resp : Type} (o : OpenAPI Ctx σ ε Model Resp) :
    OpenAPI Ctx (σ × List (openapi.UpdateLicence × openapi.UpdateLicenceOpts)) ε Model Resp where
  DefaultApiUpdateLicence := fun ctx req opts s =>
    ((o.DefaultApiUpdateLicence ctx req opts s.1).1,
      ((o.DefaultApiUpdateLicence ctx req opts s.1).2, s.2 ++ [(req, opts)]))
  mapOpenAPIError := o.mapOpenAPIError
  decodeLicence := o.decodeLicence

/-- Transport without state whose licence update call answers with an empty
body that decodes to no licence. -/
def okAPI : OpenAPI Unit Unit String Unit Unit where
  DefaultApiUpdateLicence := fun _ _ _ s => (((), (), none), s)
  mapOpenAPIError := fun e _ => e
  decodeLicence := fun _ => (none, none)

end openapi

/-! ## cmd/runwrappers -/

/-- What a Go function with result type `error` does when called: it returns
an error value (`none` for nil) or it panics at run time. -/
inductive Outcome (ε : Type) where
  | returned (err : Option ε)
  | panicked
deriving DecidableEq, Repr

namespace runwrappers

/-- Function type RunEWithContext: a run function with its context, command
and arguments, acting on the state of the world. -/
def RunEWithContext (Ctx Cmd σ : Type) : Type :=
  Ctx → Cmd → List String → σ → Outcome GoError × σ

/-- Function type WrapRunEWithContext. -/
def WrapRunEWithContext (Ctx Cmd σ : Type) : Type :=
  RunEWithContext Ctx Cmd σ → RunEWithContext Ctx Cmd σ

/-- Error value ErrTargetOrSelector. -/
def ErrTargetOrSelector : GoError :=
  GoError.errorString "a target name or unique identifier cannot be used with a label selector"

/-- EnsureTargetOrSelectors of runwrappers.go; `selectors` is the slice that
the pointer argument refers to when the wrapped function runs. -/
def EnsureTargetOrSelectors {Ctx Cmd σ : Type} (selectors : List String) :
    WrapRunEWithContext Ctx Cmd σ :=
  fun next ctx cmd args s =>
    if selectors.length > 0 ∧ args.length > 0 then
      (Outcome.returned (some ErrTargetOrSelector), s)
    else next ctx cmd args s

/-- Run function that counts its invocations in the state, records the
arguments of the last one and returns the given error. -/
def countingRun (err : Option GoError) : RunEWithContext String String (Nat × List String) :=
  fun _ _ args s => (Outcome.returned err, (s.1 + 1, args))

end runwrappers

/-! ## cmd/delete: the delete node and delete volume commands

The client and the displayer are interfaces with side effects; each of their
methods is a state transformer on the state of the world. The configuration
provider is read without side effects. Only the methods that the commands
below call are listed. The `cmd` argument of a run function is not used by it
and is left out. -/

namespace output

/-- Confirmation of a node deletion, `output.NodeDeletion{ID: nodeID}`. -/
structure NodeDeletion where
  ID : id.Node
deriving DecidableEq, Repr

/-- Confirmation of a volume deletion, with the two fields the text displayer reads. -/
structure VolumeDeletion where
  ID : id.Volume
  Namespace : id.Namespace
deriving DecidableEq, Repr

end output

namespace delete

/-- Interface Client of delete.go. -/
structure Client (Ctx σ ε : Type) where
  GetNodeByName : Ctx → String → σ → (Option node.Resource × Option ε) × σ
  GetNamespaceByName : Ctx → String → σ → (Option namespace_.Resource × Option ε) × σ
  GetVolumeByName :
    Ctx → id.Namespace → String → σ → (Option volume.Resource × Option ε) × σ
  DeleteNode : Ctx → id.Node → Option apiclient.DeleteNodeRequestParams → σ → Option ε × σ
  DeleteVolume :
    Ctx → id.Namespace → id.Volume → Option apiclient.DeleteVolumeRequestParams → σ →
      Option ε × σ

/-- Interface Displayer of delete.go. -/
structure Displayer (Ctx W σ ε : Type) where
  DeleteVolume : Ctx → W → output.VolumeDeletion → σ → Option ε × σ
  AsyncRequest : Ctx → W → σ → Option ε × σ
  DeleteNode : Ctx → W → output.NodeDeletion → σ → Option ε × σ

/-- Struct nodeCommand of delete/node.go; `useCAS` is the value that the
closure `useCAS()` reports. -/
structure nodeCommand (Ctx W σ ε : Type) where
  config : config.Provider ε
  client : Client Ctx σ ε
  display : Displayer Ctx W σ ε
  useCAS : Bool
  casVersion : String
  useAsync : Bool
  writer : W

section

variable {Ctx W σ ε : Type}

/-- Lines 67 to 80 of nodeCommand.runWithCtx: the delete request and the display. -/
def nodeCommand.request (c : nodeCommand Ctx W σ ε) (ctx : Ctx) (nodeID : id.Node)
    (params : apiclient.DeleteNodeRequestParams) (s : σ) : Outcome ε × σ :=
  match c.client.DeleteNode ctx nodeID (some params) s with
  | (some err, s1) => (Outcome.returned (some err), s1)
  | (none, s1) =>
    if c.useAsync then
      match c.display.AsyncRequest ctx c.writer s1 with
      | (e, s2) => (Outcome.returned e, s2)
    else
      match c.display.DeleteNode ctx c.writer { ID := nodeID } s1 with
      | (e, s2) => (Outcome.returned e, s2)

/-- Lines 56 to 65 of nodeCommand.runWithCtx, followed by the request: the
node ID is `args[0]`, or the ID of the node of that name. Indexing an empty
`args` and reading the ID of a nil resource panic. -/
def nodeCommand.resolve (c : nodeCommand Ctx W σ ε) (ctx : Ctx) (args : List String)
    (useIDs : Bool) (params : apiclient.DeleteNodeRequestParams) (s : σ) : Outcome ε × σ :=
  match args with
  | [] => (Outcome.panicked, s)
  | arg0 :: _ =>
    if !useIDs then
      match c.client.GetNodeByName ctx arg0 s with
      | ((_, some err), s1) => (Outcome.returned (some err), s1)
      | ((none, none), s1) => (Outcome.panicked, s1)
      | ((some n, none), s1) => c.request ctx n.ID params s1
    else c.request ctx arg0 params s

/-- Method nodeCommand.runWithCtx of delete/node.go. -/
def nodeCommand.runWithCtx (c : nodeCommand Ctx W σ ε) (ctx : Ctx) (args : List String)
    (s : σ) : Outcome ε × σ :=
  match c.config.UseIDs with
  | (_, some err) => (Outcome.returned (some err), s)
  | (useIDs, none) =>
    let params : apiclient.DeleteNodeRequestParams := { CASVersion := "", AsyncMax := 0 }
    let params :=
      if c.useCAS then { params with CASVersion := version.FromString c.casVersion } else params
    if c.useAsync then
      match c.config.CommandTimeout with
      | (_, some err) => (Outcome.returned (some err), s)
      | (timeout, none) => c.resolve ctx args useIDs { params with AsyncMax := timeout } s
    else c.resolve ctx args useIDs params s

end

/-- Struct volumeCommand of delete/volume.go; `namespace_` is its field `namespace`. -/
structure volumeCommand (Ctx W σ ε : Type) where
  config : config.Provider ε
  client : Client Ctx σ ε
  display : Displayer Ctx W σ ε
  namespace_ : String
  useCAS : Bool
  casVersion : String
  useAsync : Bool
  useOfflineDelete : Bool
  writer : W

section

variable {Ctx W σ ε : Type}

/-- Lines 82 to 100 of volumeCommand.runWithCtx: the delete request and the
display. The constructor output.NewVolumeDeletion is taken as a parameter. -/
def volumeCommand.request (c : volumeCommand Ctx W σ ε)
    (NewVolumeDeletion : id.Volume → id.Namespace → output.VolumeDeletion) (ctx : Ctx)
    (namespaceID : id.Namespace) (volumeID : id.Volume)
    (params : apiclient.DeleteVolumeRequestParams) (s : σ) : Outcome ε × σ :=
  match c.client.DeleteVolume ctx namespaceID volumeID (some params) s with
  | (some err, s1) => (Outcome.returned (some err), s1)
  | (none, s1) =>
    if c.useAsync then
      match c.display.AsyncRequest ctx c.writer s1 with
      | (e, s2) => (Outcome.returned e, s2)
    else
      match c.display.DeleteVolume ctx c.writer (NewVolumeDeletion volumeID namespaceID) s1 with
      | (e, s2) => (Outcome.returned e, s2)

/-- Lines 63 to 80 of volumeCommand.runWithCtx, followed by the request. -/
def volumeCommand.resolve (c : volumeCommand Ctx W σ ε)
    (NewVolumeDeletion : id.Volume → id.Namespace → output.VolumeDeletion) (ctx : Ctx)
    (args : List String) (useIDs : Bool) (params : apiclient.DeleteVolumeRequestParams)
    (s : σ) : Outcome ε × σ :=
  match args with
  | [] => (Outcome.panicked, s)
  | arg0 :: _ =>
    if !useIDs then
      match c.client.GetNamespaceByName ctx c.namespace_ s with
      | ((_, some err), s1) => (Outcome.returned (some err), s1)
      | ((none, none), s1) => (Outcome.panicked, s1)
      | ((some ns, none), s1) =>
        match c.client.GetVolumeByName ctx ns.ID arg0 s1 with
        | ((_, some err), s2) => (Outcome.returned (some err), s2)
        | ((none, none), s2) => (Outcome.panicked, s2)
        | ((some vol, none), s2) => c.request NewVolumeDeletion ctx ns.ID vol.ID params s2
    else c.request NewVolumeDeletion ctx c.namespace_ arg0 params s

/-- Method volumeCommand.runWithCtx of delete/volume.go. -/
def volumeCommand.runWithCtx (c : volumeCommand Ctx W σ ε)
    (NewVolumeDeletion : id.Volume → id.Namespace → output.VolumeDeletion) (ctx : Ctx)
    (args : List String) (s : σ) : Outcome ε × σ :=
  match c.config.UseIDs with
  | (_, some err) => (Outcome.returned (some err), s)
  | (useIDs, none) =>
    let params : apiclient.DeleteVolumeRequestParams :=
      { CASVersion := "", AsyncMax := 0, OfflineDelete := c.useOfflineDelete }
    let params :=
      if c.useCAS then { params with CASVersion := version.FromString c.casVersion } else params
    if c.useAsync then
      match c.config.CommandTimeout with
      | (_, some err) => (Outcome.returned (some err), s)
      | (timeout, none) =>
        c.resolve NewVolumeDeletion ctx args useIDs { params with AsyncMax := timeout } s
    else c.resolve NewVolumeDeletion ctx args useIDs params s

end

/-- Calls on the client and the displayer of the delete commands. -/
inductive Call (Ctx W : Type) where
  | GetNodeByName (ctx : Ctx) (name : String)
  | GetNamespaceByName (ctx : Ctx) (name : String)
  | GetVolumeByName (ctx : Ctx) (namespaceID : id.Namespace) (name : String)
  | DeleteNode (ctx : Ctx) (nodeID : id.Node)
      (params : Option apiclient.DeleteNodeRequestParams)
  | DeleteVolume (ctx : Ctx) (namespaceID : id.Namespace) (volumeID : id.Volume)
      (params : Option apiclient.DeleteVolumeRequestParams)
  | DisplayDeleteVolume (ctx : Ctx) (w : W) (confirmation : output.VolumeDeletion)
  | DisplayAsyncRequest (ctx : Ctx) (w : W)
  | DisplayDeleteNode (ctx : Ctx) (w : W) (confirmation : output.NodeDeletion)
deriving DecidableEq, Repr

section

variable {Ctx W σ ε : Type}

/-- The client that behaves as `cl` and appends each call it receives to a log. -/
def Client.recorded (cl : Client Ctx σ ε) : Client Ctx (σ × List (Call Ctx W)) ε where
  GetNodeByName := fun ctx name s =>
    ((cl.GetNodeByName ctx name s.1).1,
      ((cl.GetNodeByName ctx name s.1).2, s.2 ++ [Call.GetNodeByName ctx name]))
  GetNamespaceByName := fun ctx name s =>
    ((cl.GetNamespaceByName ctx name s.1).1,
      ((cl.GetNamespaceByName ctx name s.1).2, s.2 ++ [Call.GetNamespaceByName ctx name]))
  GetVolumeByName := fun ctx nsID name s =>
    ((cl.GetVolumeByName ctx nsID name s.1).1,
      ((cl.GetVolumeByName ctx nsID name s.1).2, s.2 ++ [Call.GetVolumeByName ctx nsID name]))
  DeleteNode := fun ctx nodeID params s =>
    ((cl.DeleteNode ctx nodeID params s.1).1,
      ((cl.DeleteNode ctx nodeID params s.1).2, s.2 ++ [Call.DeleteNode ctx nodeID params]))
  DeleteVolume := fun ctx nsID volID params s =>
    ((cl.DeleteVolume ctx nsID volID params s.1).1,
      ((cl.DeleteVolume ctx nsID volID params s.1).2,
        s.2 ++ [Call.DeleteVolume ctx nsID volID params]))

/-- The displayer that behaves as `d` and appends each call it receives to a log. -/
def Displayer.recorded (d : Displayer Ctx W σ ε) :
    Displayer Ctx W (σ × List (Call Ctx W)) ε where
  DeleteVolume := fun ctx w confirmation s =>
    ((d.DeleteVolume ctx w confirmation s.1).1,
      ((d.DeleteVolume ctx w confirmation s.1).2,
        s.2 ++ [Call.DisplayDeleteVolume ctx w confirmation]))
  AsyncRequest := fun ctx w s =>
    ((d.AsyncRequest ctx w s.1).1,
      ((d.AsyncRequest ctx w s.1).2, s.2 ++ [Call.DisplayAsyncRequest ctx w]))
  DeleteNode := fun ctx w confirmation s =>
    ((d.DeleteNode ctx w confirmation s.1).1,
      ((d.DeleteNode ctx w confirmation s.1).2,
        s.2 ++ [Call.DisplayDeleteNode ctx w confirmation]))

/-- The delete node command with its client and displayer recorded. -/
def nodeCommand.recorded (c : nodeCommand Ctx W σ ε) :
    nodeCommand Ctx W (σ × List (Call Ctx W)) ε :=
  { config := c.config, client := c.client.recorded, display := c.display.recorded,
    useCAS := c.useCAS, casVersion := c.casVersion, useAsync := c.useAsync,
    writer := c.writer }

/-- The delete volume command with its client and displayer recorded. -/
def volumeCommand.recorded (c : volumeCommand Ctx W σ ε) :
    volumeCommand Ctx W (σ × List (Call Ctx W)) ε :=
  { config := c.config, client := c.client.recorded, display := c.display.recorded,
    namespace_ := c.namespace_, useCAS := c.useCAS, casVersion := c.casVersion,
    useAsync := c.useAsync, useOfflineDelete := c.useOfflineDelete, writer := c.writer }

/-- The CAS version of the parameters of a mutating call; `none` for any
other call and for a mutating call with nil parameters. -/
def Call.casVersion : Call Ctx W → Option version.Version
  | Call.DeleteNode _ _ (some params) => some params.CASVersion
  | Call.DeleteVolume _ _ _ (some params) => some params.CASVersion
  | _ => none

/-- Whether the call is one of the mutating calls DeleteNode and DeleteVolume. -/
def Call.isMutating : Call Ctx W → Bool
  | Call.DeleteNode _ _ _ => true
  | Call.DeleteVolume _ _ _ _ => true
  | _ => false

/-- Whether the call is a call on the displayer. -/
def Call.isDisplay : Call Ctx W → Bool
  | Call.DisplayDeleteVolume _ _ _ => true
  | Call.DisplayAsyncRequest _ _ => true
  | Call.DisplayDeleteNode _ _ _ => true
  | _ => false

end

end delete

/-! ## cmd/detach: the detach command -/

namespace detach

/-- Interface Client of detach.go. -/
structure Client (Ctx σ ε : Type) where
  GetNamespaceByName : Ctx → String → σ → (Option namespace_.Resource × Option ε) × σ
  GetVolumeByName :
    Ctx → id.Namespace → String → σ → (Option volume.Resource × Option ε) × σ
  DetachVolume :
    Ctx → id.Namespace → id.Volume → Option apiclient.DetachVolumeRequestParams → σ →
      Option ε × σ

/-- Interface Displayer of detach.go. -/
structure Displayer (Ctx W σ ε : Type) where
  DetachVolume : Ctx → W → σ → Option ε × σ
  AsyncRequest : Ctx → W → σ → Option ε × σ

/-- Struct detachCommand of detach.go; `namespace_` is its field `namespace`. -/
structure detachCommand (Ctx W σ ε : Type) where
  config : config.Provider ε
  client : Client Ctx σ ε
  display : Displayer Ctx W σ ε
  namespace_ : String
  useCAS : Bool
  casVersion : String
  useAsync : Bool
  writer : W

section

variable {Ctx W σ ε : Type}

/-- Lines 117 to 131 of detachCommand.runWithCtx: the detach request and the display. -/
def detachCommand.request (c : detachCommand Ctx W σ ε) (ctx : Ctx)
    (namespaceID : id.Namespace) (volumeID : id.Volume)
    (params : apiclient.DetachVolumeRequestParams) (s : σ) : Outcome ε × σ :=
  match c.client.DetachVolume ctx namespaceID volumeID (some params) s with
  | (some err, s1) => (Outcome.returned (some err), s1)
  | (none, s1) =>
    if c.useAsync then
      match c.display.AsyncRequest ctx c.writer s1 with
      | (e, s2) => (Outcome.returned e, s2)
    else
      match c.display.DetachVolume ctx c.writer s1 with
      | (e, s2) => (Outcome.returned e, s2)

/-- Lines 101 to 115 of detachCommand.runWithCtx, followed by the request:
the parameters with the CAS version and the asynchronous timeout. -/
def detachCommand.compose (c : detachCommand Ctx W σ ε) (ctx : Ctx)
    (namespaceID : id.Namespace) (volumeID : id.Volume) (s : σ) : Outcome ε × σ :=
  let params : apiclient.DetachVolumeRequestParams := { CASVersion := "", AsyncMax := 0 }
  let params :=
    if c.useCAS then { params with CASVersion := version.FromString c.casVersion } else params
  if c.useAsync then
    match c.config.CommandTimeout with
    | (_, some err) => (Outcome.returned (some err), s)
    | (timeout, none) => c.request ctx namespaceID volumeID { params with AsyncMax := timeout } s
  else c.request ctx namespaceID volumeID params s

/-- Method detachCommand.runWithCtx of detach.go. -/
def detachCommand.runWithCtx (c : detachCommand Ctx W σ ε) (ctx : Ctx) (args : List String)
    (s : σ) : Outcome ε × σ :=
  match c.config.UseIDs with
  | (_, some err) => (Outcome.returned (some err), s)
  | (useIDs, none) =>
    match args with
    | [] => (Outcome.panicked, s)
    | arg0 :: _ =>
      if !useIDs then
        match c.client.GetNamespaceByName ctx c.namespace_ s with
        | ((_, some err), s1) => (Outcome.returned (some err), s1)
        | ((none, none), s1) => (Outcome.panicked, s1)
        | ((some ns, none), s1) =>
          match c.client.GetVolumeByName ctx ns.ID arg0 s1 with
          | ((_, some err), s2) => (Outcome.returned (some err), s2)
          | ((none, none), s2) => (Outcome.panicked, s2)
          | ((some vol, none), s2) => c.compose ctx ns.ID vol.ID s2
      else c.compose ctx c.namespace_ arg0 s

end

/-- Calls on the client and the displayer of the detach command. -/
inductive Call (Ctx W : Type) where
  | GetNamespaceByName (ctx : Ctx) (name : String)
  | GetVolumeByName (ctx : Ctx) (namespaceID : id.Namespace) (name : String)
  | DetachVolume (ctx : Ctx) (namespaceID : id.Namespace) (volumeID : id.Volume)
      (params : Option apiclient.DetachVolumeRequestParams)
  | DisplayDetachVolume (ctx : Ctx) (w : W)
  | DisplayAsyncRequest (ctx : Ctx) (w : W)
deriving DecidableEq, Repr

section

variable {Ctx W σ ε : Type}

/-- The client that behaves as `cl` and appends each call it receives to a log. -/
def Client.recorded (cl : Client Ctx σ ε) : Client Ctx (σ × List (Call Ctx W)) ε where
  GetNamespaceByName := fun ctx name s =>
    ((cl.GetNamespaceByName ctx name s.1).1,
      ((cl.GetNamespaceByName ctx name s.1).2, s.2 ++ [Call.GetNamespaceByName ctx name]))
  GetVolumeByName := fun ctx nsID name s =>
    ((cl.GetVolumeByName ctx nsID name s.1).1,
      ((cl.GetVolumeByName ctx nsID name s.1).2, s.2 ++ [Call.GetVolumeByName ctx nsID name]))
  DetachVolume := fun ctx nsID volID params s =>
    ((cl.DetachVolume ctx nsID volID params s.1).1,
      ((cl.DetachVolume ctx nsID volID params s.1).2,
        s.2 ++ [Call.DetachVolume ctx nsID volID params]))

/-- The displayer that behaves as `d` and appends each call it receives to a log. -/
def Displayer.recorded (d : Displayer Ctx W σ ε) :
    Displayer Ctx W (σ × List (Call Ctx W)) ε where
  DetachVolume := fun ctx w s =>
    ((d.DetachVolume ctx w s.1).1,
      ((d.DetachVolume ctx w s.1).2, s.2 ++ [Call.DisplayDetachVolume ctx w]))
  AsyncRequest := fun ctx w s =>
    ((d.AsyncRequest ctx w s.1).1,
      ((d.AsyncRequest ctx w s.1).2, s.2 ++ [Call.DisplayAsyncRequest ctx w]))

/-- The detach command with its client and displayer recorded. -/
def detachCommand.recorded (c : detachCommand Ctx W σ ε) :
    detachCommand Ctx W (σ × List (Call Ctx W)) ε :=
  { config := c.config, client := c.client.recorded, display := c.display.recorded,
    namespace_ := c.namespace_, useCAS := c.useCAS, casVersion := c.casVersion,
    useAsync := c.useAsync, writer := c.writer }

/-- The CAS version of the parameters of the mutating call DetachVolume;
`none` for any other call and for nil parameters. -/
def Call.casVersion : Call Ctx W → Option version.Version
  | Call.DetachVolume _ _ _ (some params) => some params.CASVersion
  | _ => none

/-- Whether the call is the mutating call DetachVolume. -/
def Call.isMutating : Call Ctx W → Bool
  | Call.DetachVolume _ _ _ _ => true
  | _ => false

end

end detach

/-! ## cmd/update: the update volume description and update volume size commands

The type `υ` is output.VolumeUpdate and the parameter `NewVolumeUpdate` is the
constructor output.NewVolumeUpdate; neither is part of the sources at hand. -/

namespace update

/-- Interface Client of update.go. -/
structure Client (Ctx σ ε : Type) where
  UpdateVolumeDescription :
    Ctx → id.Namespace → id.Volume → String → Option apiclient.UpdateVolumeRequestParams → σ →
      (Option volume.Resource × Option ε) × σ
  ResizeVolume :
    Ctx → id.Namespace → id.Volume → Nat → Option apiclient.ResizeVolumeRequestParams → σ →
      (Option volume.Resource × Option ε) × σ
  GetVolumeByName :
    Ctx → id.Namespace → String → σ → (Option volume.Resource × Option ε) × σ
  GetNamespaceByName : Ctx → String → σ → (Option namespace_.Resource × Option ε) × σ

/-- Interface Displayer of update.go. -/
structure Displayer (Ctx W σ ε υ : Type) where
  ResizeVolume : Ctx → W → υ → σ → Option ε × σ
  UpdateVolumeDescription : Ctx → W → υ → σ → Option ε × σ
  AsyncRequest : Ctx → W → σ → Option ε × σ

/-- Struct volumeDescriptionCommand of update/volume_description.go. -/
structure volumeDescriptionCommand (Ctx W σ ε υ : Type) where
  config : config.Provider ε
  client : Client Ctx σ ε
  display : Displayer Ctx W σ ε υ
  namespace_ : String
  volumeID : String
  description : String
  useCAS : Bool
  casVersion : String
  useAsync : Bool
  writer : W

/-- Struct volumeSizeCommand of update/volume_resize.go. -/
structure volumeSizeCommand (Ctx W σ ε υ : Type) where
  config : config.Provider ε
  client : Client Ctx σ ε
  display : Displayer Ctx W σ ε υ
  namespace_ : String
  volumeID : String
  sizeBytes : Nat
  useCAS : Bool
  casVersion : String
  useAsync : Bool
  writer : W

section

variable {Ctx W σ ε υ : Type}

/-- The resolution of the namespace ID and the volume ID with which both
update commands start (lines 43 to 65 of volume_description.go, lines 44 to 66
of volume_resize.go), followed by the rest of the command, `next`. -/
def resolveIDs (client : Client Ctx σ ε) (ctx : Ctx) (nsName : String) (volumeID : String)
    (useIDs : Bool) (next : id.Namespace → id.Volume → σ → Outcome ε × σ) (s : σ) :
    Outcome ε × σ :=
  if useIDs then next nsName volumeID s
  else
    match client.GetNamespaceByName ctx nsName s with
    | ((_, some err), s1) => (Outcome.returned (some err), s1)
    | ((none, none), s1) => (Outcome.panicked, s1)
    | ((some ns, none), s1) =>
      match client.GetVolumeByName ctx ns.ID volumeID s1 with
      | ((_, some err), s2) => (Outcome.returned (some err), s2)
      | ((none, none), s2) => (Outcome.panicked, s2)
      | ((some vol, none), s2) => next ns.ID vol.ID s2

/-- Lines 83 to 92 of volumeDescriptionCommand.runWithCtx: the update request
and the display. -/
def volumeDescriptionCommand.request (c : volumeDescriptionCommand Ctx W σ ε υ)
    (NewVolumeUpdate : Option volume.Resource → υ) (ctx : Ctx) (nsID : id.Namespace)
    (volID : id.Volume) (params : apiclient.UpdateVolumeRequestParams) (s : σ) :
    Outcome ε × σ :=
  match c.client.UpdateVolumeDescription ctx nsID volID c.description (some params) s with
  | ((_, some err), s1) => (Outcome.returned (some err), s1)
  | ((updatedVol, none), s1) =>
    if c.useAsync then
      match c.display.AsyncRequest ctx c.writer s1 with
      | (e, s2) => (Outcome.returned e, s2)
    else
      match c.display.UpdateVolumeDescription ctx c.writer (NewVolumeUpdate updatedVol) s1 with
      | (e, s2) => (Outcome.returned e, s2)

/-- Lines 67 to 81 of volumeDescriptionCommand.runWithCtx, followed by the request. -/
def volumeDescriptionCommand.compose (c : volumeDescriptionCommand Ctx W σ ε υ)
    (NewVolumeUpdate : Option volume.Resource → υ) (ctx : Ctx) (nsID : id.Namespace)
    (volID : id.Volume) (s : σ) : Outcome ε × σ :=
  let params : apiclient.UpdateVolumeRequestParams := { CASVersion := "", AsyncMax := 0 }
  let params :=
    if c.useCAS then { params with CASVersion := version.FromString c.casVersion } else params
  if c.useAsync then
    match c.config.CommandTimeout with
    | (_, some err) => (Outcome.returned (some err), s)
    | (timeout, none) =>
      c.request NewVolumeUpdate ctx nsID volID { params with AsyncMax := timeout } s
  else c.request NewVolumeUpdate ctx nsID volID params s

/-- Method volumeDescriptionCommand.runWithCtx of update/volume_description.go. -/
def volumeDescriptionCommand.runWithCtx (c : volumeDescriptionCommand Ctx W σ ε υ)
    (NewVolumeUpdate : Option volume.Resource → υ) (ctx : Ctx) (s : σ) : Outcome ε × σ :=
  match c.config.UseIDs with
  | (_, some err) => (Outcome.returned (some err), s)
  | (useIDs, none) =>
    resolveIDs c.client ctx c.namespace_ c.volumeID useIDs (c.compose NewVolumeUpdate ctx) s

/-- Lines 68 to 78 of volumeSizeCommand.runWithCtx: the parameters, the resize
request and the display. The field `useAsync` is not read. -/
def volumeSizeCommand.request (c : volumeSizeCommand Ctx W σ ε υ)
    (NewVolumeUpdate : Option volume.Resource → υ) (ctx : Ctx) (nsID : id.Namespace)
    (volID : id.Volume) (s : σ) : Outcome ε × σ :=
  let params : apiclient.ResizeVolumeRequestParams := { CASVersion := "", AsyncMax := 0 }
  let params :=
    if c.useCAS then { params with CASVersion := version.FromString c.casVersion } else params
  match c.client.ResizeVolume ctx nsID volID c.sizeBytes (some params) s with
  | ((_, some err), s1) => (Outcome.returned (some err), s1)
  | ((updatedVol, none), s1) =>
    match c.display.ResizeVolume ctx c.writer (NewVolumeUpdate updatedVol) s1 with
    | (e, s2) => (Outcome.returned e, s2)

/-- Method volumeSizeCommand.runWithCtx of update/volume_resize.go. -/
def volumeSizeCommand.runWithCtx (c : volumeSizeCommand Ctx W σ ε υ)
    (NewVolumeUpdate : Option volume.Resource → υ) (ctx : Ctx) (s : σ) : Outcome ε × σ :=
  match c.config.UseIDs with
  | (_, some err) => (Outcome.returned (some err), s)
  | (useIDs, none) =>
    resolveIDs c.client ctx c.namespace_ c.volumeID useIDs (c.request NewVolumeUpdate ctx) s

end

/-- Calls on the client and the displayer of the update commands. -/
inductive Call (Ctx W υ : Type) where
  | UpdateVolumeDescription (ctx : Ctx) (nsID : id.Namespace) (volID : id.Volume)
      (description : String) (params : Option apiclient.UpdateVolumeRequestParams)
  | ResizeVolume (ctx : Ctx) (nsID : id.Namespace) (volID : id.Volume) (sizeBytes : Nat)
      (params : Option apiclient.ResizeVolumeRequestParams)
  | GetVolumeByName (ctx : Ctx) (namespaceID : id.Namespace) (name : String)
  | GetNamespaceByName (ctx : Ctx) (name : String)
  | DisplayResizeVolume (ctx : Ctx) (w : W) (volUpdate : υ)
  | DisplayUpdateVolumeDescription (ctx : Ctx) (w : W) (volUpdate : υ)
  | DisplayAsyncRequest (ctx : Ctx) (w : W)
deriving DecidableEq, Repr

section

variable {Ctx W σ ε υ : Type}

/-- The client that behaves as `cl` and appends each call it receives to a log. -/
def Client.recorded (cl : Client Ctx σ ε) : Client Ctx (σ × List (Call Ctx W υ)) ε where
  UpdateVolumeDescription := fun ctx nsID volID description params s =>
    ((cl.UpdateVolumeDescription ctx nsID volID description params s.1).1,
      ((cl.UpdateVolumeDescription ctx nsID volID description params s.1).2,
        s.2 ++ [Call.UpdateVolumeDescription ctx nsID volID description params]))
  ResizeVolume := fun ctx nsID volID sizeBytes params s =>
    ((cl.ResizeVolume ctx nsID volID sizeBytes params s.1).1,
      ((cl.ResizeVolume ctx nsID volID sizeBytes params s.1).2,
        s.2 ++ [Call.ResizeVolume ctx nsID volID sizeBytes params]))
  GetVolumeByName := fun ctx nsID name s =>
    ((cl.GetVolumeByName ctx nsID name s.1).1,
      ((cl.GetVolumeByName ctx nsID name s.1).2, s.2 ++ [Call.GetVolumeByName ctx nsID name]))
  GetNamespaceByName := fun ctx name s =>
    ((cl.GetNamespaceByName ctx name s.1).1,
      ((cl.GetNamespaceByName ctx name s.1).2, s.2 ++ [Call.GetNamespaceByName ctx name]))

/-- The displayer that behaves as `d` and appends each call it receives to a log. -/
def Displayer.recorded (d : Displayer Ctx W σ ε υ) :
    Displayer Ctx W (σ × List (Call Ctx W υ)) ε υ where
  ResizeVolume := fun ctx w volUpdate s =>
    ((d.ResizeVolume ctx w volUpdate s.1).1,
      ((d.ResizeVolume ctx w volUpdate s.1).2,
        s.2 ++ [Call.DisplayResizeVolume ctx w volUpdate]))
  UpdateVolumeDescription := fun ctx w volUpdate s =>
    ((d.UpdateVolumeDescription ctx w volUpdate s.1).1,
      ((d.UpdateVolumeDescription ctx w volUpdate s.1).2,
        s.2 ++ [Call.DisplayUpdateVolumeDescription ctx w volUpdate]))
  AsyncRequest := fun ctx w s =>
    ((d.AsyncRequest ctx w s.1).1,
      ((d.AsyncRequest ctx w s.1).2, s.2 ++ [Call.DisplayAsyncRequest ctx w]))

/-- The update volume description command with its client and displayer recorded. -/
def volumeDescriptionCommand.recorded (c : volumeDescriptionCommand Ctx W σ ε υ) :
    volumeDescriptionCommand Ctx W (σ × List (Call Ctx W υ)) ε υ :=
  { config := c.config, client := c.client.recorded, display := c.display.recorded,
    namespace_ := c.namespace_, volumeID := c.volumeID, description := c.description,
    useCAS := c.useCAS, casVersion := c.casVersion, useAsync := c.useAsync,
    writer := c.writer }

/-- The update volume size command with its client and displayer recorded. -/
def volumeSizeCommand.recorded (c : volumeSizeCommand Ctx W σ ε υ) :
    volumeSizeCommand Ctx W (σ × List (Call Ctx W υ)) ε υ :=
  { config := c.config, client := c.client.recorded, display := c.display.recorded,
    namespace_ := c.namespace_, volumeID := c.volumeID, sizeBytes := c.sizeBytes,
    useCAS := c.useCAS, casVersion := c.casVersion, useAsync := c.useAsync,
    writer := c.writer }

/-- The CAS version of the parameters of a mutating call; `none` for any
other call and for a mutating call with nil parameters. -/
def Call.casVersion : Call Ctx W υ → Option version.Version
  | Call.UpdateVolumeDescription _ _ _ _ (some params) => some params.CASVersion
  | Call.ResizeVolume _ _ _ _ (some params) => some params.CASVersion
  | _ => none

/-- Whether the call is one of the mutating calls UpdateVolumeDescription and
ResizeVolume. -/
def Call.isMutating : Call Ctx W υ → Bool
  | Call.UpdateVolumeDescription _ _ _ _ _ => true
  | Call.ResizeVolume _ _ _ _ _ => true
  | _ => false

end

end update

/-! ## Concrete inputs for the configuration layer and the commands -/

namespace flags

/-- Flag set in which no flag has been set: every flag reads as a default value. -/
def defaultFlagSet : FlagSet String where
  Changed := fun _ => false
  GetBool := fun _ => (false, none)
  GetDuration := fun _ => (15000000000, none)
  GetString := fun _ => ("default", none)
  GetStringArray := fun _ => (["localhost:5705"], none)

/-- Format parser that knows the name "json" only. -/
def jsonOnly (name : String) : output.Format × Option String :=
  if name = "json" then (output.Format.JSON, none)
  else (output.Format.Unknown, some "unknown output format")

end flags

namespace environment

/-- Fallback provider whose every accessor succeeds with a valid value. -/
def sampleFallback : config.Provider GoError where
  AuthCacheDisabled := (true, none)
  APIEndpoints := (["fallback-host:5705"], none)
  CacheDir := ("fallback-cache", none)
  CommandTimeout := (15000000000, none)
  Username := ("fallback-user", none)
  Password := ("fallback-password", none)
  UseIDs := (true, none)
  Namespace := ("fallback-namespace", none)
  OutputFormat := (output.Format.YAML, none)
  ConfigFilePath := ("fallback-config", none)

/-- Fallback provider whose every accessor fails. -/
def failingFallback : config.Provider GoError where
  AuthCacheDisabled := (false, some (GoError.errorString "no setting"))
  APIEndpoints := ([], some (GoError.errorString "no setting"))
  CacheDir := ("", some (GoError.errorString "no setting"))
  CommandTimeout := (0, some (GoError.errorString "no setting"))
  Username := ("", some (GoError.errorString "no setting"))
  Password := ("", some (GoError.errorString "no setting"))
  UseIDs := (false, some (GoError.errorString "no setting"))
  Namespace := ("", some (GoError.errorString "no setting"))
  OutputFormat := (output.Format.Unknown, some (GoError.errorString "no setting"))
  ConfigFilePath := ("", some (GoError.errorString "no setting"))

/-- The value of a variable in a list of bindings, the empty string if unbound. -/
def lookupVar (vars : List (String × String)) (key : String) : String :=
  match vars with
  | [] => ""
  | (k, v) :: rest => if k = key then v else lookupVar rest key

/-- Host with the given variables and command behaviour, a duration parser
that knows "15s" only and a format parser that knows "json" only. -/
def hostOf (vars : List (String × String)) (run : String → String × Option GoError) : Host where
  Getenv := lookupVar vars
  Run := run
  ParseDuration := fun str =>
    if str = "15s" then (15000000000, none)
    else (0, some (GoError.errorString "time: invalid duration"))
  FormatFromString := fun str =>
    if str = "json" then (output.Format.JSON, none)
    else (output.Format.Unknown, some (GoError.errorString "unknown output format"))

/-- Command behaviour: "get-secret" prints a padded secret and succeeds,
"deny" exits with code 3, any other command cannot be started. -/
def sampleRun (name : String) : String × Option GoError :=
  if name = "get-secret" then ("  s3cret \n", none)
  else if name = "deny" then ("partial output", some (GoError.exitError 3))
  else ("", some (GoError.errorString "executable file not found"))

end environment

namespace config

/-- Provider for the commands: the given UseIDs and CommandTimeout results,
every other accessor as in the sample fallback of the flag provider. -/
def sample (useIDs : Bool × Option String) (timeout : time.Duration × Option String) :
    config.Provider String :=
  { flags.sampleFallback with UseIDs := useIDs, CommandTimeout := timeout }

end config

namespace namespace_

/-- Namespace resource with the given ID and name, every other field zero. -/
def mkNamespace (uid : id.Namespace) (name : String) : Resource :=
  { ID := uid, Name := name, Labels := [], CreatedAt := 0, UpdatedAt := 0, Version := "" }

end namespace_

namespace volume

/-- Volume resource with the given ID, name and namespace, every other field zero. -/
def mkVolume (uid : id.Volume) (name : String) (ns : id.Namespace) : Resource :=
  { ID := uid, Name := name, Description := "", AttachedOn := "", AttachmentType := "",
    Nfs := { Exports := [], ServiceEndpoint := "" }, Namespace := ns, Labels := [],
    Filesystem := "", SizeBytes := 0, Master := none, Replicas := [], CreatedAt := 0,
    UpdatedAt := 0, Version := "" }

end volume

namespace delete

/-- Client without state: every lookup finds a resource whose ID is the name
with "id-of-" in front, and every delete request succeeds. -/
def okClient : Client Unit Unit String where
  GetNodeByName := fun _ name s => ((some (apiclient.mkNode ("id-of-" ++ name) name), none), s)
  GetNamespaceByName := fun _ name s =>
    ((some (namespace_.mkNamespace ("id-of-" ++ name) name), none), s)
  GetVolumeByName := fun _ nsID name s =>
    ((some (volume.mkVolume ("id-of-" ++ name) name nsID), none), s)
  DeleteNode := fun _ _ _ s => (none, s)
  DeleteVolume := fun _ _ _ _ s => (none, s)

/-- Displayer without state whose every call succeeds. -/
def okDisplayer : Displayer Unit Unit Unit String where
  DeleteVolume := fun _ _ _ s => (none, s)
  AsyncRequest := fun _ _ s => (none, s)
  DeleteNode := fun _ _ _ s => (none, s)

/-- Delete node command over the client and displayer above. -/
def sampleNode (useIDs : Bool × Option String) (timeout : time.Duration × Option String)
    (useCAS : Bool) (casVersion : String) (useAsync : Bool) : nodeCommand Unit Unit Unit String :=
  { config := config.sample useIDs timeout, client := okClient, display := okDisplayer,
    useCAS := useCAS, casVersion := casVersion, useAsync := useAsync, writer := () }

end delete

namespace update

/-- Client without state: every lookup finds a resource whose ID is the name
with "id-of-" in front, and every update request succeeds with no resource. -/
def okClient : Client Unit Unit String where
  UpdateVolumeDescription := fun _ _ _ _ _ s => ((none, none), s)
  ResizeVolume := fun _ _ _ _ _ s => ((none, none), s)
  GetVolumeByName := fun _ nsID name s =>
    ((some (volume.mkVolume ("id-of-" ++ name) name nsID), none), s)
  GetNamespaceByName := fun _ name s =>
    ((some (namespace_.mkNamespace ("id-of-" ++ name) name), none), s)

/-- Displayer without state whose every call succeeds. -/
def okDisplayer : Displayer Unit Unit Unit String Unit where
  ResizeVolume := fun _ _ _ s => (none, s)
  UpdateVolumeDescription := fun _ _ _ s => (none, s)
  AsyncRequest := fun _ _ s => (none, s)

/-- Update volume size command over the client and displayer above. -/
def sampleSize (useIDs : Bool × Option String) (timeout : time.Duration × Option String)
    (useCAS : Bool) (casVersion : String) (useAsync : Bool) :
    volumeSizeCommand Unit Unit Unit String Unit :=
  { config := config.sample useIDs timeout, client := okClient, display := okDisplayer,
    namespace_ := "ns-1", volumeID := "vol-1", sizeBytes := 1024, useCAS := useCAS,
    casVersion := casVersion, useAsync := useAsync, writer := () }

end update

namespace delete

/-- Delete volume command over the sample client and displayer, in the
namespace "ns-1". -/
def sampleVolume (useIDs : Bool × Option String) (timeout : time.Duration × Option String)
    (useCAS : Bool) (casVersion : String) (useAsync : Bool) :
    volumeCommand Unit Unit Unit String :=
  { config := config.sample useIDs timeout, client := okClient, display := okDisplayer,
    namespace_ := "ns-1", useCAS := useCAS, casVersion := casVersion, useAsync := useAsync,
    useOfflineDelete := false, writer := () }

/-- Constructor of the volume deletion confirmation used with the sample command. -/
def sampleDeletion (volumeID : id.Volume) (namespaceID : id.Namespace) : output.VolumeDeletion :=
  { ID := volumeID, Namespace := namespaceID }

end delete

namespace detach

/-- Client without state: every lookup finds a resource whose ID is the name
with "id-of-" in front, and every detach request succeeds. -/
def okClient : Client Unit Unit String where
  GetNamespaceByName := fun _ name s =>
    ((some (namespace_.mkNamespace ("id-of-" ++ name) name), none), s)
  GetVolumeByName := fun _ nsID name s =>
    ((some (volume.mkVolume ("id-of-" ++ name) name nsID), none), s)
  DetachVolume := fun _ _ _ _ s => (none, s)

/-- Displayer without state whose every call succeeds. -/
def okDisplayer : Displayer Unit Unit Unit String where
  DetachVolume := fun _ _ s => (none, s)
  AsyncRequest := fun _ _ s => (none, s)

/-- Detach command over the client and displayer above, in the namespace "ns-1". -/
def sampleDetach (useIDs : Bool × Option String) (timeout : time.Duration × Option String)
    (useCAS : Bool) (casVersion : String) (useAsync : Bool) :
    detachCommand Unit Unit Unit String :=
  { config := config.sample useIDs timeout, client := okClient, display := okDisplayer,
    namespace_ := "ns-1", useCAS := useCAS, casVersion := casVersion, useAsync := useAsync,
    writer := () }

end detach

namespace update

/-- Update volume description command over the sample client and displayer. -/
def sampleDescription (useIDs : Bool × Option String)
    (timeout : time.Duration × Option String) (useCAS : Bool) (casVersion : String)
    (useAsync : Bool) : volumeDescriptionCommand Unit Unit Unit String Unit :=
  { config := config.sample useIDs timeout, client := okClient, display := okDisplayer,
    namespace_ := "ns-1", volumeID := "vol-1", description := "new text", useCAS := useCAS,
    casVersion := casVersion, useAsync := useAsync, writer := () }

end update

/-! ## cmd/runwrappers: namespace check, chaining and authentication -/

namespace runwrappers

/-- Error value ErrMustSpecifyNamespaceID. -/
def ErrMustSpecifyNamespaceID : GoError :=
  GoError.errorString "namespace ID must be specified when using resource IDs"

/-- EnsureNamespaceSetWhenUseIDs of runwrappers.go. The constant
config.DefaultNamespaceName is not part of the sources at hand and is taken
as a parameter. The provider is read without side effects. -/
def EnsureNamespaceSetWhenUseIDs {Ctx Cmd σ : Type} (DefaultNamespaceName : String)
    (provider : config.Provider GoError) : WrapRunEWithContext Ctx Cmd σ :=
  fun next ctx cmd args s =>
    match provider.UseIDs with
    | (_, some err) => (Outcome.returned (some err), s)
    | (useIDs, none) =>
      match provider.Namespace with
      | (_, some err) => (Outcome.returned (some err), s)
      | (ns, none) =>
        if useIDs && ns == DefaultNamespaceName then
          (Outcome.returned (some ErrMustSpecifyNamespaceID), s)
        else next ctx cmd args s

/-- The loop `for i := len(wrappers) - 1; i >= 0; i-- { wrapped = wrappers[i](wrapped) }`
of Chain, with `n` indices left to visit, the next one being `n - 1`. -/
def chainLoop {Ctx Cmd σ : Type} (wrappers : List (WrapRunEWithContext Ctx Cmd σ)) :
    Nat → RunEWithContext Ctx Cmd σ → RunEWithContext Ctx Cmd σ
  | 0, wrapped => wrapped
  | n + 1, wrapped =>
    match wrappers[n]? with
    | some w => chainLoop wrappers n (w wrapped)
    | none => chainLoop wrappers n wrapped

/-- Chain of runwrappers.go. -/
def Chain {Ctx Cmd σ : Type} (wrappers : List (WrapRunEWithContext Ctx Cmd σ)) :
    WrapRunEWithContext Ctx Cmd σ :=
  fun next ctx cmd args s => chainLoop wrappers wrappers.length next ctx cmd args s

/-- Interface CredentialsProvider; its accessors may have side effects (a
password command), so each is a state transformer. -/
structure CredentialsProvider (σ : Type) where
  Username : σ → (String × Option GoError) × σ
  Password : σ → (String × Option GoError) × σ

/-- Interface AuthAPIClient; `Session` is the type apiclient.AuthSession. -/
structure AuthAPIClient (Ctx σ Session : Type) where
  Authenticate : Ctx → String → String → σ → (Session × Option GoError) × σ

/-- AuthenticateClient of runwrappers.go. -/
def AuthenticateClient {Ctx Cmd σ Session : Type} (provider : CredentialsProvider σ)
    (client : AuthAPIClient Ctx σ Session) : WrapRunEWithContext Ctx Cmd σ :=
  fun next ctx cmd args s =>
    match provider.Username s with
    | ((_, some err), s1) => (Outcome.returned (some err), s1)
    | ((username, none), s1) =>
      match provider.Password s1 with
      | ((_, some err), s2) => (Outcome.returned (some err), s2)
      | ((password, none), s2) =>
        match client.Authenticate ctx username password s2 with
        | ((_, some err), s3) => (Outcome.returned (some err), s3)
        | ((_, none), s3) => next ctx cmd args s3

/-- Calls made by the function that AuthenticateClient wraps. -/
inductive AuthCall (Ctx Cmd : Type) where
  | Username
  | Password
  | Authenticate (ctx : Ctx) (username : String) (password : String)
  | Next (ctx : Ctx) (cmd : Cmd) (args : List String)
deriving DecidableEq, Repr

/-- The provider that behaves as `p` and appends each call it receives to a log. -/
def CredentialsProvider.recorded {Ctx Cmd σ : Type} (p : CredentialsProvider σ) :
    CredentialsProvider (σ × List (AuthCall Ctx Cmd)) where
  Username := fun s => ((p.Username s.1).1, ((p.Username s.1).2, s.2 ++ [AuthCall.Username]))
  Password := fun s => ((p.Password s.1).1, ((p.Password s.1).2, s.2 ++ [AuthCall.Password]))

/-- The client that behaves as `cl` and appends each call it receives to a log. -/
def AuthAPIClient.recorded {Ctx Cmd σ Session : Type} (cl : AuthAPIClient Ctx σ Session) :
    AuthAPIClient Ctx (σ × List (AuthCall Ctx Cmd)) Session where
  Authenticate := fun ctx username password s =>
    ((cl.Authenticate ctx username password s.1).1,
      ((cl.Authenticate ctx username password s.1).2,
        s.2 ++ [AuthCall.Authenticate ctx username password]))

/-- The run function that behaves as `next` and appends each of its
invocations to a log. -/
def recordedRun {Ctx Cmd σ : Type} (next : RunEWithContext Ctx Cmd σ) :
    RunEWithContext Ctx Cmd (σ × List (AuthCall Ctx Cmd)) :=
  fun ctx cmd args s =>
    ((next ctx cmd args s.1).1, ((next ctx cmd args s.1).2, s.2 ++ [AuthCall.Next ctx cmd args]))

/-- Provider for the namespace check: the given UseIDs and Namespace results,
every other accessor as in the sample fallback of the environment provider. -/
def sampleProvider (useIDs : Bool × Option GoError) (ns : String × Option GoError) :
    config.Provider GoError :=
  { environment.sampleFallback with UseIDs := useIDs, Namespace := ns }

/-- Wrapper that appends its tag to the log and then runs the wrapped function. -/
def tagWrap (tag : String) : WrapRunEWithContext Unit Unit (List String) :=
  fun next ctx cmd args log => next ctx cmd args (log ++ [tag])

/-- Run function that appends "run" to the log and succeeds. -/
def tagRun : RunEWithContext Unit Unit (List String) :=
  fun _ _ _ log => (Outcome.returned none, log ++ ["run"])

/-- Credentials provider without state that returns the given results. -/
def fixedCredentials (username password : String × Option GoError) : CredentialsProvider Unit where
  Username := fun s => (username, s)
  Password := fun s => (password, s)

/-- Client without state whose Authenticate returns the given error. -/
def fixedAuth (err : Option GoError) : AuthAPIClient String Unit Unit where
  Authenticate := fun _ _ _ s => (((), err), s)

/-- Run function without state that succeeds. -/
def okRun : RunEWithContext String String Unit :=
  fun _ _ _ s => (Outcome.returned none, s)

end runwrappers

/-! ## volume: label predicates -/

namespace labels

/-- Map index `value, exists := set[key]` on a label set given by its
bindings; `none` stands for `exists == false`. Of two bindings of one key the
first is the value of the map. -/
def lookup : Set → String → Option String
  | [], _ => none
  | (k, v) :: rest, key => if k = key then some v else lookup rest key

end labels

namespace volume

def LabelNoCache : String := "storageos.com/nocache"
def LabelNoCompress : String := "storageos.com/nocompress"
def LabelReplicas : String := "storageos.com/replicas"
def LabelThrottle : String := "storageos.com/throttle"

/-- IsCachingDisabled of volume.go. -/
def Resource.IsCachingDisabled (r : Resource) : Bool × Option GoError :=
  match labels.lookup r.Labels LabelNoCache with
  | none => (false, none)
  | some value => strconv.ParseBool value

/-- IsCompressionDisabled of volume.go. -/
def Resource.IsCompressionDisabled (r : Resource) : Bool × Option GoError :=
  match labels.lookup r.Labels LabelNoCompress with
  | none => (false, none)
  | some value => strconv.ParseBool value

/-- IsThrottleEnabled of volume.go. -/
def Resource.IsThrottleEnabled (r : Resource) : Bool × Option GoError :=
  match labels.lookup r.Labels LabelThrottle with
  | none => (false, none)
  | some value => strconv.ParseBool value

/-- Volume with the given labels, every other field zero. -/
def withLabels (ls : labels.Set) : Resource :=
  { mkVolume "vol-1" "volume" "ns-1" with Labels := ls }

end volume

/-! ## apiclient: messages of the not-found errors -/

namespace apiclient

/-- Method Error of NodeNotFoundError (node.go); `%v` prints a string as it is. -/
def NodeNotFoundError.Error (e : NodeNotFoundError) : String :=
  if e.uid ≠ "" then "node with ID " ++ e.uid ++ " not found"
  else if e.name ≠ "" then "node with name " ++ e.name ++ " not found"
  else "node not found"

/-- Method Error of UserNotFoundError (user.go). -/
def UserNotFoundError.Error (e : UserNotFoundError) : String := e.msg

end apiclient

/-! ## output: volume and licence -/

namespace output

/-- Output form of a volume deployment, with the fields the test of
newDeployment compares. -/
structure Deployment where
  ID : id.Deployment
  Node : id.Node
  NodeName : String
  Health : health.VolumeState
  Promotable : Bool
  SyncProgress : Option volume.SyncProgress
deriving DecidableEq, Repr

/-- Output form of a volume, with the fields the test of NewVolume compares;
the NFS configuration and the sync progress have the shape of their
counterparts in package volume and are embedded by them. -/
structure Volume where
  ID : id.Volume
  Name : String
  Description : String
  AttachedOn : id.Node
  AttachedOnName : String
  NFS : volume.NFSConfig
  Namespace : id.Namespace
  NamespaceName : String
  Labels : labels.Set
  Filesystem : volume.FsType
  SizeBytes : Nat
  Master : Option Deployment
  Replicas : List Deployment
  CreatedAt : time.Time
  UpdatedAt : time.Time
  Version : version.Version
deriving DecidableEq, Repr

/-- Modelled from the spec: the name shown for a node ID, missing with
output/volume.go from the sources at hand: the Name of the node mapped at the
ID when the ID is a key of the map, and the literal "unknown" otherwise. -/
def nodeNameOf (nodes : GoMap id.Node node.Resource) (nodeID : id.Node) : String :=
  match nodes.get nodeID with
  | some n => n.Name
  | none => "unknown"

/-- Modelled from the spec: function newDeployment of output/volume.go, which
is missing from the sources at hand (only its test TestNewDeployment is
there). It copies ID, Node, Health, Promotable and SyncProgress of the
deployment and sets NodeName to the name of the mapped node or "unknown". -/
def newDeployment (dep : volume.Deployment) (nodes : GoMap id.Node node.Resource) :
    Deployment :=
  { ID := dep.ID, Node := dep.Node, NodeName := nodeNameOf nodes dep.Node,
    Health := dep.Health, Promotable := dep.Promotable, SyncProgress := dep.SyncProgress }

/-- Modelled from the spec: function NewVolume of output/volume.go, which is
missing from the sources at hand (only its test TestNewVolume is there). It
copies the fields of the volume, sets AttachedOnName to the name of the
mapped node or "unknown", sets NamespaceName to the Name of the namespace and
converts the master and the replicas, in their order, with newDeployment. -/
def NewVolume (vol : volume.Resource) (ns : namespace_.Resource)
    (nodes : GoMap id.Node node.Resource) : Volume :=
  { ID := vol.ID, Name := vol.Name, Description := vol.Description,
    AttachedOn := vol.AttachedOn, AttachedOnName := nodeNameOf nodes vol.AttachedOn,
    NFS := vol.Nfs, Namespace := vol.Namespace, NamespaceName := ns.Name,
    Labels := vol.Labels, Filesystem := vol.Filesystem, SizeBytes := vol.SizeBytes,
    Master := vol.Master.map (fun dep => newDeployment dep nodes),
    Replicas := vol.Replicas.map (fun dep => newDeployment dep nodes),
    CreatedAt := vol.CreatedAt, UpdatedAt := vol.UpdatedAt, Version := vol.Version }

/-- The node map of the second case of TestNewVolume. -/
def testNodes : GoMap id.Node node.Resource :=
  (((GoMap.empty.set "attached-node" (apiclient.mkNode "" "attached-node-name")).set
    "node-id" (apiclient.mkNode "" "node-name")).set
    "node-1" (apiclient.mkNode "" "node-1-name")).set
    "node-2" (apiclient.mkNode "" "node-2-name")

/-- Sync progress with the given counters. -/
def testProgress (remaining throughput seconds : Nat) : volume.SyncProgress :=
  { BytesRemaining := remaining, ThroughputBytes := throughput,
    EstimatedSecondsRemaining := seconds }

/-- Deployment with the given fields. -/
def testDeployment (uid : id.Deployment) (nodeID : id.Node) (state : health.VolumeState)
    (promotable : Bool) (progress : Option volume.SyncProgress) : volume.Deployment :=
  { ID := uid, Node := nodeID, Health := state, Promotable := promotable,
    SyncProgress := progress }

/-- A volume attached on a node that is not in the node map above, with a
master and two replicas, the second of which is syncing. -/
def testVolume : volume.Resource :=
  { volume.mkVolume "vol-id" "vol-name" "namespace-id" with
    AttachedOn := "gone-node",
    Master := some (testDeployment "deploy-id" "node-id" "online" true none),
    Replicas :=
      [testDeployment "repl-1" "node-1" "ready" true none,
       testDeployment "repl-2" "node-2" "syncing" false (some (testProgress 6 4 2))] }

end output

namespace sort

/-- Library function sort.Strings: the strings in increasing order. The
result of sorting a list of strings is determined by the list, whatever the
algorithm; it is computed here by insertion. -/
def Strings (l : List String) : List String := l.insertionSort (fun a b => a ≤ b)

end sort

namespace output

/-- Struct Licence of output/licence.go. -/
structure Licence where
  ClusterID : id.Cluster
  ExpiresAt : time.Time
  ClusterCapacityBytes : Nat
  UsedBytes : Nat
  Kind : String
  Features : List String
  CustomerName : String
deriving DecidableEq, Repr

/-- NewLicence of output/licence.go: `features` is a copy of the features of
the resource, sorted. -/
def NewLicence (l : licence.Resource) : Licence :=
  let features := sort.Strings ([] ++ l.Features)
  { ClusterID := l.ClusterID, ExpiresAt := l.ExpiresAt,
    ClusterCapacityBytes := l.ClusterCapacityBytes, UsedBytes := l.UsedBytes,
    Kind := l.Kind, Features := features, CustomerName := l.CustomerName }

/-- Licence resource with the given features and version. -/
def testLicence (features : List String) (v : version.Version) : licence.Resource :=
  { ClusterID := "cluster-1", ExpiresAt := 4102444800, ClusterCapacityBytes := 5000,
    UsedBytes := 42, Kind := "professional", CustomerName := "customer",
    Features := features, Version := v }

end output

/-! ## SelectDisplayer of the command packages -/

/-- The displayer that SelectDisplayer constructs: `jsonformat.NewDisplayer`
and `yamlformat.NewDisplayer` with their encoding indent, or
`textformat.NewDisplayer(textformat.NewTimeFormatter())`. -/
inductive SelectedDisplayer where
  | jsonformat (encodingIndent : String)
  | yamlformat (encodingIndent : String)
  | textformat
deriving DecidableEq, Repr

/-- Whether the displayer is the JSON displayer. -/
def SelectedDisplayer.isJSON : SelectedDisplayer → Bool
  | SelectedDisplayer.jsonformat _ => true
  | _ => false

/-- Whether the displayer is the YAML displayer. -/
def SelectedDisplayer.isYAML : SelectedDisplayer → Bool
  | SelectedDisplayer.yamlformat _ => true
  | _ => false

/-- Whether the displayer is the text displayer. -/
def SelectedDisplayer.isText : SelectedDisplayer → Bool
  | SelectedDisplayer.textformat => true
  | _ => false

namespace describe

/-- SelectDisplayer of describe.go; the constant
jsonformat.DefaultEncodingIndent is taken as a parameter. -/
def SelectDisplayer {ε : Type} (DefaultEncodingIndent : String) (cp : config.Provider ε) :
    SelectedDisplayer :=
  match cp.OutputFormat with
  | (_, some _) => SelectedDisplayer.textformat
  | (out, none) =>
    match out with
    | output.Format.JSON => SelectedDisplayer.jsonformat DefaultEncodingIndent
    | output.Format.YAML => SelectedDisplayer.yamlformat ""
    | output.Format.Text => SelectedDisplayer.textformat
    | _ => SelectedDisplayer.textformat

end describe

namespace delete

/-- SelectDisplayer of delete.go; the constant
jsonformat.DefaultEncodingIndent is taken as a parameter. -/
def SelectDisplayer {ε : Type} (DefaultEncodingIndent : String) (cp : config.Provider ε) :
    SelectedDisplayer :=
  match cp.OutputFormat with
  | (_, some _) => SelectedDisplayer.textformat
  | (out, none) =>
    match out with
    | output.Format.JSON => SelectedDisplayer.jsonformat DefaultEncodingIndent
    | output.Format.YAML => SelectedDisplayer.yamlformat ""
    | output.Format.Text => SelectedDisplayer.textformat
    | _ => SelectedDisplayer.textformat

end delete

namespace attach

/-- SelectDisplayer of attach.go. -/
def SelectDisplayer {ε : Type} (cp : config.Provider ε) : SelectedDisplayer :=
  match cp.OutputFormat with
  | (_, some _) => SelectedDisplayer.textformat
  | (out, none) =>
    match out with
    | output.Format.JSON => SelectedDisplayer.jsonformat ""
    | output.Format.YAML => SelectedDisplayer.yamlformat ""
    | output.Format.Text => SelectedDisplayer.textformat
    | _ => SelectedDisplayer.textformat

end attach

namespace detach

/-- SelectDisplayer of detach.go. -/
def SelectDisplayer {ε : Type} (cp : config.Provider ε) : SelectedDisplayer :=
  match cp.OutputFormat with
  | (_, some _) => SelectedDisplayer.textformat
  | (out, none) =>
    match out with
    | output.Format.JSON => SelectedDisplayer.jsonformat ""
    | output.Format.YAML => SelectedDisplayer.yamlformat ""
    | output.Format.Text => SelectedDisplayer.textformat
    | _ => SelectedDisplayer.textformat

/-- Whether the call is a call on the displayer. -/
def Call.isDisplay {Ctx W : Type} : Call Ctx W → Bool
  | Call.DisplayDetachVolume _ _ => true
  | Call.DisplayAsyncRequest _ _ => true
  | _ => false

end detach

namespace update

/-- SelectDisplayer of update.go; the constant
jsonformat.DefaultEncodingIndent is taken as a parameter. -/
def SelectDisplayer {ε : Type} (DefaultEncodingIndent : String) (cp : config.Provider ε) :
    SelectedDisplayer :=
  match cp.OutputFormat with
  | (_, some _) => SelectedDisplayer.textformat
  | (out, none) =>
    match out with
    | output.Format.JSON => SelectedDisplayer.jsonformat DefaultEncodingIndent
    | output.Format.YAML => SelectedDisplayer.yamlformat ""
    | output.Format.Text => SelectedDisplayer.textformat
    | _ => SelectedDisplayer.textformat

/-- Whether the call is a call on the displayer. -/
def Call.isDisplay {Ctx W υ : Type} : Call Ctx W υ → Bool
  | Call.DisplayResizeVolume _ _ _ => true
  | Call.DisplayUpdateVolumeDescription _ _ _ => true
  | Call.DisplayAsyncRequest _ _ => true
  | _ => false

end update

namespace output

/-- Memory of the backing arrays of string slices, by address. -/
abbrev StringArrays := List (List String)

/-- The two statements of NewLicence on `features`, on a memory of backing
arrays in which the Features slice of the resource is the array at address
`src`: `append([]string(nil), l.Features...)` allocates a fresh array holding
a copy of the elements, and `sort.Strings(features)` sorts that array in
place. The result is the address of `features` and the memory afterwards. -/
def NewLicenceFeatures (mem : StringArrays) (src : Nat) : Nat × StringArrays :=
  let features := mem.length
  let mem1 := mem ++ [mem.getD src []]
  (features, mem1.set features (sort.Strings (mem1.getD features [])))

end output

namespace apply

/-- SelectDisplayer of apply.go; the constant
jsonformat.DefaultEncodingIndent is taken as a parameter. -/
def SelectDisplayer {ε : Type} (DefaultEncodingIndent : String) (cp : config.Provider ε) :
    SelectedDisplayer :=
  match cp.OutputFormat with
  | (_, some _) => SelectedDisplayer.textformat
  | (out, none) =>
    match out with
    | output.Format.JSON => SelectedDisplayer.jsonformat DefaultEncodingIndent
    | output.Format.YAML => SelectedDisplayer.yamlformat ""
    | output.Format.Text => SelectedDisplayer.textformat
    | _ => SelectedDisplayer.textformat

end apply

namespace create

/-- SelectDisplayer of create.go, whose parameter is called `config` there;
the constant jsonformat.DefaultEncodingIndent is taken as a parameter. -/
def SelectDisplayer {ε : Type} (DefaultEncodingIndent : String) (cp : config.Provider ε) :
    SelectedDisplayer :=
  match cp.OutputFormat with
  | (_, some _) => SelectedDisplayer.textformat
  | (out, none) =>
    match out with
    | output.Format.JSON => SelectedDisplayer.jsonformat DefaultEncodingIndent
    | output.Format.YAML => SelectedDisplayer.yamlformat ""
    | output.Format.Text => SelectedDisplayer.textformat
    | _ => SelectedDisplayer.textformat

end create

namespace nfs

/-- SelectDisplayer of nfs.go; the constant
jsonformat.DefaultEncodingIndent is taken as a parameter. -/
def SelectDisplayer {ε : Type} (DefaultEncodingIndent : String) (cp : config.Provider ε) :
    SelectedDisplayer :=
  match cp.OutputFormat with
  | (_, some _) => SelectedDisplayer.textformat
  | (out, none) =>
    match out with
    | output.Format.JSON => SelectedDisplayer.jsonformat DefaultEncodingIndent
    | output.Format.YAML => SelectedDisplayer.yamlformat ""
    | output.Format.Text => SelectedDisplayer.textformat
    | _ => SelectedDisplayer.textformat

end nfs

/-- Configuration whose output format resolves to the given pair. -/
def config.withOutputFormat (out : output.Format × Option String) : config.Provider String :=
  { config.sample (false, none) (0, none) with OutputFormat := out }

namespace delete

/-- Client without state that refuses to delete the node "locked" and
behaves as the client above otherwise. -/
def lockedClient : Client Unit Unit String :=
  { okClient with
    DeleteNode := fun _ nodeID _ s =>
      if nodeID = "locked" then (some "node is locked", s) else (none, s) }

/-- Delete node command over the client that refuses the node "locked". -/
def sampleLocked (useIDs : Bool × Option String) (timeout : time.Duration × Option String)
    (useCAS : Bool) (casVersion : String) (useAsync : Bool) : nodeCommand Unit Unit Unit String :=
  { sampleNode useIDs timeout useCAS casVersion useAsync with client := lockedClient }

end delete

/-! ## Lemmas on the loops -/

namespace apiclient

section loops

variable {κ ρ : Type}

theorem foldl_set_none [DecidableEq κ] (key : ρ → κ) (k : κ) :
    ∀ (l : List ρ) (m0 : GoMap κ ρ),
      (l.foldl (fun m r => m.set (key r) r) m0) k = none ↔
        m0 k = none ∧ ∀ r ∈ l, key r ≠ k := by
  intro l
  induction l with
  | nil => intro m0; simp
  | cons a t ih =>
    intro m0
    rw [List.foldl_cons, ih]
    by_cases hk : key a = k
    · simp [GoMap.set, hk]
    · have hk' : ¬ k = key a := fun h => hk h.symm
      simp [GoMap.set, hk, hk']

theorem foldl_set_some [DecidableEq κ] (key : ρ → κ) (k : κ) (r : ρ) :
    ∀ (l : List ρ) (m0 : GoMap κ ρ),
      (l.foldl (fun m r => m.set (key r) r) m0) k = some r →
        (m0 k = some r ∧ ∀ x ∈ l, key x ≠ k) ∨
        (∃ pre post, l = pre ++ r :: post ∧ key r = k ∧ ∀ x ∈ post, key x ≠ k) := by
  intro l
  induction l with
  | nil => intro m0 h; left; exact ⟨h, by simp⟩
  | cons a t ih =>
    intro m0 h
    rw [List.foldl_cons] at h
    rcases ih _ h with ⟨h1, h2⟩ | ⟨pre, post, hl, hr, hpost⟩
    · by_cases hk : k = key a
      · right
        have : a = r := by simpa [GoMap.set, hk] using h1
        subst this
        exact ⟨[], t, rfl, hk.symm, h2⟩
      · left
        refine ⟨by simpa [GoMap.set, hk] using h1, ?_⟩
        intro x hx
        rcases List.mem_cons.1 hx with rfl | hx
        · exact fun h => hk h.symm
        · exact h2 x hx
    · right
      exact ⟨a :: pre, post, by simp [hl], hr, hpost⟩

theorem buildMap_none [DecidableEq κ] (key : ρ → κ) (l : List ρ) (k : κ) :
    (buildMap key l).get k = none ↔ ∀ r ∈ l, key r ≠ k := by
  unfold buildMap GoMap.get
  rw [foldl_set_none]
  simp [GoMap.empty]

theorem buildMap_some [DecidableEq κ] (key : ρ → κ) (l : List ρ) (k : κ) (r : ρ)
    (h : (buildMap key l).get k = some r) :
    ∃ pre post, l = pre ++ r :: post ∧ key r = k ∧ ∀ x ∈ post, key x ≠ k := by
  unfold buildMap GoMap.get at h
  rcases foldl_set_some key k r l _ h with ⟨h1, _⟩ | h2
  · simp [GoMap.empty] at h1
  · exact h2

theorem buildMap_present [DecidableEq κ] (key : ρ → κ) (l : List ρ) (k : κ)
    (h : ∃ r ∈ l, key r = k) : ∃ r, (buildMap key l).get k = some r := by
  cases hg : (buildMap key l).get k with
  | some r => exact ⟨r, rfl⟩
  | none =>
    rcases h with ⟨r, hr, hk⟩
    exact absurd hk ((buildMap_none key l k).1 hg r hr)

theorem strictLoop_ok (m : GoMap κ ρ) (mkErr : κ → Error) :
    ∀ (keys : List κ) (acc : List ρ), (∀ k ∈ keys, ∃ r, m.get k = some r) →
      ∃ rs, strictLoop m mkErr keys acc = (acc ++ rs, none) ∧
        keys.map m.get = rs.map some := by
  intro keys
  induction keys with
  | nil => intro acc _; exact ⟨[], by simp [strictLoop], rfl⟩
  | cons k rest ih =>
    intro acc h
    obtain ⟨r, hr⟩ := h k (List.mem_cons_self _ _)
    obtain ⟨rs, hrs, hall⟩ := ih (acc ++ [r]) (fun k' hk' => h k' (List.mem_cons_of_mem _ hk'))
    refine ⟨r :: rs, ?_, by simp [hr, hall]⟩
    simp [strictLoop, hr, hrs]

theorem strictLoop_missing (m : GoMap κ ρ) (mkErr : κ → Error) (k : κ) (post : List κ)
    (hk : m.get k = none) :
    ∀ (pre : List κ) (acc : List ρ), (∀ p ∈ pre, ∃ r, m.get p = some r) →
      strictLoop m mkErr (pre ++ k :: post) acc = ([], some (mkErr k)) := by
  intro pre
  induction pre with
  | nil => intro acc _; simp [strictLoop, hk]
  | cons p pre ih =>
    intro acc h
    obtain ⟨r, hr⟩ := h p (List.mem_cons_self _ _)
    simp only [List.cons_append, strictLoop, hr]
    exact ih _ (fun q hq => h q (List.mem_cons_of_mem _ hq))

theorem first_split (Q : κ → Prop) :
    ∀ (keys : List κ), (∃ k ∈ keys, Q k) →
      ∃ pre k post, keys = pre ++ k :: post ∧ (∀ p ∈ pre, ¬ Q p) ∧ Q k := by
  intro keys
  induction keys with
  | nil => rintro ⟨k, hk, _⟩; simp at hk
  | cons a t ih =>
    rintro ⟨k, hk, hq⟩
    by_cases ha : Q a
    · exact ⟨[], a, t, rfl, by simp, ha⟩
    · rcases List.mem_cons.1 hk with rfl | hk
      · exact absurd hq ha
      · obtain ⟨pre, k', post, ht, hpre, hk'⟩ := ih ⟨k, hk, hq⟩
        refine ⟨a :: pre, k', post, by simp [ht], ?_, hk'⟩
        intro p hp
        rcases List.mem_cons.1 hp with rfl | hp
        · exact ha
        · exact hpre p hp

theorem split_first_index (P : ρ → Prop) (pre post : List ρ) (r : ρ)
    (hpre : ∀ x ∈ pre, ¬ P x) :
    (pre ++ r :: post)[pre.length]? = some r ∧
      ∀ j, j < pre.length → ∀ x, (pre ++ r :: post)[j]? = some x → ¬ P x := by
  refine ⟨by rw [List.getElem?_append_right (Nat.le_refl _)]; simp, ?_⟩
  intro j hj x hx
  rw [List.getElem?_append_left hj] at hx
  exact hpre x (List.getElem?_mem hx)

theorem split_last_index (P : ρ → Prop) (pre post : List ρ) (r : ρ)
    (hpost : ∀ x ∈ post, ¬ P x) :
    (pre ++ r :: post)[pre.length]? = some r ∧
      ∀ j, pre.length < j → ∀ x, (pre ++ r :: post)[j]? = some x → ¬ P x := by
  refine ⟨by rw [List.getElem?_append_right (Nat.le_refl _)]; simp, ?_⟩
  intro j hj x hx
  rw [List.getElem?_append_right (Nat.le_of_lt hj)] at hx
  obtain ⟨d, hd⟩ : ∃ d, j - pre.length = d + 1 := ⟨j - pre.length - 1, by omega⟩
  rw [hd, List.getElem?_cons_succ] at hx
  exact hpost x (List.getElem?_mem hx)

end loops

theorem filterNodesForNamesLoop_eq (m : GoMap String node.Resource) :
    ∀ (names : List String) (acc : List node.Resource),
      filterNodesForNamesLoop m names acc =
        strictLoop m (fun k => Error.nodeNotFound (NewNodeNameNotFoundError k)) names acc := by
  intro names
  induction names with
  | nil => intro acc; rfl
  | cons k rest ih =>
    intro acc
    unfold filterNodesForNamesLoop strictLoop
    cases m.get k with
    | none => rfl
    | some r => exact ih _

theorem filterNodesForUIDsLoop_eq (m : GoMap id.Node node.Resource) :
    ∀ (uids : List id.Node) (acc : List node.Resource),
      filterNodesForUIDsLoop m uids acc =
        strictLoop m (fun k => Error.nodeNotFound (NewNodeNotFoundError k)) uids acc := by
  intro uids
  induction uids with
  | nil => intro acc; rfl
  | cons k rest ih =>
    intro acc
    unfold filterNodesForUIDsLoop strictLoop
    cases m.get k with
    | none => rfl
    | some r => exact ih _

theorem usersByUIDLoop_eq (m : GoMap id.User user.Resource) :
    ∀ (uids : List id.User) (acc : List user.Resource),
      usersByUIDLoop m uids acc =
        strictLoop m (fun k => Error.userNotFound (NewUserNotFoundError "user not found" k))
          uids acc := by
  intro uids
  induction uids with
  | nil => intro acc; rfl
  | cons k rest ih =>
    intro acc
    unfold usersByUIDLoop strictLoop
    cases m.get k with
    | none => rfl
    | some r => exact ih _

theorem usersByUsernameLoop_eq (m : GoMap String user.Resource) :
    ∀ (usernames : List String) (acc : List user.Resource),
      usersByUsernameLoop m usernames acc =
        strictLoop m (fun k => Error.userNotFound (NewUserNameNotFoundError k)) usernames acc := by
  intro usernames
  induction usernames with
  | nil => intro acc; rfl
  | cons k rest ih =>
    intro acc
    unfold usersByUsernameLoop strictLoop
    cases m.get k with
    | none => rfl
    | some r => exact ih _

theorem retrievedByName_eq (nodes : List node.Resource) :
    retrievedByName nodes = buildMap (fun n => n.Name) nodes := rfl

theorem retrievedByID_eq (nodes : List node.Resource) :
    retrievedByID nodes = buildMap (fun n => n.ID) nodes := rfl

theorem usersByID_eq (list : List user.Resource) :
    usersByID list = buildMap (fun u => u.ID) list := rfl

theorem usersByUsername_eq (list : List user.Resource) :
    usersByUsername list = buildMap (fun u => u.Username) list := rfl

end apiclient

/-! ## Single-name lookup -/

namespace apiclient

theorem scanNodesByName_absent (name : String) :
    ∀ (nodes : List node.Resource), (∀ n ∈ nodes, n.Name ≠ name) →
      scanNodesByName name nodes =
        (none, some (Error.nodeNotFound (NewNodeNameNotFoundError name))) := by
  intro nodes
  induction nodes with
  | nil => intro _; rfl
  | cons a t ih =>
    intro h
    have ha : a.Name ≠ name := h a (List.mem_cons_self _ _)
    simp only [scanNodesByName, ha, if_false]
    exact ih (fun n hn => h n (List.mem_cons_of_mem _ hn))

theorem scanNodesByName_split (name : String) (r : node.Resource) (post : List node.Resource)
    (hr : r.Name = name) :
    ∀ (pre : List node.Resource), (∀ n ∈ pre, n.Name ≠ name) →
      scanNodesByName name (pre ++ r :: post) = (some r, none) := by
  intro pre
  induction pre with
  | nil => intro _; simp [scanNodesByName, hr]
  | cons a t ih =>
    intro h
    have ha : a.Name ≠ name := h a (List.mem_cons_self _ _)
    simp only [List.cons_append, scanNodesByName, ha, if_false]
    exact ih (fun n hn => h n (List.mem_cons_of_mem _ hn))

theorem scanUsersByName_absent (username : String) :
    ∀ (list : List user.Resource), (∀ u ∈ list, u.Username ≠ username) →
      scanUsersByName username list =
        (none, some (Error.userNotFound (NewUserNameNotFoundError username))) := by
  intro list
  induction list with
  | nil => intro _; rfl
  | cons a t ih =>
    intro h
    have ha : a.Username ≠ username := h a (List.mem_cons_self _ _)
    simp only [scanUsersByName, ha, if_false]
    exact ih (fun u hu => h u (List.mem_cons_of_mem _ hu))

theorem scanUsersByName_split (username : String) (r : user.Resource) (post : List user.Resource)
    (hr : r.Username = username) :
    ∀ (pre : List user.Resource), (∀ u ∈ pre, u.Username ≠ username) →
      scanUsersByName username (pre ++ r :: post) = (some r, none) := by
  intro pre
  induction pre with
  | nil => intro _; simp [scanUsersByName, hr]
  | cons a t ih =>
    intro h
    have ha : a.Username ≠ username := h a (List.mem_cons_self _ _)
    simp only [List.cons_append, scanUsersByName, ha, if_false]
    exact ih (fun u hu => h u (List.mem_cons_of_mem _ hu))

/-- C1: when the fetch succeeds and no node has exactly the queried name,
GetNodeByName returns a nil resource and the NodeNotFoundError whose name is
the queried name and whose uid is empty; when no user has exactly the queried
username, GetUserByName returns nil and the UserNotFoundError carrying that
username. -/
theorem GetByName_not_found {σ : Type} (c : Client σ) (s : σ) (name : String) :
    (∀ nodes s', c.Transport.ListNodes s = ((nodes, none), s') →
      (∀ n ∈ nodes, n.Name ≠ name) →
      c.GetNodeByName name s =
        ((none, some (Error.nodeNotFound { uid := "", name := name })), s')) ∧
    (∀ users s', c.Transport.ListUsers s = ((users, none), s') →
      (∀ u ∈ users, u.Username ≠ name) →
      c.GetUserByName name s =
        ((none, some (Error.userNotFound
          { msg := "user with name " ++ name ++ " not found", uid := "", name := name })), s')) := by
  constructor
  · intro nodes s' hfetch habsent
    simp only [Client.GetNodeByName, hfetch, scanNodesByName_absent name nodes habsent]
    rfl
  · intro users s' hfetch habsent
    simp only [Client.GetUserByName, hfetch, scanUsersByName_absent name users habsent]
    rfl

/-- Witness of C1: the names "a" and "Ab" do not match the query "A", nor do
the usernames "x" and "xy" match the query "X". -/
theorem GetByName_not_found_witness :
    (Client.mk (fixedTransport [mkNode "n1" "a", mkNode "n2" "Ab"] [])).GetNodeByName "A" () =
        ((none, some (Error.nodeNotFound { uid := "", name := "A" })), ()) ∧
    (Client.mk (fixedTransport [] [mkUser "u1" "x", mkUser "u2" "xy"])).GetUserByName "X" () =
        ((none, some (Error.userNotFound
          { msg := "user with name X not found", uid := "", name := "X" })), ()) :=
  ⟨(GetByName_not_found (Client.mk (fixedTransport [mkNode "n1" "a", mkNode "n2" "Ab"] []))
      () "A").1 _ _ rfl (by decide),
   (GetByName_not_found (Client.mk (fixedTransport [] [mkUser "u1" "x", mkUser "u2" "xy"]))
      () "X").2 _ _ rfl (by decide)⟩

end apiclient

namespace apiclient

/-- C2: when the fetch succeeds and some node has the queried name,
GetNodeByName returns with a nil error the node at the lowest index whose Name
equals the name, and that node is an element of the fetched collection; the
same holds for GetUserByName over Username. -/
theorem GetByName_first_match {σ : Type} (c : Client σ) (s : σ) (name : String) :
    (∀ nodes s', c.Transport.ListNodes s = ((nodes, none), s') →
      (∃ n ∈ nodes, n.Name = name) →
      ∃ (i : Nat) (r : _), nodes[i]? = some r ∧ r.Name = name ∧
        (∀ j : Nat, j < i → ∀ x : node.Resource, nodes[j]? = some x → x.Name ≠ name) ∧ r ∈ nodes ∧
        c.GetNodeByName name s = ((some r, none), s')) ∧
    (∀ users s', c.Transport.ListUsers s = ((users, none), s') →
      (∃ u ∈ users, u.Username = name) →
      ∃ (i : Nat) (r : _), users[i]? = some r ∧ r.Username = name ∧
        (∀ j : Nat, j < i → ∀ x : user.Resource, users[j]? = some x → x.Username ≠ name) ∧ r ∈ users ∧
        c.GetUserByName name s = ((some r, none), s')) := by
  constructor
  · intro nodes s' hfetch hex
    obtain ⟨pre, r, post, hsplit, hpre, hr⟩ :=
      first_split (fun n : node.Resource => n.Name = name) nodes hex
    subst hsplit
    obtain ⟨hidx, hlow⟩ := split_first_index (fun n : node.Resource => n.Name = name) pre post r hpre
    refine ⟨pre.length, r, hidx, hr, hlow, by simp, ?_⟩
    simp only [Client.GetNodeByName, hfetch, scanNodesByName_split name r post hr pre hpre]
  · intro users s' hfetch hex
    obtain ⟨pre, r, post, hsplit, hpre, hr⟩ :=
      first_split (fun u : user.Resource => u.Username = name) users hex
    subst hsplit
    obtain ⟨hidx, hlow⟩ :=
      split_first_index (fun u : user.Resource => u.Username = name) pre post r hpre
    refine ⟨pre.length, r, hidx, hr, hlow, by simp, ?_⟩
    simp only [Client.GetUserByName, hfetch, scanUsersByName_split name r post hr pre hpre]

/-- Witness of C2: of two nodes named "b" the lookup returns the one at the
lower index, and likewise for two users named "y". -/
theorem GetByName_first_match_witness :
    (∃ (i : Nat) (r : _), [mkNode "n1" "a", mkNode "n2" "b", mkNode "n3" "b"][i]? = some r ∧ r.Name = "b" ∧
      (∀ j : Nat, j < i → ∀ x : node.Resource,
        [mkNode "n1" "a", mkNode "n2" "b", mkNode "n3" "b"][j]? = some x →
        x.Name ≠ "b") ∧
      r ∈ [mkNode "n1" "a", mkNode "n2" "b", mkNode "n3" "b"] ∧
      (Client.mk (fixedTransport [mkNode "n1" "a", mkNode "n2" "b", mkNode "n3" "b"]
        [])).GetNodeByName "b" () = ((some r, none), ())) ∧
    (∃ (i : Nat) (r : _), [mkUser "u1" "y", mkUser "u2" "y"][i]? = some r ∧ r.Username = "y" ∧
      (∀ j : Nat, j < i → ∀ x : user.Resource,
        [mkUser "u1" "y", mkUser "u2" "y"][j]? = some x → x.Username ≠ "y") ∧
      r ∈ [mkUser "u1" "y", mkUser "u2" "y"] ∧
      (Client.mk (fixedTransport [] [mkUser "u1" "y", mkUser "u2" "y"])).GetUserByName "y" () =
        ((some r, none), ())) :=
  ⟨(GetByName_first_match
      (Client.mk (fixedTransport [mkNode "n1" "a", mkNode "n2" "b", mkNode "n3" "b"] []))
      () "b").1 _ _ rfl ⟨mkNode "n3" "b", by simp, rfl⟩,
   (GetByName_first_match (Client.mk (fixedTransport [] [mkUser "u1" "y", mkUser "u2" "y"]))
      () "y").2 _ _ rfl ⟨mkUser "u2" "y", by simp, rfl⟩⟩

/-- C3: filterNodesForNames and filterNodesForUIDs called with zero names or
IDs return exactly the input collection with a nil error, so that
GetListNodesByName and GetListNodesByUID without arguments return the whole
fetched collection in its original order. -/
theorem filterNodes_zero_keys (nodes : List node.Resource) :
    filterNodesForNames nodes [] = (nodes, none) ∧
    filterNodesForUIDs nodes [] = (nodes, none) ∧
    (∀ (σ : Type) (c : Client σ) (s s' : σ),
      c.Transport.ListNodes s = ((nodes, none), s') →
      c.GetListNodesByName [] s = ((nodes, none), s') ∧
      c.GetListNodesByUID [] s = ((nodes, none), s')) := by
  refine ⟨rfl, rfl, ?_⟩
  intro σ c s s' hfetch
  simp only [Client.GetListNodesByName, Client.GetListNodesByUID, hfetch]
  exact ⟨rfl, rfl⟩

/-- Witness of C3: a collection whose order is not alphabetical comes back as fetched. -/
theorem filterNodes_zero_keys_witness :
    (Client.mk (fixedTransport [mkNode "n2" "b", mkNode "n1" "a"] [])).GetListNodesByName [] () =
        (([mkNode "n2" "b", mkNode "n1" "a"], none), ()) ∧
    (Client.mk (fixedTransport [mkNode "n2" "b", mkNode "n1" "a"] [])).GetListNodesByUID [] () =
        (([mkNode "n2" "b", mkNode "n1" "a"], none), ()) :=
  (filterNodes_zero_keys [mkNode "n2" "b", mkNode "n1" "a"]).2.2 Unit
    (Client.mk (fixedTransport [mkNode "n2" "b", mkNode "n1" "a"] [])) () () rfl

end apiclient

/-! ## Bulk filters -/

namespace apiclient

section bulk

variable {κ ρ : Type}

theorem strict_missing [DecidableEq κ] (key : ρ → κ) (mkErr : κ → Error) (l : List ρ) (keys : List κ)
    (h : ∃ k ∈ keys, ∀ r ∈ l, key r ≠ k) :
    ∃ pre k post, keys = pre ++ k :: post ∧ (∀ p ∈ pre, ∃ r ∈ l, key r = p) ∧
      (∀ r ∈ l, key r ≠ k) ∧
      strictLoop (buildMap key l) mkErr keys [] = ([], some (mkErr k)) := by
  obtain ⟨pre, k, post, hsplit, hpre, hk⟩ := first_split (fun k => ∀ r ∈ l, key r ≠ k) keys h
  have hpre' : ∀ p ∈ pre, ∃ r ∈ l, key r = p := by
    intro p hp
    have := hpre p hp
    push_neg at this
    exact this
  refine ⟨pre, k, post, hsplit, hpre', hk, ?_⟩
  rw [hsplit]
  exact strictLoop_missing _ _ k post ((buildMap_none key l k).2 hk) pre []
    (fun p hp => buildMap_present key l p (hpre' p hp))

theorem strict_present [DecidableEq κ] (key : ρ → κ) (mkErr : κ → Error) (l : List ρ) (keys : List κ)
    (h : ∀ k ∈ keys, ∃ r ∈ l, key r = k) :
    ∃ rs, strictLoop (buildMap key l) mkErr keys [] = (rs, none) ∧
      keys.map (buildMap key l).get = rs.map some := by
  obtain ⟨rs, hrs, hmap⟩ := strictLoop_ok (buildMap key l) mkErr keys []
    (fun k hk => buildMap_present key l k (h k hk))
  exact ⟨rs, by simpa using hrs, hmap⟩

theorem map_some_index {m : κ → Option ρ} {keys : List κ} {rs : List ρ}
    (hmap : keys.map m = rs.map some) (i : Nat) :
    (keys[i]?).map m = (rs[i]?).map some := by
  rw [← List.getElem?_map, ← List.getElem?_map, hmap]

theorem map_some_length {m : κ → Option ρ} {keys : List κ} {rs : List ρ}
    (hmap : keys.map m = rs.map some) : rs.length = keys.length := by
  have := congrArg List.length hmap
  simpa using this.symm

theorem map_some_at {m : κ → Option ρ} {keys : List κ} {rs : List ρ}
    (hmap : keys.map m = rs.map some) (i : Nat) (k : κ) (hk : keys[i]? = some k) :
    ∃ r, rs[i]? = some r ∧ m k = some r := by
  have h := map_some_index hmap i
  rw [hk] at h
  cases hr : rs[i]? with
  | none => rw [hr] at h; simp at h
  | some r =>
    rw [hr] at h
    refine ⟨r, rfl, ?_⟩
    simpa using h

theorem map_some_repeat {m : κ → Option ρ} {keys : List κ} {rs : List ρ}
    (hmap : keys.map m = rs.map some) (i j : Nat) (hij : keys[i]? = keys[j]?) :
    rs[i]? = rs[j]? := by
  have hi := map_some_index hmap i
  have hj := map_some_index hmap j
  rw [hij, hj] at hi
  exact (Option.map_injective (Option.some_injective ρ) hi).symm

theorem buildMap_perm [DecidableEq κ] (key : ρ → κ) (l l' : List ρ) (hperm : l.Perm l')
    (hnodup : (l.map key).Nodup) : buildMap key l = buildMap key l' := by
  funext k
  change (buildMap key l).get k = (buildMap key l').get k
  cases h : (buildMap key l).get k with
  | none =>
    have h1 := (buildMap_none key l k).1 h
    exact ((buildMap_none key l' k).2 (fun r hr => h1 r (hperm.mem_iff.2 hr))).symm
  | some r =>
    obtain ⟨pre, post, hl, hr, _⟩ := buildMap_some key l k r h
    have hmem : r ∈ l := by rw [hl]; simp
    obtain ⟨r', hr'⟩ := buildMap_present key l' k ⟨r, hperm.mem_iff.1 hmem, hr⟩
    obtain ⟨pre', post', hl', hkr', _⟩ := buildMap_some key l' k r' hr'
    have hmem' : r' ∈ l := by rw [hperm.mem_iff, hl']; simp
    have : r = r' := List.inj_on_of_nodup_map hnodup hmem hmem' (hr.trans hkr'.symm)
    rw [hr', this]

end bulk

end apiclient

namespace apiclient

/-- C4, as stated, fails: against a fetched collection of one user, the user
bulk filters called with zero usernames or IDs return the empty list, not the
fetched collection. -/
theorem GetListUsers_zero_keys_counterexample :
    (fixedTransport [] [mkUser "u1" "x"]).ListUsers () = (([mkUser "u1" "x"], none), ()) ∧
    (Client.mk (fixedTransport [] [mkUser "u1" "x"])).GetListUsersByUsername [] () =
      (([], none), ()) ∧
    (Client.mk (fixedTransport [] [mkUser "u1" "x"])).GetListUsersByUID [] () =
      (([], none), ()) ∧
    (Client.mk (fixedTransport [] [mkUser "u1" "x"])).GetListUsersByUsername [] () ≠
      (([mkUser "u1" "x"], none), ()) ∧
    (Client.mk (fixedTransport [] [mkUser "u1" "x"])).GetListUsersByUID [] () ≠
      (([mkUser "u1" "x"], none), ()) := by
  refine ⟨rfl, rfl, rfl, ?_, ?_⟩ <;> simp [Client.GetListUsersByUsername,
    Client.GetListUsersByUID, fixedTransport, usersByUsernameLoop, usersByUIDLoop]

/-- C4, amended: when the fetch succeeds, GetListUsersByUsername and
GetListUsersByUID called with zero usernames or IDs return the empty list with
a nil error, whatever the fetched collection holds. -/
theorem GetListUsers_zero_keys {σ : Type} (c : Client σ) (s s' : σ) (users : List user.Resource)
    (hfetch : c.Transport.ListUsers s = ((users, none), s')) :
    c.GetListUsersByUsername [] s = (([], none), s') ∧
    c.GetListUsersByUID [] s = (([], none), s') := by
  simp only [Client.GetListUsersByUsername, Client.GetListUsersByUID, hfetch]
  exact ⟨rfl, rfl⟩

/-- Witness of the amended C4 on a collection of two users. -/
theorem GetListUsers_zero_keys_witness :
    (Client.mk (fixedTransport [] [mkUser "u1" "x", mkUser "u2" "y"])).GetListUsersByUsername
      [] () = (([], none), ()) ∧
    (Client.mk (fixedTransport [] [mkUser "u1" "x", mkUser "u2" "y"])).GetListUsersByUID
      [] () = (([], none), ()) :=
  GetListUsers_zero_keys (Client.mk (fixedTransport [] [mkUser "u1" "x", mkUser "u2" "y"]))
    () () [mkUser "u1" "x", mkUser "u2" "y"] rfl

/-- C5: when at least one requested key matches no resource, each bulk filter
returns a nil result and the NotFound error carrying the first requested key,
in caller order, that is absent from the collection. The request splits as
`pre ++ k :: post` with every key of `pre` present and `k` absent, and the
error is the one built for `k`. -/
theorem bulk_filter_missing_key :
    (∀ (nodes : List node.Resource) (names : List String),
      (∃ k ∈ names, ∀ n ∈ nodes, n.Name ≠ k) →
      ∃ pre k post, names = pre ++ k :: post ∧ (∀ p ∈ pre, ∃ n ∈ nodes, n.Name = p) ∧
        (∀ n ∈ nodes, n.Name ≠ k) ∧
        filterNodesForNames nodes names =
          ([], some (Error.nodeNotFound { uid := "", name := k }))) ∧
    (∀ (nodes : List node.Resource) (uids : List id.Node),
      (∃ k ∈ uids, ∀ n ∈ nodes, n.ID ≠ k) →
      ∃ pre k post, uids = pre ++ k :: post ∧ (∀ p ∈ pre, ∃ n ∈ nodes, n.ID = p) ∧
        (∀ n ∈ nodes, n.ID ≠ k) ∧
        filterNodesForUIDs nodes uids =
          ([], some (Error.nodeNotFound { uid := k, name := "" }))) ∧
    (∀ (σ : Type) (c : Client σ) (s s' : σ) (users : List user.Resource)
      (usernames : List String),
      c.Transport.ListUsers s = ((users, none), s') →
      (∃ k ∈ usernames, ∀ u ∈ users, u.Username ≠ k) →
      ∃ pre k post, usernames = pre ++ k :: post ∧
        (∀ p ∈ pre, ∃ u ∈ users, u.Username = p) ∧ (∀ u ∈ users, u.Username ≠ k) ∧
        c.GetListUsersByUsername usernames s =
          (([], some (Error.userNotFound
            { msg := "user with name " ++ k ++ " not found", uid := "", name := k })), s')) ∧
    (∀ (σ : Type) (c : Client σ) (s s' : σ) (users : List user.Resource)
      (uids : List id.User),
      c.Transport.ListUsers s = ((users, none), s') →
      (∃ k ∈ uids, ∀ u ∈ users, u.ID ≠ k) →
      ∃ pre k post, uids = pre ++ k :: post ∧
        (∀ p ∈ pre, ∃ u ∈ users, u.ID = p) ∧ (∀ u ∈ users, u.ID ≠ k) ∧
        c.GetListUsersByUID uids s =
          (([], some (Error.userNotFound
            { msg := "user not found", uid := k, name := "" })), s')) := by
  refine ⟨?_, ?_, ?_, ?_⟩
  · intro nodes names h
    obtain ⟨pre, k, post, hsplit, hpre, hk, hres⟩ := strict_missing (fun n : node.Resource => n.Name)
      (fun k => Error.nodeNotFound (NewNodeNameNotFoundError k)) nodes names h
    refine ⟨pre, k, post, hsplit, hpre, hk, ?_⟩
    have hne : ¬ names.length = 0 := by rw [hsplit]; simp
    rw [filterNodesForNames, if_neg hne, filterNodesForNamesLoop_eq, retrievedByName_eq, hres]
    rfl
  · intro nodes uids h
    obtain ⟨pre, k, post, hsplit, hpre, hk, hres⟩ := strict_missing (fun n : node.Resource => n.ID)
      (fun k => Error.nodeNotFound (NewNodeNotFoundError k)) nodes uids h
    refine ⟨pre, k, post, hsplit, hpre, hk, ?_⟩
    have hne : ¬ uids.length = 0 := by rw [hsplit]; simp
    rw [filterNodesForUIDs, if_neg hne, filterNodesForUIDsLoop_eq, retrievedByID_eq, hres]
    rfl
  · intro σ c s s' users usernames hfetch h
    obtain ⟨pre, k, post, hsplit, hpre, hk, hres⟩ :=
      strict_missing (fun u : user.Resource => u.Username)
        (fun k => Error.userNotFound (NewUserNameNotFoundError k)) users usernames h
    refine ⟨pre, k, post, hsplit, hpre, hk, ?_⟩
    simp only [Client.GetListUsersByUsername, hfetch, usersByUsernameLoop_eq,
      usersByUsername_eq, hres]
    rfl
  · intro σ c s s' users uids hfetch h
    obtain ⟨pre, k, post, hsplit, hpre, hk, hres⟩ :=
      strict_missing (fun u : user.Resource => u.ID)
        (fun k => Error.userNotFound (NewUserNotFoundError "user not found" k)) users uids h
    refine ⟨pre, k, post, hsplit, hpre, hk, ?_⟩
    simp only [Client.GetListUsersByUID, hfetch, usersByUIDLoop_eq, usersByID_eq, hres]
    rfl

/-- Witness of C5, the scenario of the specification: users ["x"] filtered by
usernames ["x", "y"] give no result and the NotFound error for "y". -/
theorem bulk_filter_missing_key_witness :
    (Client.mk (fixedTransport [] [mkUser "u1" "x"])).GetListUsersByUsername ["x", "y"] () =
      (([], some (Error.userNotFound
        { msg := "user with name y not found", uid := "", name := "y" })), ()) := by
  obtain ⟨pre, k, post, hsplit, hpre, hk, hres⟩ :=
    bulk_filter_missing_key.2.2.1 Unit (Client.mk (fixedTransport [] [mkUser "u1" "x"])) () ()
      [mkUser "u1" "x"] ["x", "y"] rfl ⟨"y", by simp, by decide⟩
  have hky : k = "y" := by
    rcases pre with _ | ⟨a, _ | ⟨b, pre⟩⟩
    · simp at hsplit
      exact absurd hsplit.1 (hk (mkUser "u1" "x") (by simp))
    · simp at hsplit
      exact hsplit.2.1.symm
    · simp at hsplit
  rw [hres, hky]
  rfl

end apiclient

namespace apiclient

/-- C6: for a non-empty request all of whose names occur in the collection,
filterNodesForNames returns a nil error and exactly one resource per requested
name, the i-th having Name `names[i]` and being an element of the collection;
equal requested names give equal results at their positions (a name requested
twice appears twice); and for a collection with distinct names the result is
the same for every permutation of the collection. The same holds for
filterNodesForUIDs over ID. -/
theorem filterNodes_request_order :
    (∀ (nodes : List node.Resource) (names : List String), names ≠ [] →
      (∀ k ∈ names, ∃ n ∈ nodes, n.Name = k) →
      ∃ rs, filterNodesForNames nodes names = (rs, none) ∧ rs.length = names.length ∧
        (∀ (i : Nat) (k : String), names[i]? = some k →
          ∃ r : node.Resource, rs[i]? = some r ∧ r.Name = k ∧ r ∈ nodes) ∧
        (∀ i j : Nat, names[i]? = names[j]? → rs[i]? = rs[j]?)) ∧
    (∀ (nodes nodes' : List node.Resource) (names : List String), names ≠ [] →
      nodes.Perm nodes' → (nodes.map (fun n => n.Name)).Nodup →
      filterNodesForNames nodes names = filterNodesForNames nodes' names) ∧
    (∀ (nodes : List node.Resource) (uids : List id.Node), uids ≠ [] →
      (∀ k ∈ uids, ∃ n ∈ nodes, n.ID = k) →
      ∃ rs, filterNodesForUIDs nodes uids = (rs, none) ∧ rs.length = uids.length ∧
        (∀ (i : Nat) (k : id.Node), uids[i]? = some k →
          ∃ r : node.Resource, rs[i]? = some r ∧ r.ID = k ∧ r ∈ nodes) ∧
        (∀ i j : Nat, uids[i]? = uids[j]? → rs[i]? = rs[j]?)) ∧
    (∀ (nodes nodes' : List node.Resource) (uids : List id.Node), uids ≠ [] →
      nodes.Perm nodes' → (nodes.map (fun n => n.ID)).Nodup →
      filterNodesForUIDs nodes uids = filterNodesForUIDs nodes' uids) := by
  refine ⟨?_, ?_, ?_, ?_⟩
  · intro nodes names hne hall
    obtain ⟨rs, hrs, hmap⟩ := strict_present (fun n : node.Resource => n.Name)
      (fun k => Error.nodeNotFound (NewNodeNameNotFoundError k)) nodes names hall
    have hlen : ¬ names.length = 0 := fun h => hne (List.length_eq_zero.1 h)
    refine ⟨rs, ?_, map_some_length hmap, ?_, map_some_repeat hmap⟩
    · rw [filterNodesForNames, if_neg hlen, filterNodesForNamesLoop_eq, retrievedByName_eq, hrs]
    · intro i k hk
      obtain ⟨r, hr, hget⟩ := map_some_at hmap i k hk
      obtain ⟨pre, post, hl, hkey, _⟩ := buildMap_some _ nodes k r hget
      exact ⟨r, hr, hkey, by rw [hl]; simp⟩
  · intro nodes nodes' names hne hperm hnodup
    have hlen : ¬ names.length = 0 := fun h => hne (List.length_eq_zero.1 h)
    rw [filterNodesForNames, filterNodesForNames, if_neg hlen, if_neg hlen, retrievedByName_eq,
      retrievedByName_eq, buildMap_perm _ nodes nodes' hperm hnodup]
  · intro nodes uids hne hall
    obtain ⟨rs, hrs, hmap⟩ := strict_present (fun n : node.Resource => n.ID)
      (fun k => Error.nodeNotFound (NewNodeNotFoundError k)) nodes uids hall
    have hlen : ¬ uids.length = 0 := fun h => hne (List.length_eq_zero.1 h)
    refine ⟨rs, ?_, map_some_length hmap, ?_, map_some_repeat hmap⟩
    · rw [filterNodesForUIDs, if_neg hlen, filterNodesForUIDsLoop_eq, retrievedByID_eq, hrs]
    · intro i k hk
      obtain ⟨r, hr, hget⟩ := map_some_at hmap i k hk
      obtain ⟨pre, post, hl, hkey, _⟩ := buildMap_some _ nodes k r hget
      exact ⟨r, hr, hkey, by rw [hl]; simp⟩
  · intro nodes nodes' uids hne hperm hnodup
    have hlen : ¬ uids.length = 0 := fun h => hne (List.length_eq_zero.1 h)
    rw [filterNodesForUIDs, filterNodesForUIDs, if_neg hlen, if_neg hlen, retrievedByID_eq,
      retrievedByID_eq, buildMap_perm _ nodes nodes' hperm hnodup]

/-- Witness of C6: the request ["c", "a", "c"] against the nodes a, b, c, and
the same request against the collection with its first two nodes swapped. -/
theorem filterNodes_request_order_witness :
    (∃ rs, filterNodesForNames [mkNode "n1" "a", mkNode "n2" "b", mkNode "n3" "c"]
        ["c", "a", "c"] = (rs, none) ∧ rs.length = ["c", "a", "c"].length ∧
      (∀ (i : Nat) (k : String), ["c", "a", "c"][i]? = some k →
        ∃ r : node.Resource, rs[i]? = some r ∧ r.Name = k ∧
          r ∈ [mkNode "n1" "a", mkNode "n2" "b", mkNode "n3" "c"]) ∧
      (∀ i j : Nat, ["c", "a", "c"][i]? = ["c", "a", "c"][j]? → rs[i]? = rs[j]?)) ∧
    filterNodesForNames [mkNode "n1" "a", mkNode "n2" "b", mkNode "n3" "c"] ["c", "a", "c"] =
      filterNodesForNames [mkNode "n2" "b", mkNode "n1" "a", mkNode "n3" "c"] ["c", "a", "c"] ∧
    filterNodesForNames [mkNode "n1" "a", mkNode "n2" "b", mkNode "n3" "c"] ["c", "a", "c"] =
      ([mkNode "n3" "c", mkNode "n1" "a", mkNode "n3" "c"], none) ∧
    filterNodesForUIDs [mkNode "n1" "a", mkNode "n2" "b", mkNode "n3" "c"] ["n3", "n1", "n3"] =
      ([mkNode "n3" "c", mkNode "n1" "a", mkNode "n3" "c"], none) :=
  ⟨filterNodes_request_order.1 [mkNode "n1" "a", mkNode "n2" "b", mkNode "n3" "c"]
      ["c", "a", "c"] (by simp) (by decide),
   filterNodes_request_order.2.1 [mkNode "n1" "a", mkNode "n2" "b", mkNode "n3" "c"]
      [mkNode "n2" "b", mkNode "n1" "a", mkNode "n3" "c"] ["c", "a", "c"] (by simp)
      (List.Perm.swap _ _ _) (by decide),
   by decide, by decide⟩

/-- C7, as stated, fails: the collection holds two nodes named "a" and the
non-empty request ["a", "zz"] contains "a", yet filterNodesForNames returns
no node at all, for "a" or otherwise: "zz" is missing, and one missing name
aborts the whole call with its NotFound error. -/
theorem filterNodesForNames_last_wins_counterexample :
    "a" ∈ ["a", "zz"] ∧
    ([mkNode "n1" "a", mkNode "n2" "b", mkNode "n3" "a"].filter
      (fun r => r.Name = "a")).length = 2 ∧
    filterNodesForNames [mkNode "n1" "a", mkNode "n2" "b", mkNode "n3" "a"] ["a", "zz"] =
      ([], some (Error.nodeNotFound { uid := "", name := "zz" })) ∧
    (filterNodesForNames [mkNode "n1" "a", mkNode "n2" "b", mkNode "n3" "a"] ["a", "zz"]).1[0]? ≠
      some (mkNode "n3" "a") := by
  refine ⟨by decide, by decide, by decide, by decide⟩

/-- C7, amended: for a non-empty request, when several nodes share a Name,
filterNodesForNames raises no error for the duplication and the last
occurrence shadows the earlier ones, provided that every requested name occurs
in the collection: the result then has a nil error and holds, at each position
of the request, the node at the highest index among those with the requested
name. Whatever the collection, the only error the filter returns is the
NotFound error of a requested name that no node has. -/
theorem filterNodesForNames_last_wins (nodes : List node.Resource) (names : List String)
    (hne : names ≠ []) :
    ((∀ k ∈ names, ∃ n ∈ nodes, n.Name = k) →
      ∃ rs, filterNodesForNames nodes names = (rs, none) ∧
        ∀ (i : Nat) (k : String), names[i]? = some k →
          ∃ (j : Nat) (r : node.Resource), nodes[j]? = some r ∧ r.Name = k ∧
            (∀ j' : Nat, j < j' → ∀ x : node.Resource, nodes[j']? = some x → x.Name ≠ k) ∧
            rs[i]? = some r) ∧
    (∀ e : Error, (filterNodesForNames nodes names).2 = some e →
      ∃ k ∈ names, (∀ n ∈ nodes, n.Name ≠ k) ∧
        e = Error.nodeNotFound { uid := "", name := k }) := by
  have hlen : ¬ names.length = 0 := fun h => hne (List.length_eq_zero.1 h)
  have hok : (∀ k ∈ names, ∃ n ∈ nodes, n.Name = k) →
      ∃ rs, filterNodesForNames nodes names = (rs, none) ∧
        ∀ (i : Nat) (k : String), names[i]? = some k →
          ∃ (j : Nat) (r : node.Resource), nodes[j]? = some r ∧ r.Name = k ∧
            (∀ j' : Nat, j < j' → ∀ x : node.Resource, nodes[j']? = some x → x.Name ≠ k) ∧
            rs[i]? = some r := by
    intro hall
    obtain ⟨rs, hrs, hmap⟩ := strict_present (fun n : node.Resource => n.Name)
      (fun k => Error.nodeNotFound (NewNodeNameNotFoundError k)) nodes names hall
    refine ⟨rs, ?_, ?_⟩
    · rw [filterNodesForNames, if_neg hlen, filterNodesForNamesLoop_eq, retrievedByName_eq, hrs]
    · intro i k hk
      obtain ⟨r, hr, hget⟩ := map_some_at hmap i k hk
      obtain ⟨pre, post, hl, hkey, hpost⟩ := buildMap_some _ nodes k r hget
      obtain ⟨hidx, hhigh⟩ :=
        split_last_index (fun n : node.Resource => n.Name = k) pre post r hpost
      subst hl
      exact ⟨pre.length, r, hidx, hkey, hhigh, hr⟩
  refine ⟨hok, ?_⟩
  intro e he
  by_cases hall : ∀ k ∈ names, ∃ n ∈ nodes, n.Name = k
  · obtain ⟨rs, hrs, _⟩ := hok hall
    rw [hrs] at he
    simp at he
  · have hmiss : ∃ k ∈ names, ∀ n ∈ nodes, n.Name ≠ k := by
      push_neg at hall
      exact hall
    obtain ⟨pre, k, post, hsplit, _, hk, hres⟩ := strict_missing (fun n : node.Resource => n.Name)
      (fun k => Error.nodeNotFound (NewNodeNameNotFoundError k)) nodes names hmiss
    rw [filterNodesForNames, if_neg hlen, filterNodesForNamesLoop_eq, retrievedByName_eq,
      hres] at he
    refine ⟨k, by rw [hsplit]; simp, hk, ?_⟩
    have he' : Error.nodeNotFound (NewNodeNameNotFoundError k) = e := by simpa using he
    rw [← he']
    rfl

/-- Witness of the amended C7: two nodes named "a" at indices 0 and 2; the request
["a", "b"] is served without error, by the node at index 2 and the node "b". -/
theorem filterNodesForNames_last_wins_witness :
    (∃ rs, filterNodesForNames [mkNode "n1" "a", mkNode "n2" "b", mkNode "n3" "a"] ["a", "b"] =
        (rs, none) ∧
      ∀ (i : Nat) (k : String), ["a", "b"][i]? = some k →
        ∃ (j : Nat) (r : node.Resource),
          [mkNode "n1" "a", mkNode "n2" "b", mkNode "n3" "a"][j]? = some r ∧ r.Name = k ∧
          (∀ j' : Nat, j < j' → ∀ x : node.Resource,
            [mkNode "n1" "a", mkNode "n2" "b", mkNode "n3" "a"][j']? = some x → x.Name ≠ k) ∧
          rs[i]? = some r) ∧
    filterNodesForNames [mkNode "n1" "a", mkNode "n2" "b", mkNode "n3" "a"] ["a", "b"] =
      ([mkNode "n3" "a", mkNode "n2" "b"], none) :=
  ⟨(filterNodesForNames_last_wins [mkNode "n1" "a", mkNode "n2" "b", mkNode "n3" "a"] ["a", "b"]
    (by simp)).1 (by decide), by decide⟩

end apiclient

/-! ## Failure of the fetch -/

namespace apiclient

/-- C8: when the list operation of the transport fails with error `e`, each of
GetNodeByName, GetListNodesByName, GetListNodesByUID, GetUserByName,
GetListUsersByUID and GetListUsersByUsername returns a nil result and exactly
`e`, whatever names or IDs are requested, and leaves the transport in the state
reached by that one call: no second fetch is made. -/
theorem fetch_error_propagates {σ : Type} (c : Client σ) (s : σ) (e : Error)
    (name : String) (names : List String) (uids : List String) :
    (∀ (got : List node.Resource) (s' : σ), c.Transport.ListNodes s = ((got, some e), s') →
      c.GetNodeByName name s = ((none, some e), s') ∧
      c.GetListNodesByName names s = (([], some e), s') ∧
      c.GetListNodesByUID uids s = (([], some e), s')) ∧
    (∀ (got : List user.Resource) (s' : σ), c.Transport.ListUsers s = ((got, some e), s') →
      c.GetUserByName name s = ((none, some e), s') ∧
      c.GetListUsersByUID uids s = (([], some e), s') ∧
      c.GetListUsersByUsername names s = (([], some e), s')) := by
  constructor
  · intro got s' hfetch
    simp [Client.GetNodeByName, Client.GetListNodesByName, Client.GetListNodesByUID, hfetch]
  · intro got s' hfetch
    simp [Client.GetUserByName, Client.GetListUsersByUID, Client.GetListUsersByUsername, hfetch]

/-- Witness of C8: a transport that counts its calls and fails each of them
with "bananas"; every client call returns that error with the count at one. -/
theorem fetch_error_propagates_witness :
    ((Client.mk (failingTransport (Error.other "bananas"))).GetNodeByName "a-node" 0 =
        ((none, some (Error.other "bananas")), 1) ∧
      (Client.mk (failingTransport (Error.other "bananas"))).GetListNodesByName ["a", "b"] 0 =
        (([], some (Error.other "bananas")), 1) ∧
      (Client.mk (failingTransport (Error.other "bananas"))).GetListNodesByUID ["n1"] 0 =
        (([], some (Error.other "bananas")), 1)) ∧
    ((Client.mk (failingTransport (Error.other "bananas"))).GetUserByName "a-node" 0 =
        ((none, some (Error.other "bananas")), 1) ∧
      (Client.mk (failingTransport (Error.other "bananas"))).GetListUsersByUID ["n1"] 0 =
        (([], some (Error.other "bananas")), 1) ∧
      (Client.mk (failingTransport (Error.other "bananas"))).GetListUsersByUsername ["a", "b"] 0 =
        (([], some (Error.other "bananas")), 1)) :=
  ⟨(fetch_error_propagates (Client.mk (failingTransport (Error.other "bananas"))) 0
      (Error.other "bananas") "a-node" ["a", "b"] ["n1"]).1 [] 1 rfl,
   (fetch_error_propagates (Client.mk (failingTransport (Error.other "bananas"))) 0
      (Error.other "bananas") "a-node" ["a", "b"] ["n1"]).2 [] 1 rfl⟩

end apiclient

/-! ## Flag-backed provider -/

namespace flags

variable {ε : Type}

/-- C9, as stated, fails: with every flag explicitly set to the zero value of
its type, the Username, Password, CacheDir, CommandTimeout and APIEndpoints
accessors return the values of the fallback provider, not the flag values. -/
theorem flags_zero_override_counterexample :
    zeroFlagSet.Changed UsernameFlag = true ∧
    zeroFlagSet.GetString UsernameFlag = ("", none) ∧
    (Provider.mk zeroFlagSet sampleFallback).Username = ("fallback-user", none) ∧
    (Provider.mk zeroFlagSet sampleFallback).Username ≠ ("", none) ∧
    (Provider.mk zeroFlagSet sampleFallback).Password = ("fallback-password", none) ∧
    (Provider.mk zeroFlagSet sampleFallback).CacheDir = ("fallback-cache", none) ∧
    (Provider.mk zeroFlagSet sampleFallback).CommandTimeout = (15000000000, none) ∧
    (Provider.mk zeroFlagSet sampleFallback).APIEndpoints = (["fallback-host:5705"], none) := by
  refine ⟨rfl, rfl, by decide, by decide, by decide, by decide, by decide, by decide⟩

/-- C9, amended: when the flag was explicitly set and its value can be read,
the Username, Password, CacheDir, CommandTimeout and APIEndpoints accessors
return the flag value with a nil error, whatever the fallback provider, if
that value is not the zero value of its type (empty string, zero duration,
empty list); if it is the zero value they return the result of the fallback
accessor of the same name. -/
theorem flags_changed_value (set : FlagSet ε) (fb : config.Provider ε) :
    (∀ v : String, set.Changed UsernameFlag = true → set.GetString UsernameFlag = (v, none) →
      (Provider.mk set fb).Username = if v = "" then fb.Username else (v, none)) ∧
    (∀ v : String, set.Changed PasswordFlag = true → set.GetString PasswordFlag = (v, none) →
      (Provider.mk set fb).Password = if v = "" then fb.Password else (v, none)) ∧
    (∀ v : String, set.Changed CacheDirFlag = true → set.GetString CacheDirFlag = (v, none) →
      (Provider.mk set fb).CacheDir = if v = "" then fb.CacheDir else (v, none)) ∧
    (∀ v : time.Duration, set.Changed CommandTimeoutFlag = true →
      set.GetDuration CommandTimeoutFlag = (v, none) →
      (Provider.mk set fb).CommandTimeout = if v = 0 then fb.CommandTimeout else (v, none)) ∧
    (∀ v : List String, set.Changed APIEndpointsFlag = true →
      set.GetStringArray APIEndpointsFlag = (v, none) →
      (Provider.mk set fb).APIEndpoints = if v = [] then fb.APIEndpoints else (v, none)) := by
  refine ⟨?_, ?_, ?_, ?_, ?_⟩
  · intro v hc hv
    by_cases h : v = "" <;> simp [Provider.Username, hc, hv, h]
  · intro v hc hv
    by_cases h : v = "" <;> simp [Provider.Password, hc, hv, h]
  · intro v hc hv
    by_cases h : v = "" <;> simp [Provider.CacheDir, hc, hv, h]
  · intro v hc hv
    by_cases h : v = 0 <;> simp [Provider.CommandTimeout, hc, hv, h]
  · intro v hc hv
    by_cases h : v = [] <;> simp [Provider.APIEndpoints, hc, hv, h]

/-- Witness of the amended C9: with every flag explicitly set to a non-zero
value, the five accessors return the flag values although the fallback holds
other values. -/
theorem flags_changed_value_witness :
    (Provider.mk setFlagSet sampleFallback).Username = ("from-flag", none) ∧
    (Provider.mk setFlagSet sampleFallback).Password = ("from-flag", none) ∧
    (Provider.mk setFlagSet sampleFallback).CacheDir = ("from-flag", none) ∧
    (Provider.mk setFlagSet sampleFallback).CommandTimeout = (5000000000, none) ∧
    (Provider.mk setFlagSet sampleFallback).APIEndpoints = (["flag-host:5705"], none) :=
  ⟨(flags_changed_value setFlagSet sampleFallback).1 "from-flag" rfl rfl,
   (flags_changed_value setFlagSet sampleFallback).2.1 "from-flag" rfl rfl,
   (flags_changed_value setFlagSet sampleFallback).2.2.1 "from-flag" rfl rfl,
   (flags_changed_value setFlagSet sampleFallback).2.2.2.1 5000000000 rfl rfl,
   (flags_changed_value setFlagSet sampleFallback).2.2.2.2 ["flag-host:5705"] rfl rfl⟩

/-- C10: when the flag was explicitly set and its value can be read, the
Namespace, ConfigFilePath, UseIDs and AuthCacheDisabled accessors return
exactly the flag value with a nil error, also when that value is the empty
string or false, whatever the fallback provider would return. -/
theorem flags_changed_exact (set : FlagSet ε) (fb : config.Provider ε) :
    (∀ v : String, set.Changed NamespaceFlag = true → set.GetString NamespaceFlag = (v, none) →
      (Provider.mk set fb).Namespace = (v, none)) ∧
    (∀ v : String, set.Changed ConfigFileFlag = true → set.GetString ConfigFileFlag = (v, none) →
      (Provider.mk set fb).ConfigFilePath = (v, none)) ∧
    (∀ v : Bool, set.Changed UseIDsFlag = true → set.GetBool UseIDsFlag = (v, none) →
      (Provider.mk set fb).UseIDs = (v, none)) ∧
    (∀ v : Bool, set.Changed AuthCacheDisabledFlag = true →
      set.GetBool AuthCacheDisabledFlag = (v, none) →
      (Provider.mk set fb).AuthCacheDisabled = (v, none)) := by
  refine ⟨?_, ?_, ?_, ?_⟩
  · intro v hc hv
    simp [Provider.Namespace, hc, hv]
  · intro v hc hv
    simp [Provider.ConfigFilePath, hc, hv]
  · intro v hc hv
    simp [Provider.UseIDs, hc, hv]
  · intro v hc hv
    simp [Provider.AuthCacheDisabled, hc, hv]

/-- Witness of C10: with every flag explicitly set to the zero value, the four
accessors return the empty string or false although the fallback holds
non-zero values. -/
theorem flags_changed_exact_witness :
    (Provider.mk zeroFlagSet sampleFallback).Namespace = ("", none) ∧
    (Provider.mk zeroFlagSet sampleFallback).ConfigFilePath = ("", none) ∧
    (Provider.mk zeroFlagSet sampleFallback).UseIDs = (false, none) ∧
    (Provider.mk zeroFlagSet sampleFallback).AuthCacheDisabled = (false, none) :=
  ⟨(flags_changed_exact zeroFlagSet sampleFallback).1 "" rfl rfl,
   (flags_changed_exact zeroFlagSet sampleFallback).2.1 "" rfl rfl,
   (flags_changed_exact zeroFlagSet sampleFallback).2.2.1 false rfl rfl,
   (flags_changed_exact zeroFlagSet sampleFallback).2.2.2 false rfl rfl⟩

end flags

namespace flags

/-- C11: for every accessor of the flag-backed provider, when the flag value
can be read and the flag has not been changed, the accessor returns exactly
the pair that the accessor of the same name of the fallback provider returns,
whatever default value the flag set holds. -/
theorem flags_unchanged_fallback {ε : Type} (set : FlagSet ε) (fb : config.Provider ε)
    (FormatFromString : String → output.Format × Option ε) :
    (∀ v : Bool, set.GetBool AuthCacheDisabledFlag = (v, none) →
      set.Changed AuthCacheDisabledFlag = false →
      (Provider.mk set fb).AuthCacheDisabled = fb.AuthCacheDisabled) ∧
    (∀ v : List String, set.GetStringArray APIEndpointsFlag = (v, none) →
      set.Changed APIEndpointsFlag = false →
      (Provider.mk set fb).APIEndpoints = fb.APIEndpoints) ∧
    (∀ v : String, set.GetString CacheDirFlag = (v, none) →
      set.Changed CacheDirFlag = false →
      (Provider.mk set fb).CacheDir = fb.CacheDir) ∧
    (∀ v : time.Duration, set.GetDuration CommandTimeoutFlag = (v, none) →
      set.Changed CommandTimeoutFlag = false →
      (Provider.mk set fb).CommandTimeout = fb.CommandTimeout) ∧
    (∀ v : String, set.GetString UsernameFlag = (v, none) →
      set.Changed UsernameFlag = false →
      (Provider.mk set fb).Username = fb.Username) ∧
    (∀ v : String, set.GetString PasswordFlag = (v, none) →
      set.Changed PasswordFlag = false →
      (Provider.mk set fb).Password = fb.Password) ∧
    (∀ v : Bool, set.GetBool UseIDsFlag = (v, none) →
      set.Changed UseIDsFlag = false →
      (Provider.mk set fb).UseIDs = fb.UseIDs) ∧
    (∀ v : String, set.GetString NamespaceFlag = (v, none) →
      set.Changed NamespaceFlag = false →
      (Provider.mk set fb).Namespace = fb.Namespace) ∧
    (∀ v : String, set.GetString OutputFormatFlag = (v, none) →
      set.Changed OutputFormatFlag = false →
      (Provider.mk set fb).OutputFormat FormatFromString = fb.OutputFormat) ∧
    (∀ v : String, set.GetString ConfigFileFlag = (v, none) →
      set.Changed ConfigFileFlag = false →
      (Provider.mk set fb).ConfigFilePath = fb.ConfigFilePath) := by
  refine ⟨?_, ?_, ?_, ?_, ?_, ?_, ?_, ?_, ?_, ?_⟩
  · intro v hv hc
    simp [Provider.AuthCacheDisabled, hv, hc]
  · intro v hv hc
    simp [Provider.APIEndpoints, hv, hc]
  · intro v hv hc
    simp [Provider.CacheDir, hv, hc]
  · intro v hv hc
    simp [Provider.CommandTimeout, hv, hc]
  · intro v hv hc
    simp [Provider.Username, hv, hc]
  · intro v hv hc
    simp [Provider.Password, hv, hc]
  · intro v hv hc
    simp [Provider.UseIDs, hv, hc]
  · intro v hv hc
    simp [Provider.Namespace, hv, hc]
  · intro v hv hc
    simp [Provider.OutputFormat, hv, hc]
  · intro v hv hc
    simp [Provider.ConfigFilePath, hv, hc]

/-- Witness of C11: with no flag set, the ten accessors return the results of
the fallback although the flag set holds other (default) values. -/
theorem flags_unchanged_fallback_witness :
    (Provider.mk defaultFlagSet sampleFallback).AuthCacheDisabled = (true, none) ∧
    (Provider.mk defaultFlagSet sampleFallback).APIEndpoints = (["fallback-host:5705"], none) ∧
    (Provider.mk defaultFlagSet sampleFallback).CacheDir = ("fallback-cache", none) ∧
    (Provider.mk defaultFlagSet sampleFallback).CommandTimeout = (15000000000, none) ∧
    (Provider.mk defaultFlagSet sampleFallback).Username = ("fallback-user", none) ∧
    (Provider.mk defaultFlagSet sampleFallback).Password = ("fallback-password", none) ∧
    (Provider.mk defaultFlagSet sampleFallback).UseIDs = (true, none) ∧
    (Provider.mk defaultFlagSet sampleFallback).Namespace = ("fallback-namespace", none) ∧
    (Provider.mk defaultFlagSet sampleFallback).OutputFormat jsonOnly =
      (output.Format.JSON, none) ∧
    (Provider.mk defaultFlagSet sampleFallback).ConfigFilePath = ("fallback-config", none) :=
  ⟨(flags_unchanged_fallback defaultFlagSet sampleFallback jsonOnly).1 false rfl rfl,
   (flags_unchanged_fallback defaultFlagSet sampleFallback jsonOnly).2.1 _ rfl rfl,
   (flags_unchanged_fallback defaultFlagSet sampleFallback jsonOnly).2.2.1 _ rfl rfl,
   (flags_unchanged_fallback defaultFlagSet sampleFallback jsonOnly).2.2.2.1 _ rfl rfl,
   (flags_unchanged_fallback defaultFlagSet sampleFallback jsonOnly).2.2.2.2.1 _ rfl rfl,
   (flags_unchanged_fallback defaultFlagSet sampleFallback jsonOnly).2.2.2.2.2.1 _ rfl rfl,
   (flags_unchanged_fallback defaultFlagSet sampleFallback jsonOnly).2.2.2.2.2.2.1 _ rfl rfl,
   (flags_unchanged_fallback defaultFlagSet sampleFallback jsonOnly).2.2.2.2.2.2.2.1 _ rfl rfl,
   (flags_unchanged_fallback defaultFlagSet sampleFallback jsonOnly).2.2.2.2.2.2.2.2.1 _ rfl rfl,
   (flags_unchanged_fallback defaultFlagSet sampleFallback jsonOnly).2.2.2.2.2.2.2.2.2 _ rfl rfl⟩

end flags

/-! ## Environment-backed provider -/

namespace environment

/-- C12: the Username, CacheDir, Namespace and ConfigFilePath accessors of the
environment provider return the value of the variable with a nil error, the
same for every fallback, when the variable holds a non-empty string, and
return exactly the result of the fallback accessor when the variable is unset
or empty. -/
theorem environment_string_accessors (env : Provider) (os : Host) :
    (os.Getenv UsernameVar ≠ "" → env.Username os = (os.Getenv UsernameVar, none)) ∧
    (os.Getenv UsernameVar = "" → env.Username os = env.fallback.Username) ∧
    (os.Getenv CacheDirVar ≠ "" → env.CacheDir os = (os.Getenv CacheDirVar, none)) ∧
    (os.Getenv CacheDirVar = "" → env.CacheDir os = env.fallback.CacheDir) ∧
    (os.Getenv NamespaceVar ≠ "" → env.Namespace os = (os.Getenv NamespaceVar, none)) ∧
    (os.Getenv NamespaceVar = "" → env.Namespace os = env.fallback.Namespace) ∧
    (os.Getenv ConfigFilePathVar ≠ "" →
      env.ConfigFilePath os = (os.Getenv ConfigFilePathVar, none)) ∧
    (os.Getenv ConfigFilePathVar = "" → env.ConfigFilePath os = env.fallback.ConfigFilePath) := by
  refine ⟨?_, ?_, ?_, ?_, ?_, ?_, ?_, ?_⟩ <;> intro h <;>
    simp [Provider.Username, Provider.CacheDir, Provider.Namespace, Provider.ConfigFilePath, h]

/-- Witness of C12: the username and the namespace are set in the environment
and win over a fallback that holds other values; the cache directory and the
configuration file path are unset and come from the fallback. -/
theorem environment_string_accessors_witness :
    (Provider.mk sampleFallback).Username
        (hostOf [("STORAGEOS_USERNAME", "env-user"), ("STORAGEOS_NAMESPACE", "env-ns")]
          sampleRun) = ("env-user", none) ∧
    (Provider.mk sampleFallback).Namespace
        (hostOf [("STORAGEOS_USERNAME", "env-user"), ("STORAGEOS_NAMESPACE", "env-ns")]
          sampleRun) = ("env-ns", none) ∧
    (Provider.mk sampleFallback).CacheDir
        (hostOf [("STORAGEOS_USERNAME", "env-user"), ("STORAGEOS_NAMESPACE", "env-ns")]
          sampleRun) = ("fallback-cache", none) ∧
    (Provider.mk sampleFallback).ConfigFilePath
        (hostOf [("STORAGEOS_USERNAME", "env-user"), ("STORAGEOS_NAMESPACE", "env-ns")]
          sampleRun) = ("fallback-config", none) :=
  ⟨(environment_string_accessors (Provider.mk sampleFallback)
      (hostOf [("STORAGEOS_USERNAME", "env-user"), ("STORAGEOS_NAMESPACE", "env-ns")]
        sampleRun)).1 (by decide),
   (environment_string_accessors (Provider.mk sampleFallback)
      (hostOf [("STORAGEOS_USERNAME", "env-user"), ("STORAGEOS_NAMESPACE", "env-ns")]
        sampleRun)).2.2.2.2.1 (by decide),
   (environment_string_accessors (Provider.mk sampleFallback)
      (hostOf [("STORAGEOS_USERNAME", "env-user"), ("STORAGEOS_NAMESPACE", "env-ns")]
        sampleRun)).2.2.2.1 (by decide),
   (environment_string_accessors (Provider.mk sampleFallback)
      (hostOf [("STORAGEOS_USERNAME", "env-user"), ("STORAGEOS_NAMESPACE", "env-ns")]
        sampleRun)).2.2.2.2.2.2.2 (by decide)⟩

end environment

namespace strings

theorem trim_spec {α : Type} (p : α → Bool) (l : List α) :
    (∃ pre post, l = pre ++ ((l.dropWhile p).reverse.dropWhile p).reverse ++ post ∧
      (∀ c ∈ pre, p c = true) ∧ (∀ c ∈ post, p c = true)) ∧
    (∀ c, (((l.dropWhile p).reverse.dropWhile p).reverse).head? = some c → p c = false) ∧
    (∀ c, (((l.dropWhile p).reverse.dropWhile p).reverse).getLast? = some c → p c = false) := by
  have hsplit : (l.dropWhile p).reverse =
      (l.dropWhile p).reverse.takeWhile p ++ (l.dropWhile p).reverse.dropWhile p :=
    (List.takeWhile_append_dropWhile p _).symm
  refine ⟨⟨l.takeWhile p, ((l.dropWhile p).reverse.takeWhile p).reverse, ?_, ?_, ?_⟩, ?_, ?_⟩
  · have h1 : l.dropWhile p = ((l.dropWhile p).reverse.dropWhile p).reverse ++
        ((l.dropWhile p).reverse.takeWhile p).reverse := by
      rw [← List.reverse_append, ← hsplit, List.reverse_reverse]
    calc l = l.takeWhile p ++ l.dropWhile p := (List.takeWhile_append_dropWhile p l).symm
      _ = l.takeWhile p ++ (((l.dropWhile p).reverse.dropWhile p).reverse ++
            ((l.dropWhile p).reverse.takeWhile p).reverse) := by rw [← h1]
      _ = _ := by rw [List.append_assoc]
  · intro c hc
    exact List.mem_takeWhile_imp hc
  · intro c hc
    exact List.mem_takeWhile_imp (List.mem_reverse.1 hc)
  · intro c hc
    rw [List.head?_reverse] at hc
    have hlast : (l.dropWhile p).reverse.getLast? = some c := by
      rw [hsplit, List.getLast?_append, hc]
      rfl
    rw [List.getLast?_reverse] at hlast
    have := List.head?_dropWhile_not p l
    rw [hlast] at this
    exact this
  · intro c hc
    rw [List.getLast?_reverse] at hc
    have := List.head?_dropWhile_not p (l.dropWhile p).reverse
    rw [hc] at this
    exact this

end strings

namespace environment

/-- C13: when STORAGEOS_USE_IDS or STORAGEOS_NO_AUTH_CACHE holds a non-empty
string that is not a valid boolean, when STORAGEOS_API_TIMEOUT holds a
non-empty string whose parse fails, or when STORAGEOS_OUTPUT_FORMAT holds a
non-empty string whose parse fails, the accessor returns the parse error, and
the result is the same for every fallback provider. -/
theorem environment_malformed_value (env env' : Provider) (os : Host) :
    (∀ v : String, os.Getenv UseIDsVar = v → v ≠ "" →
      v ∉ ["1", "t", "T", "TRUE", "true", "True", "0", "f", "F", "FALSE", "false", "False"] →
      env.UseIDs os = (false, some (GoError.numError "ParseBool" v "invalid syntax")) ∧
      env'.UseIDs os = env.UseIDs os) ∧
    (∀ v : String, os.Getenv AuthCacheDisabledVar = v → v ≠ "" →
      v ∉ ["1", "t", "T", "TRUE", "true", "True", "0", "f", "F", "FALSE", "false", "False"] →
      env.AuthCacheDisabled os =
        (false, some (GoError.numError "ParseBool" v "invalid syntax")) ∧
      env'.AuthCacheDisabled os = env.AuthCacheDisabled os) ∧
    (∀ (v : String) (d : time.Duration) (e : GoError), os.Getenv CommandTimeoutVar = v →
      v ≠ "" → os.ParseDuration v = (d, some e) →
      env.CommandTimeout os = (d, some e) ∧
      env'.CommandTimeout os = env.CommandTimeout os) ∧
    (∀ (v : String) (f : output.Format) (e : GoError), os.Getenv OutputFormatVar = v →
      v ≠ "" → os.FormatFromString v = (f, some e) →
      env.OutputFormat os = (output.Format.Unknown, some e) ∧
      env'.OutputFormat os = env.OutputFormat os) := by
  refine ⟨?_, ?_, ?_, ?_⟩
  · intro v hv hne hbad
    simp only [List.mem_cons, List.mem_singleton, List.not_mem_nil, or_false, not_or] at hbad
    obtain ⟨h1, h2, h3, h4, h5, h6, h7, h8, h9, h10, h11, h12⟩ := hbad
    simp [Provider.UseIDs, strconv.ParseBool, hv, hne, h1, h2, h3, h4, h5, h6, h7, h8, h9,
      h10, h11, h12]
  · intro v hv hne hbad
    simp only [List.mem_cons, List.mem_singleton, List.not_mem_nil, or_false, not_or] at hbad
    obtain ⟨h1, h2, h3, h4, h5, h6, h7, h8, h9, h10, h11, h12⟩ := hbad
    simp [Provider.AuthCacheDisabled, strconv.ParseBool, hv, hne, h1, h2, h3, h4, h5, h6, h7,
      h8, h9, h10, h11, h12]
  · intro v d e hv hne hparse
    simp [Provider.CommandTimeout, hv, hne, hparse]
  · intro v f e hv hne hparse
    simp [Provider.OutputFormat, hv, hne, hparse]

/-- Witness of C13: the variables hold "yes", "maybe", "soon" and "xml"; each
accessor fails although the fallback would return a valid value. -/
theorem environment_malformed_value_witness :
    (Provider.mk sampleFallback).UseIDs
        (hostOf [("STORAGEOS_USE_IDS", "yes"), ("STORAGEOS_NO_AUTH_CACHE", "maybe"),
          ("STORAGEOS_API_TIMEOUT", "soon"), ("STORAGEOS_OUTPUT_FORMAT", "xml")] sampleRun) =
      (false, some (GoError.numError "ParseBool" "yes" "invalid syntax")) ∧
    (Provider.mk sampleFallback).AuthCacheDisabled
        (hostOf [("STORAGEOS_USE_IDS", "yes"), ("STORAGEOS_NO_AUTH_CACHE", "maybe"),
          ("STORAGEOS_API_TIMEOUT", "soon"), ("STORAGEOS_OUTPUT_FORMAT", "xml")] sampleRun) =
      (false, some (GoError.numError "ParseBool" "maybe" "invalid syntax")) ∧
    (Provider.mk sampleFallback).CommandTimeout
        (hostOf [("STORAGEOS_USE_IDS", "yes"), ("STORAGEOS_NO_AUTH_CACHE", "maybe"),
          ("STORAGEOS_API_TIMEOUT", "soon"), ("STORAGEOS_OUTPUT_FORMAT", "xml")] sampleRun) =
      (0, some (GoError.errorString "time: invalid duration")) ∧
    (Provider.mk sampleFallback).OutputFormat
        (hostOf [("STORAGEOS_USE_IDS", "yes"), ("STORAGEOS_NO_AUTH_CACHE", "maybe"),
          ("STORAGEOS_API_TIMEOUT", "soon"), ("STORAGEOS_OUTPUT_FORMAT", "xml")] sampleRun) =
      (output.Format.Unknown, some (GoError.errorString "unknown output format")) :=
  ⟨((environment_malformed_value (Provider.mk sampleFallback) (Provider.mk failingFallback)
      (hostOf [("STORAGEOS_USE_IDS", "yes"), ("STORAGEOS_NO_AUTH_CACHE", "maybe"),
        ("STORAGEOS_API_TIMEOUT", "soon"), ("STORAGEOS_OUTPUT_FORMAT", "xml")] sampleRun)).1
      "yes" (by decide) (by decide) (by decide)).1,
   ((environment_malformed_value (Provider.mk sampleFallback) (Provider.mk failingFallback)
      (hostOf [("STORAGEOS_USE_IDS", "yes"), ("STORAGEOS_NO_AUTH_CACHE", "maybe"),
        ("STORAGEOS_API_TIMEOUT", "soon"), ("STORAGEOS_OUTPUT_FORMAT", "xml")] sampleRun)).2.1
      "maybe" (by decide) (by decide) (by decide)).1,
   ((environment_malformed_value (Provider.mk sampleFallback) (Provider.mk failingFallback)
      (hostOf [("STORAGEOS_USE_IDS", "yes"), ("STORAGEOS_NO_AUTH_CACHE", "maybe"),
        ("STORAGEOS_API_TIMEOUT", "soon"), ("STORAGEOS_OUTPUT_FORMAT", "xml")] sampleRun)).2.2.1
      "soon" 0 (GoError.errorString "time: invalid duration") (by decide) (by decide)
      (by decide)).1,
   ((environment_malformed_value (Provider.mk sampleFallback) (Provider.mk failingFallback)
      (hostOf [("STORAGEOS_USE_IDS", "yes"), ("STORAGEOS_NO_AUTH_CACHE", "maybe"),
        ("STORAGEOS_API_TIMEOUT", "soon"), ("STORAGEOS_OUTPUT_FORMAT", "xml")] sampleRun)).2.2.2
      "xml" output.Format.Unknown (GoError.errorString "unknown output format") (by decide)
      (by decide) (by decide)).1⟩

end environment

namespace environment

/-- C14: whenever STORAGEOS_PASSWORD_COMMAND is non-empty the Password
accessor is determined by the command alone. When the command succeeds the
password is its standard output without the leading and trailing white space;
when it exits with a failure code the result is the error whose message
reports that code; in both cases any other environment and any other fallback
with the same command variable and the same command behaviour give the same
result. Only when the command variable is empty is STORAGEOS_PASSWORD used,
and only when that is empty too is the fallback used. -/
theorem environment_password_command (env env' : Provider) (os os' : Host) :
    (∀ out : String, os.Getenv PasswordCommandVar ≠ "" →
      os.Run (os.Getenv PasswordCommandVar) = (out, none) →
      env.Password os = (strings.TrimSpace out, none) ∧
      (∃ pre post, out.data = pre ++ (strings.TrimSpace out).data ++ post ∧
        (∀ c ∈ pre, unicode.IsSpace c = true) ∧ (∀ c ∈ post, unicode.IsSpace c = true)) ∧
      (∀ c, (strings.TrimSpace out).data.head? = some c → unicode.IsSpace c = false) ∧
      (∀ c, (strings.TrimSpace out).data.getLast? = some c → unicode.IsSpace c = false)) ∧
    (∀ (out : String) (code : Int), os.Getenv PasswordCommandVar ≠ "" →
      os.Run (os.Getenv PasswordCommandVar) = (out, some (GoError.exitError code)) →
      env.Password os =
        ("", some (GoError.errorString
          ("password command exited with error code " ++ toString code)))) ∧
    (os.Getenv PasswordCommandVar ≠ "" →
      os'.Getenv PasswordCommandVar = os.Getenv PasswordCommandVar →
      os'.Run (os.Getenv PasswordCommandVar) = os.Run (os.Getenv PasswordCommandVar) →
      env'.Password os' = env.Password os) ∧
    (os.Getenv PasswordCommandVar = "" → os.Getenv PasswordVar ≠ "" →
      env.Password os = (os.Getenv PasswordVar, none)) ∧
    (os.Getenv PasswordCommandVar = "" → os.Getenv PasswordVar = "" →
      env.Password os = env.fallback.Password) := by
  refine ⟨?_, ?_, ?_, ?_, ?_⟩
  · intro out hcmd hrun
    refine ⟨by simp [Provider.Password, hcmd, hrun], ?_⟩
    exact strings.trim_spec unicode.IsSpace out.data
  · intro out code hcmd hrun
    simp [Provider.Password, hcmd, hrun]
  · intro hcmd hsame hrun
    have hcmd' : os'.Getenv PasswordCommandVar ≠ "" := by rw [hsame]; exact hcmd
    simp only [Provider.Password, hcmd, hcmd', hsame, hrun, ne_eq, not_false_eq_true, if_true]
  · intro hcmd hpw
    simp [Provider.Password, hcmd, hpw]
  · intro hcmd hpw
    simp [Provider.Password, hcmd, hpw]

/-- Witness of C14: with both the command variable and STORAGEOS_PASSWORD
set, the successful command gives its trimmed output and the command that
exits with code 3 gives the error reporting that code; without a command the
direct password is used, and without either the fallback is. -/
theorem environment_password_command_witness :
    (Provider.mk sampleFallback).Password
        (hostOf [("STORAGEOS_PASSWORD_COMMAND", "get-secret"), ("STORAGEOS_PASSWORD", "direct")]
          sampleRun) = ("s3cret", none) ∧
    (Provider.mk sampleFallback).Password
        (hostOf [("STORAGEOS_PASSWORD_COMMAND", "deny"), ("STORAGEOS_PASSWORD", "direct")]
          sampleRun) =
      ("", some (GoError.errorString "password command exited with error code 3")) ∧
    (Provider.mk failingFallback).Password
        (hostOf [("STORAGEOS_PASSWORD_COMMAND", "get-secret")] sampleRun) =
      (Provider.mk sampleFallback).Password
        (hostOf [("STORAGEOS_PASSWORD_COMMAND", "get-secret"), ("STORAGEOS_PASSWORD", "direct")]
          sampleRun) ∧
    (Provider.mk sampleFallback).Password (hostOf [("STORAGEOS_PASSWORD", "direct")] sampleRun) =
      ("direct", none) ∧
    (Provider.mk sampleFallback).Password (hostOf [] sampleRun) = ("fallback-password", none) :=
  ⟨((environment_password_command (Provider.mk sampleFallback) (Provider.mk failingFallback)
      (hostOf [("STORAGEOS_PASSWORD_COMMAND", "get-secret"), ("STORAGEOS_PASSWORD", "direct")]
        sampleRun)
      (hostOf [("STORAGEOS_PASSWORD_COMMAND", "get-secret")] sampleRun)).1
      "  s3cret \n" (by decide) (by decide)).1.trans (by decide),
   ((environment_password_command (Provider.mk sampleFallback) (Provider.mk failingFallback)
      (hostOf [("STORAGEOS_PASSWORD_COMMAND", "deny"), ("STORAGEOS_PASSWORD", "direct")]
        sampleRun)
      (hostOf [("STORAGEOS_PASSWORD_COMMAND", "deny")] sampleRun)).2.1
      "partial output" 3 (by decide) (by decide)).trans (by decide),
   (environment_password_command (Provider.mk sampleFallback) (Provider.mk failingFallback)
      (hostOf [("STORAGEOS_PASSWORD_COMMAND", "get-secret"), ("STORAGEOS_PASSWORD", "direct")]
        sampleRun)
      (hostOf [("STORAGEOS_PASSWORD_COMMAND", "get-secret")] sampleRun)).2.2.1
      (by decide) (by decide) (by decide),
   (environment_password_command (Provider.mk sampleFallback) (Provider.mk failingFallback)
      (hostOf [("STORAGEOS_PASSWORD", "direct")] sampleRun)
      (hostOf [] sampleRun)).2.2.2.1 (by decide) (by decide),
   (environment_password_command (Provider.mk sampleFallback) (Provider.mk failingFallback)
      (hostOf [] sampleRun) (hostOf [] sampleRun)).2.2.2.2 (by decide) (by decide)⟩

end environment

/-! ## Request parameter composition -/

namespace openapi

/-- C15: the request of UpdateLicence has version checking disabled
(IgnoreVersion set to true) and an empty Version exactly when `params` is nil
or its CASVersion is empty; otherwise IgnoreVersion is set to false and the
Version is the string of the supplied CASVersion. In both cases the Key is
the licence, and this request is the one and only request handed to the API
call, whatever the transport does with it. -/
theorem updateLicence_request (licenceKey : String)
    (params : Option apiclient.UpdateLicenceRequestParams) :
    ((params = none ∨ ∃ p, params = some p ∧ p.CASVersion = "") →
      updateLicenceRequest licenceKey params =
        ({ Key := licenceKey, Version := "" }, { IgnoreVersion := some true })) ∧
    (∀ p, params = some p → p.CASVersion ≠ "" →
      updateLicenceRequest licenceKey params =
        ({ Key := licenceKey, Version := p.CASVersion }, { IgnoreVersion := some false })) ∧
    ((updateLicenceRequest licenceKey params).2.IgnoreVersion = some true ↔
      (params = none ∨ ∃ p, params = some p ∧ p.CASVersion = "")) ∧
    (updateLicenceRequest licenceKey params).1.Key = licenceKey ∧
    (∀ (Ctx σ ε Model Resp : Type) (o : OpenAPI Ctx σ ε Model Resp) (ctx : Ctx) (s : σ),
      (o.recorded.UpdateLicence ctx licenceKey params (s, [])).2.2 =
        [updateLicenceRequest licenceKey params]) := by
  have hnil : (params = none ∨ ∃ p, params = some p ∧ p.CASVersion = "") →
      updateLicenceRequest licenceKey params =
        ({ Key := licenceKey, Version := "" }, { IgnoreVersion := some true }) := by
    rintro (h | ⟨p, h, hp⟩)
    · subst h; rfl
    · subst h; simp [updateLicenceRequest, hp, optional.NewBool]
  have hset : ∀ p, params = some p → p.CASVersion ≠ "" →
      updateLicenceRequest licenceKey params =
        ({ Key := licenceKey, Version := p.CASVersion }, { IgnoreVersion := some false }) := by
    intro p h hp
    subst h
    simp [updateLicenceRequest, hp, optional.NewBool, version.Version.String]
  refine ⟨hnil, hset, ?_, ?_, ?_⟩
  · constructor
    · intro h
      cases hparams : params with
      | none => exact Or.inl rfl
      | some p =>
        right
        refine ⟨p, rfl, ?_⟩
        by_contra hp
        rw [hset p hparams hp] at h
        simp at h
    · intro h
      rw [hnil h]
  · cases params with
    | none => rfl
    | some p =>
      by_cases hp : p.CASVersion = ""
      · rw [hnil (Or.inr ⟨p, rfl, hp⟩)]
      · rw [hset p rfl hp]
  · intro Ctx σ ε Model Resp o ctx s
    simp only [OpenAPI.UpdateLicence, OpenAPI.recorded]
    split
    all_goals
      rename_i heq
      simp only [Prod.mk.injEq, List.nil_append] at heq
      rw [← heq.2]

/-- Witness of C15: nil parameters, an empty CAS version and the CAS version
"v7", with the requests that reach the API call. -/
theorem updateLicence_request_witness :
    updateLicenceRequest "licence-key" none =
      ({ Key := "licence-key", Version := "" }, { IgnoreVersion := some true }) ∧
    updateLicenceRequest "licence-key" (some { CASVersion := "" }) =
      ({ Key := "licence-key", Version := "" }, { IgnoreVersion := some true }) ∧
    updateLicenceRequest "licence-key" (some { CASVersion := "v7" }) =
      ({ Key := "licence-key", Version := "v7" }, { IgnoreVersion := some false }) ∧
    (okAPI.recorded.UpdateLicence () "licence-key" (some { CASVersion := "v7" }) ((), [])).2.2 =
      [({ Key := "licence-key", Version := "v7" }, { IgnoreVersion := some false })] :=
  ⟨(updateLicence_request "licence-key" none).1 (Or.inl rfl),
   (updateLicence_request "licence-key" (some { CASVersion := "" })).1
     (Or.inr ⟨{ CASVersion := "" }, rfl, rfl⟩),
   (updateLicence_request "licence-key" (some { CASVersion := "v7" })).2.1
     { CASVersion := "v7" } rfl (by decide),
   ((updateLicence_request "licence-key" (some { CASVersion := "v7" })).2.2.2.2
     Unit Unit String Unit Unit okAPI () ()).trans (by decide)⟩

end openapi

/-! ## Run wrappers -/

namespace runwrappers

/-- C20: the function wrapped by EnsureTargetOrSelectors returns
ErrTargetOrSelector, leaving the state untouched and whatever the inner
function is, exactly when both the selector list and the argument list are
non-empty; in every other case it is the inner function applied once to the
same context, command, arguments and state. -/
theorem EnsureTargetOrSelectors_spec {Ctx Cmd σ : Type} (selectors : List String)
    (next : RunEWithContext Ctx Cmd σ) (ctx : Ctx) (cmd : Cmd) (args : List String) (s : σ) :
    ((selectors ≠ [] ∧ args ≠ []) →
      EnsureTargetOrSelectors selectors next ctx cmd args s =
        (Outcome.returned (some ErrTargetOrSelector), s)) ∧
    (¬ (selectors ≠ [] ∧ args ≠ []) →
      EnsureTargetOrSelectors selectors next ctx cmd args s = next ctx cmd args s) := by
  have hiff : (selectors.length > 0 ∧ args.length > 0) ↔ (selectors ≠ [] ∧ args ≠ []) := by
    simp [List.length_pos]
  constructor
  · intro h
    simp only [EnsureTargetOrSelectors, if_pos (hiff.2 h)]
  · intro h
    simp only [EnsureTargetOrSelectors, if_neg (fun h' => h (hiff.1 h'))]

/-- Witness of C20 with an inner function that counts its invocations: with a
selector and a target the error is returned and the count stays at zero; with
a selector only, with a target only and with neither, the inner function runs
once on the same arguments and its result is returned. -/
theorem EnsureTargetOrSelectors_spec_witness :
    EnsureTargetOrSelectors ["env=prod"] (countingRun none) "ctx" "cmd" ["node-1"] (0, []) =
      (Outcome.returned (some ErrTargetOrSelector), (0, [])) ∧
    EnsureTargetOrSelectors ["env=prod"] (countingRun none) "ctx" "cmd" [] (0, []) =
      (Outcome.returned none, (1, [])) ∧
    EnsureTargetOrSelectors [] (countingRun (some (GoError.errorString "inner")))
        "ctx" "cmd" ["node-1"] (0, []) =
      (Outcome.returned (some (GoError.errorString "inner")), (1, ["node-1"])) ∧
    EnsureTargetOrSelectors [] (countingRun none) "ctx" "cmd" [] (0, []) =
      (Outcome.returned none, (1, [])) :=
  ⟨(EnsureTargetOrSelectors_spec ["env=prod"] (countingRun none) "ctx" "cmd" ["node-1"]
      (0, [])).1 (by simp),
   (EnsureTargetOrSelectors_spec ["env=prod"] (countingRun none) "ctx" "cmd" []
      (0, [])).2 (by simp),
   (EnsureTargetOrSelectors_spec [] (countingRun (some (GoError.errorString "inner")))
      "ctx" "cmd" ["node-1"] (0, [])).2 (by simp),
   (EnsureTargetOrSelectors_spec [] (countingRun none) "ctx" "cmd" [] (0, [])).2 (by simp)⟩

end runwrappers

/-! ## The delete node command -/

namespace delete

section

variable {Ctx W σ ε : Type}

theorem node_request_failed (c : nodeCommand Ctx W σ ε) (ctx : Ctx) (nodeID : id.Node)
    (params : apiclient.DeleteNodeRequestParams) (s : σ) (log : List (Call Ctx W)) (err : ε)
    (h : (c.client.DeleteNode ctx nodeID (some params) s).1 = some err) :
    c.recorded.request ctx nodeID params (s, log) =
      (Outcome.returned (some err),
        ((c.client.DeleteNode ctx nodeID (some params) s).2,
          log ++ [Call.DeleteNode ctx nodeID (some params)])) := by
  simp [nodeCommand.request, nodeCommand.recorded, Client.recorded, h]

theorem node_request_ok (c : nodeCommand Ctx W σ ε) (ctx : Ctx) (nodeID : id.Node)
    (params : apiclient.DeleteNodeRequestParams) (s : σ) (log : List (Call Ctx W))
    (h : (c.client.DeleteNode ctx nodeID (some params) s).1 = none) :
    (c.recorded.request ctx nodeID params (s, log)).2.2 =
      log ++ [Call.DeleteNode ctx nodeID (some params),
        if c.useAsync then Call.DisplayAsyncRequest ctx c.writer
        else Call.DisplayDeleteNode ctx c.writer { ID := nodeID }] := by
  by_cases ha : c.useAsync = true <;>
    simp [nodeCommand.request, nodeCommand.recorded, Client.recorded, Displayer.recorded, h, ha]

end

end delete

namespace delete

section

variable {Ctx W σ ε : Type}

theorem node_resolve_ids (c : nodeCommand Ctx W σ ε) (ctx : Ctx) (a : String)
    (rest : List String) (params : apiclient.DeleteNodeRequestParams)
    (sl : σ × List (Call Ctx W)) :
    c.recorded.resolve ctx (a :: rest) true params sl = c.recorded.request ctx a params sl := by
  simp [nodeCommand.resolve]

theorem node_resolve_lookup_failed (c : nodeCommand Ctx W σ ε) (ctx : Ctx) (a : String)
    (rest : List String) (params : apiclient.DeleteNodeRequestParams) (s : σ)
    (log : List (Call Ctx W)) (r : Option node.Resource) (err : ε)
    (h : (c.client.GetNodeByName ctx a s).1 = (r, some err)) :
    c.recorded.resolve ctx (a :: rest) false params (s, log) =
      (Outcome.returned (some err),
        ((c.client.GetNodeByName ctx a s).2, log ++ [Call.GetNodeByName ctx a])) := by
  simp [nodeCommand.resolve, nodeCommand.recorded, Client.recorded, h]

theorem node_resolve_lookup_nil (c : nodeCommand Ctx W σ ε) (ctx : Ctx) (a : String)
    (rest : List String) (params : apiclient.DeleteNodeRequestParams) (s : σ)
    (log : List (Call Ctx W)) (h : (c.client.GetNodeByName ctx a s).1 = (none, none)) :
    c.recorded.resolve ctx (a :: rest) false params (s, log) =
      (Outcome.panicked,
        ((c.client.GetNodeByName ctx a s).2, log ++ [Call.GetNodeByName ctx a])) := by
  simp [nodeCommand.resolve, nodeCommand.recorded, Client.recorded, h]

theorem node_resolve_lookup_ok (c : nodeCommand Ctx W σ ε) (ctx : Ctx) (a : String)
    (rest : List String) (params : apiclient.DeleteNodeRequestParams) (s : σ)
    (log : List (Call Ctx W)) (n : node.Resource)
    (h : (c.client.GetNodeByName ctx a s).1 = (some n, none)) :
    c.recorded.resolve ctx (a :: rest) false params (s, log) =
      c.recorded.request ctx n.ID params
        ((c.client.GetNodeByName ctx a s).2, log ++ [Call.GetNodeByName ctx a]) := by
  simp only [nodeCommand.resolve, nodeCommand.recorded, Client.recorded, h]
  rfl

theorem node_run_failed_useIDs (c : nodeCommand Ctx W σ ε) (ctx : Ctx) (args : List String)
    (sl : σ × List (Call Ctx W)) (b : Bool) (err : ε) (h : c.config.UseIDs = (b, some err)) :
    c.recorded.runWithCtx ctx args sl = (Outcome.returned (some err), sl) := by
  simp [nodeCommand.runWithCtx, nodeCommand.recorded, h]

theorem node_run_failed_timeout (c : nodeCommand Ctx W σ ε) (ctx : Ctx) (args : List String)
    (sl : σ × List (Call Ctx W)) (useIDs : Bool) (t : time.Duration) (err : ε)
    (hU : c.config.UseIDs = (useIDs, none)) (ha : c.useAsync = true)
    (hT : c.config.CommandTimeout = (t, some err)) :
    c.recorded.runWithCtx ctx args sl = (Outcome.returned (some err), sl) := by
  simp [nodeCommand.runWithCtx, nodeCommand.recorded, hU, ha, hT]

theorem node_run_resolve (c : nodeCommand Ctx W σ ε) (ctx : Ctx) (args : List String)
    (sl : σ × List (Call Ctx W)) (useIDs : Bool) (t : time.Duration)
    (hU : c.config.UseIDs = (useIDs, none))
    (hT : c.useAsync = true → c.config.CommandTimeout = (t, none)) :
    c.recorded.runWithCtx ctx args sl =
      c.recorded.resolve ctx args useIDs
        { CASVersion := if c.useCAS then c.casVersion else "",
          AsyncMax := if c.useAsync then t else 0 } sl := by
  by_cases ha : c.useAsync = true
  · have hT' := hT ha
    by_cases hc : c.useCAS = true <;>
      simp [nodeCommand.runWithCtx, nodeCommand.recorded, hU, ha, hT', hc, version.FromString]
  · by_cases hc : c.useCAS = true <;>
      simp [nodeCommand.runWithCtx, nodeCommand.recorded, hU, ha, hc, version.FromString]

/-- The shapes of the log of the resolution and request steps of the delete
node command: no call, a lookup alone, or an optional lookup followed by the
delete request and, if the request succeeded, one display call. -/
theorem node_resolve_log (c : nodeCommand Ctx W σ ε) (ctx : Ctx) (args : List String)
    (useIDs : Bool) (params : apiclient.DeleteNodeRequestParams) (s : σ) :
    (c.recorded.resolve ctx args useIDs params (s, [])).2.2 = [] ∨
    (∃ a, (c.recorded.resolve ctx args useIDs params (s, [])).2.2 = [Call.GetNodeByName ctx a]) ∨
    (∃ (pre : List (Call Ctx W)) (nodeID : id.Node) (s1 : σ),
      (pre = [] ∨ ∃ a, pre = [Call.GetNodeByName ctx a]) ∧
      (((c.client.DeleteNode ctx nodeID (some params) s1).1 ≠ none ∧
          (c.recorded.resolve ctx args useIDs params (s, [])).2.2 =
            pre ++ [Call.DeleteNode ctx nodeID (some params)]) ∨
        ((c.client.DeleteNode ctx nodeID (some params) s1).1 = none ∧
          (c.recorded.resolve ctx args useIDs params (s, [])).2.2 =
            pre ++ [Call.DeleteNode ctx nodeID (some params),
              if c.useAsync then Call.DisplayAsyncRequest ctx c.writer
              else Call.DisplayDeleteNode ctx c.writer { ID := nodeID }]))) := by
  have hreq : ∀ (nodeID : id.Node) (s1 : σ) (pre : List (Call Ctx W)),
      ((c.client.DeleteNode ctx nodeID (some params) s1).1 ≠ none ∧
          (c.recorded.request ctx nodeID params (s1, pre)).2.2 =
            pre ++ [Call.DeleteNode ctx nodeID (some params)]) ∨
        ((c.client.DeleteNode ctx nodeID (some params) s1).1 = none ∧
          (c.recorded.request ctx nodeID params (s1, pre)).2.2 =
            pre ++ [Call.DeleteNode ctx nodeID (some params),
              if c.useAsync then Call.DisplayAsyncRequest ctx c.writer
              else Call.DisplayDeleteNode ctx c.writer { ID := nodeID }]) := by
    intro nodeID s1 pre
    cases hres : (c.client.DeleteNode ctx nodeID (some params) s1).1 with
    | some err =>
      left
      exact ⟨by simp, by rw [node_request_failed c ctx nodeID params s1 pre err hres]⟩
    | none =>
      right
      exact ⟨rfl, node_request_ok c ctx nodeID params s1 pre hres⟩
  cases args with
  | nil => left; simp [nodeCommand.resolve]
  | cons a rest =>
    cases useIDs with
    | true =>
      right; right
      refine ⟨[], a, s, Or.inl rfl, ?_⟩
      rw [node_resolve_ids]
      exact hreq a s []
    | false =>
      rcases hlook : (c.client.GetNodeByName ctx a s).1 with ⟨r, e⟩
      cases e with
      | some err =>
        right; left
        exact ⟨a, by rw [node_resolve_lookup_failed c ctx a rest params s [] r err hlook]; rfl⟩
      | none =>
        cases r with
        | none =>
          right; left
          exact ⟨a, by rw [node_resolve_lookup_nil c ctx a rest params s [] hlook]; rfl⟩
        | some n =>
          right; right
          refine ⟨[Call.GetNodeByName ctx a], n.ID, (c.client.GetNodeByName ctx a s).2,
            Or.inr ⟨a, rfl⟩, ?_⟩
          rw [node_resolve_lookup_ok c ctx a rest params s [] n hlook]
          exact hreq n.ID _ _

end

end delete

/-! ## CAS version of the mutating requests -/

namespace delete

section

variable {Ctx W σ ε : Type}

theorem node_cas (c : nodeCommand Ctx W σ ε) (ctx : Ctx) (args : List String) (s : σ) :
    ∀ call ∈ (c.recorded.runWithCtx ctx args (s, [])).2.2, call.isMutating = true →
      call.casVersion = some (if c.useCAS then c.casVersion else "") := by
  intro call hcall hmut
  simp only [nodeCommand.runWithCtx, nodeCommand.resolve, nodeCommand.request,
    nodeCommand.recorded, Client.recorded, Displayer.recorded] at hcall
  repeat' split at hcall
  all_goals (try simp only [Prod.mk.injEq] at *)
  all_goals (try casesm* _ ∧ _)
  all_goals (try subst_vars)
  all_goals (try simp only [List.mem_append, List.mem_cons, List.mem_singleton,
    List.not_mem_nil, List.nil_append, or_false, false_or] at hcall)
  all_goals (try casesm* _ ∨ _)
  all_goals (try subst_vars)
  all_goals (first
    | (simp_all [Call.isMutating, Call.casVersion, version.FromString]; done)
    | (by_cases hc : c.useCAS = true <;>
        simp_all [Call.isMutating, Call.casVersion, version.FromString]))

theorem volume_cas (c : volumeCommand Ctx W σ ε)
    (NewVolumeDeletion : id.Volume → id.Namespace → output.VolumeDeletion) (ctx : Ctx)
    (args : List String) (s : σ) :
    ∀ call ∈ (c.recorded.runWithCtx NewVolumeDeletion ctx args (s, [])).2.2,
      call.isMutating = true →
      call.casVersion = some (if c.useCAS then c.casVersion else "") := by
  intro call hcall hmut
  simp only [volumeCommand.runWithCtx, volumeCommand.resolve, volumeCommand.request,
    volumeCommand.recorded, Client.recorded, Displayer.recorded] at hcall
  repeat' split at hcall
  all_goals (try simp only [Prod.mk.injEq] at *)
  all_goals (try casesm* _ ∧ _)
  all_goals (try subst_vars)
  all_goals (try simp only [List.mem_append, List.mem_cons, List.mem_singleton,
    List.not_mem_nil, List.nil_append, or_false, false_or] at hcall)
  all_goals (try casesm* _ ∨ _)
  all_goals (try subst_vars)
  all_goals (first
    | (simp_all [Call.isMutating, Call.casVersion, version.FromString]; done)
    | (by_cases hc : c.useCAS = true <;>
        simp_all [Call.isMutating, Call.casVersion, version.FromString]))

end

end delete

namespace detach

theorem detach_cas {Ctx W σ ε : Type} (c : detachCommand Ctx W σ ε) (ctx : Ctx)
    (args : List String) (s : σ) :
    ∀ call ∈ (c.recorded.runWithCtx ctx args (s, [])).2.2, call.isMutating = true →
      call.casVersion = some (if c.useCAS then c.casVersion else "") := by
  intro call hcall hmut
  simp only [detachCommand.runWithCtx, detachCommand.compose, detachCommand.request,
    detachCommand.recorded, Client.recorded, Displayer.recorded] at hcall
  repeat' split at hcall
  all_goals (try simp only [Prod.mk.injEq] at *)
  all_goals (try casesm* _ ∧ _)
  all_goals (try subst_vars)
  all_goals (try simp only [List.mem_append, List.mem_cons, List.mem_singleton,
    List.not_mem_nil, List.nil_append, or_false, false_or] at hcall)
  all_goals (try casesm* _ ∨ _)
  all_goals (try subst_vars)
  all_goals (first
    | (simp_all [Call.isMutating, Call.casVersion, version.FromString]; done)
    | (by_cases hc : c.useCAS = true <;>
        simp_all [Call.isMutating, Call.casVersion, version.FromString]))

end detach

namespace update

section

variable {Ctx W σ ε υ : Type}

theorem description_cas (c : volumeDescriptionCommand Ctx W σ ε υ)
    (NewVolumeUpdate : Option volume.Resource → υ) (ctx : Ctx) (s : σ) :
    ∀ call ∈ (c.recorded.runWithCtx NewVolumeUpdate ctx (s, [])).2.2, call.isMutating = true →
      call.casVersion = some (if c.useCAS then c.casVersion else "") := by
  intro call hcall hmut
  simp only [volumeDescriptionCommand.runWithCtx, volumeDescriptionCommand.compose,
    volumeDescriptionCommand.request, resolveIDs, volumeDescriptionCommand.recorded,
    Client.recorded, Displayer.recorded] at hcall
  repeat' split at hcall
  all_goals (try simp only [Prod.mk.injEq] at *)
  all_goals (try casesm* _ ∧ _)
  all_goals (try subst_vars)
  all_goals (try simp only [List.mem_append, List.mem_cons, List.mem_singleton,
    List.not_mem_nil, List.nil_append, or_false, false_or] at hcall)
  all_goals (try casesm* _ ∨ _)
  all_goals (try subst_vars)
  all_goals (first
    | (simp_all [Call.isMutating, Call.casVersion, version.FromString]; done)
    | (by_cases hc : c.useCAS = true <;>
        simp_all [Call.isMutating, Call.casVersion, version.FromString]))

theorem size_cas (c : volumeSizeCommand Ctx W σ ε υ)
    (NewVolumeUpdate : Option volume.Resource → υ) (ctx : Ctx) (s : σ) :
    ∀ call ∈ (c.recorded.runWithCtx NewVolumeUpdate ctx (s, [])).2.2, call.isMutating = true →
      call.casVersion = some (if c.useCAS then c.casVersion else "") := by
  intro call hcall hmut
  simp only [volumeSizeCommand.runWithCtx, volumeSizeCommand.request, resolveIDs,
    volumeSizeCommand.recorded, Client.recorded, Displayer.recorded] at hcall
  repeat' split at hcall
  all_goals (try simp only [Prod.mk.injEq] at *)
  all_goals (try casesm* _ ∧ _)
  all_goals (try subst_vars)
  all_goals (try simp only [List.mem_append, List.mem_cons, List.mem_singleton,
    List.not_mem_nil, List.nil_append, or_false, false_or] at hcall)
  all_goals (try casesm* _ ∨ _)
  all_goals (try subst_vars)
  all_goals (first
    | (simp_all [Call.isMutating, Call.casVersion, version.FromString]; done)
    | (by_cases hc : c.useCAS = true <;>
        simp_all [Call.isMutating, Call.casVersion, version.FromString]))

end

end update

/-! ## Asynchronous mode and target resolution of the delete node command -/

namespace delete

section

variable {Ctx W σ ε : Type}

theorem node_request_shape (c : nodeCommand Ctx W σ ε) (ctx : Ctx) (nodeID : id.Node)
    (params : apiclient.DeleteNodeRequestParams) (s : σ) (log : List (Call Ctx W)) :
    ∃ rest, (c.recorded.request ctx nodeID params (s, log)).2.2 =
        log ++ Call.DeleteNode ctx nodeID (some params) :: rest ∧
      ∀ call ∈ rest, call.isDisplay = true := by
  cases hres : (c.client.DeleteNode ctx nodeID (some params) s).1 with
  | some err =>
    exact ⟨[], by rw [node_request_failed c ctx nodeID params s log err hres], by simp⟩
  | none =>
    refine ⟨[if c.useAsync then Call.DisplayAsyncRequest ctx c.writer
      else Call.DisplayDeleteNode ctx c.writer { ID := nodeID }], ?_, ?_⟩
    · rw [node_request_ok c ctx nodeID params s log hres]
    · intro call hcall
      rw [List.mem_singleton] at hcall
      subst hcall
      by_cases ha : c.useAsync = true <;> simp [ha, Call.isDisplay]

/-- What the recorded log of the delete node command can hold, whatever the
client does: with asynchronous mode and the timeout `t` every DeleteNode call
carries AsyncMax equal to `t` and every display call is AsyncRequest; without
asynchronous mode every DeleteNode call carries AsyncMax zero and every
display call is DeleteNode with the confirmation of a node ID that was sent to
the client. -/
theorem node_async_calls (c : nodeCommand Ctx W σ ε) (ctx : Ctx) (args : List String) (s : σ) :
    (∀ t : time.Duration, c.useAsync = true → c.config.CommandTimeout = (t, none) →
      (∀ nodeID p, Call.DeleteNode ctx nodeID p ∈ (c.recorded.runWithCtx ctx args (s, [])).2.2 →
        ∃ q, p = some q ∧ q.AsyncMax = t) ∧
      (∀ call ∈ (c.recorded.runWithCtx ctx args (s, [])).2.2, call.isDisplay = true →
        call = Call.DisplayAsyncRequest ctx c.writer) ∧
      ((∀ nodeID p s1, (c.client.DeleteNode ctx nodeID p s1).1 = none) →
        ∀ nodeID p, Call.DeleteNode ctx nodeID p ∈ (c.recorded.runWithCtx ctx args (s, [])).2.2 →
          ((c.recorded.runWithCtx ctx args (s, [])).2.2).filter Call.isDisplay =
            [Call.DisplayAsyncRequest ctx c.writer])) ∧
    (c.useAsync = false →
      (∀ nodeID p, Call.DeleteNode ctx nodeID p ∈ (c.recorded.runWithCtx ctx args (s, [])).2.2 →
        ∃ q, p = some q ∧ q.AsyncMax = 0) ∧
      (∀ call ∈ (c.recorded.runWithCtx ctx args (s, [])).2.2, call.isDisplay = true →
        ∃ nodeID p, call = Call.DisplayDeleteNode ctx c.writer { ID := nodeID } ∧
          Call.DeleteNode ctx nodeID p ∈ (c.recorded.runWithCtx ctx args (s, [])).2.2) ∧
      ((∀ nodeID p s1, (c.client.DeleteNode ctx nodeID p s1).1 = none) →
        ∀ nodeID p, Call.DeleteNode ctx nodeID p ∈ (c.recorded.runWithCtx ctx args (s, [])).2.2 →
          ((c.recorded.runWithCtx ctx args (s, [])).2.2).filter Call.isDisplay =
            [Call.DisplayDeleteNode ctx c.writer { ID := nodeID }])) := by
  rcases hU : c.config.UseIDs with ⟨useIDs, _ | err⟩
  swap
  · have hrun := node_run_failed_useIDs c ctx args (s, []) useIDs err hU
    rw [hrun]
    simp
  constructor
  · intro t ha ht
    rw [node_run_resolve c ctx args (s, []) useIDs t hU (fun _ => ht)]
    rcases node_resolve_log c ctx args useIDs
        { CASVersion := if c.useCAS then c.casVersion else "",
          AsyncMax := if c.useAsync then t else 0 } s with
      h | ⟨a, h⟩ | ⟨pre, nodeID, s1, hpre, ⟨hne, h⟩ | ⟨hnone, h⟩⟩
    · rw [h]; simp
    · rw [h]; simp [Call.isDisplay]
    · rw [h]
      rcases hpre with rfl | ⟨a, rfl⟩
      · refine ⟨?_, ?_, ?_⟩
        · intro id' p hmem; simp at hmem; simp [hmem.2, ha]
        · intro call hcall; simp at hcall; subst hcall; simp [Call.isDisplay]
        · intro hok; exact absurd (hok _ _ _) hne
      · refine ⟨?_, ?_, ?_⟩
        · intro id' p hmem; simp at hmem; simp [hmem.2, ha]
        · intro call hcall; simp at hcall
          rcases hcall with rfl | rfl <;> simp [Call.isDisplay]
        · intro hok; exact absurd (hok _ _ _) hne
    · rw [h]
      rcases hpre with rfl | ⟨a, rfl⟩
      · refine ⟨?_, ?_, ?_⟩
        · intro id' p hmem; simp [ha] at hmem; simp [hmem.2, ha]
        · intro call hcall; simp [ha] at hcall
          rcases hcall with rfl | rfl <;> simp [Call.isDisplay]
        · intro _ id' p _; simp [ha, List.filter, Call.isDisplay]
      · refine ⟨?_, ?_, ?_⟩
        · intro id' p hmem; simp [ha] at hmem; simp [hmem.2, ha]
        · intro call hcall; simp [ha] at hcall
          rcases hcall with rfl | rfl | rfl <;> simp [Call.isDisplay]
        · intro _ id' p _; simp [ha, List.filter, Call.isDisplay]
  · intro ha
    rw [node_run_resolve c ctx args (s, []) useIDs 0 hU (fun h => by rw [ha] at h; cases h)]
    rcases node_resolve_log c ctx args useIDs
        { CASVersion := if c.useCAS then c.casVersion else "",
          AsyncMax := if c.useAsync then 0 else 0 } s with
      h | ⟨a, h⟩ | ⟨pre, nodeID, s1, hpre, ⟨hne, h⟩ | ⟨hnone, h⟩⟩
    · rw [h]; simp
    · rw [h]; simp [Call.isDisplay]
    · rw [h]
      rcases hpre with rfl | ⟨a, rfl⟩
      · refine ⟨?_, ?_, ?_⟩
        · intro id' p hmem; simp at hmem; simp [hmem.2]
        · intro call hcall; simp at hcall; subst hcall; simp [Call.isDisplay]
        · intro hok; exact absurd (hok _ _ _) hne
      · refine ⟨?_, ?_, ?_⟩
        · intro id' p hmem; simp at hmem; simp [hmem.2]
        · intro call hcall; simp at hcall
          rcases hcall with rfl | rfl <;> simp [Call.isDisplay]
        · intro hok; exact absurd (hok _ _ _) hne
    · rw [h]
      rcases hpre with rfl | ⟨a, rfl⟩
      · refine ⟨?_, ?_, ?_⟩
        · intro id' p hmem; simp [ha] at hmem; simp [hmem.2]
        · intro call hcall; simp [ha] at hcall
          rcases hcall with rfl | rfl <;> simp [Call.isDisplay]
        · intro _ id' p hmem; simp [ha] at hmem; simp [ha, List.filter, Call.isDisplay, hmem.1]
      · refine ⟨?_, ?_, ?_⟩
        · intro id' p hmem; simp [ha] at hmem; simp [hmem.2]
        · intro call hcall; simp [ha] at hcall
          rcases hcall with rfl | rfl | rfl <;> simp [Call.isDisplay]
        · intro _ id' p hmem; simp [ha] at hmem; simp [ha, List.filter, Call.isDisplay, hmem.1]

/-- C17: in the delete node command with the client and the displayer
recording their calls, once the node ID is resolved (it is the first argument
when UseIDs is true, the ID of the node that the lookup of the first argument
returned when UseIDs is false). When asynchronous mode is selected and the
command timeout resolves to `t`, the DeleteNode call is made with parameters
whose AsyncMax is `t`; if that call succeeds the log ends with the one
display call AsyncRequest and the deletion confirmation is not displayed, and
if it fails its error is returned and nothing is displayed. When asynchronous
mode is not selected, the DeleteNode call is made with AsyncMax zero; if it
succeeds the one display call is DeleteNode with the confirmation whose ID is
the node ID that was sent to the client, and if it fails nothing is
displayed. Whatever the client does, no other DeleteNode parameters and no
other display call can occur in the log. -/
theorem delete_node_async (c : nodeCommand Ctx W σ ε) (ctx : Ctx) (args : List String) (s : σ) :
    (∀ t : time.Duration, c.useAsync = true → c.config.CommandTimeout = (t, none) →
      (∀ nodeID p, Call.DeleteNode ctx nodeID p ∈ (c.recorded.runWithCtx ctx args (s, [])).2.2 →
        ∃ q, p = some q ∧ q.AsyncMax = t) ∧
      (∀ call ∈ (c.recorded.runWithCtx ctx args (s, [])).2.2, call.isDisplay = true →
        call = Call.DisplayAsyncRequest ctx c.writer) ∧
      (∀ a rest, c.config.UseIDs = (true, none) → args = a :: rest →
        ((c.client.DeleteNode ctx a
            (some { CASVersion := if c.useCAS then c.casVersion else "", AsyncMax := t })
            s).1 = none →
          (c.recorded.runWithCtx ctx args (s, [])).2.2 =
            [Call.DeleteNode ctx a
                (some { CASVersion := if c.useCAS then c.casVersion else "", AsyncMax := t }),
              Call.DisplayAsyncRequest ctx c.writer]) ∧
        (∀ err, (c.client.DeleteNode ctx a
            (some { CASVersion := if c.useCAS then c.casVersion else "", AsyncMax := t })
            s).1 = some err →
          (c.recorded.runWithCtx ctx args (s, [])).1 = Outcome.returned (some err) ∧
          (c.recorded.runWithCtx ctx args (s, [])).2.2 =
            [Call.DeleteNode ctx a
              (some { CASVersion := if c.useCAS then c.casVersion else "", AsyncMax := t })])) ∧
      (∀ a rest n, c.config.UseIDs = (false, none) → args = a :: rest →
        (c.client.GetNodeByName ctx a s).1 = (some n, none) →
        ((c.client.DeleteNode ctx n.ID
            (some { CASVersion := if c.useCAS then c.casVersion else "", AsyncMax := t })
            (c.client.GetNodeByName ctx a s).2).1 = none →
          (c.recorded.runWithCtx ctx args (s, [])).2.2 =
            [Call.GetNodeByName ctx a,
              Call.DeleteNode ctx n.ID
                (some { CASVersion := if c.useCAS then c.casVersion else "", AsyncMax := t }),
              Call.DisplayAsyncRequest ctx c.writer]) ∧
        (∀ err, (c.client.DeleteNode ctx n.ID
            (some { CASVersion := if c.useCAS then c.casVersion else "", AsyncMax := t })
            (c.client.GetNodeByName ctx a s).2).1 = some err →
          (c.recorded.runWithCtx ctx args (s, [])).1 = Outcome.returned (some err) ∧
          (c.recorded.runWithCtx ctx args (s, [])).2.2 =
            [Call.GetNodeByName ctx a,
              Call.DeleteNode ctx n.ID
                (some { CASVersion := if c.useCAS then c.casVersion else "",
                        AsyncMax := t })]))) ∧
    (c.useAsync = false →
      (∀ nodeID p, Call.DeleteNode ctx nodeID p ∈ (c.recorded.runWithCtx ctx args (s, [])).2.2 →
        ∃ q, p = some q ∧ q.AsyncMax = 0) ∧
      (∀ call ∈ (c.recorded.runWithCtx ctx args (s, [])).2.2, call.isDisplay = true →
        ∃ nodeID p, call = Call.DisplayDeleteNode ctx c.writer { ID := nodeID } ∧
          Call.DeleteNode ctx nodeID p ∈ (c.recorded.runWithCtx ctx args (s, [])).2.2) ∧
      (∀ a rest, c.config.UseIDs = (true, none) → args = a :: rest →
        ((c.client.DeleteNode ctx a
            (some { CASVersion := if c.useCAS then c.casVersion else "", AsyncMax := 0 })
            s).1 = none →
          (c.recorded.runWithCtx ctx args (s, [])).2.2 =
            [Call.DeleteNode ctx a
                (some { CASVersion := if c.useCAS then c.casVersion else "", AsyncMax := 0 }),
              Call.DisplayDeleteNode ctx c.writer { ID := a }]) ∧
        (∀ err, (c.client.DeleteNode ctx a
            (some { CASVersion := if c.useCAS then c.casVersion else "", AsyncMax := 0 })
            s).1 = some err →
          (c.recorded.runWithCtx ctx args (s, [])).1 = Outcome.returned (some err) ∧
          (c.recorded.runWithCtx ctx args (s, [])).2.2 =
            [Call.DeleteNode ctx a
              (some { CASVersion := if c.useCAS then c.casVersion else "", AsyncMax := 0 })])) ∧
      (∀ a rest n, c.config.UseIDs = (false, none) → args = a :: rest →
        (c.client.GetNodeByName ctx a s).1 = (some n, none) →
        ((c.client.DeleteNode ctx n.ID
            (some { CASVersion := if c.useCAS then c.casVersion else "", AsyncMax := 0 })
            (c.client.GetNodeByName ctx a s).2).1 = none →
          (c.recorded.runWithCtx ctx args (s, [])).2.2 =
            [Call.GetNodeByName ctx a,
              Call.DeleteNode ctx n.ID
                (some { CASVersion := if c.useCAS then c.casVersion else "", AsyncMax := 0 }),
              Call.DisplayDeleteNode ctx c.writer { ID := n.ID }]) ∧
        (∀ err, (c.client.DeleteNode ctx n.ID
            (some { CASVersion := if c.useCAS then c.casVersion else "", AsyncMax := 0 })
            (c.client.GetNodeByName ctx a s).2).1 = some err →
          (c.recorded.runWithCtx ctx args (s, [])).1 = Outcome.returned (some err) ∧
          (c.recorded.runWithCtx ctx args (s, [])).2.2 =
            [Call.GetNodeByName ctx a,
              Call.DeleteNode ctx n.ID
                (some { CASVersion := if c.useCAS then c.casVersion else "",
                        AsyncMax := 0 })]))) := by
  have hrun : ∀ (u : Bool) (t : time.Duration), c.config.UseIDs = (u, none) →
      (c.useAsync = true → c.config.CommandTimeout = (t, none)) →
      ∀ t', (if c.useAsync then t else 0) = t' →
      c.recorded.runWithCtx ctx args (s, []) =
        c.recorded.resolve ctx args u
          { CASVersion := if c.useCAS then c.casVersion else "", AsyncMax := t' } (s, []) := by
    intro u t hU hT t' ht'
    rw [node_run_resolve c ctx args (s, []) u t hU hT, ht']
  have hids : ∀ (t' : time.Duration) (a : String) (rest : List String)
      (last : Call Ctx W),
      (if c.useAsync then Call.DisplayAsyncRequest ctx c.writer
        else Call.DisplayDeleteNode ctx c.writer { ID := a }) = last →
      args = a :: rest →
      c.recorded.runWithCtx ctx args (s, []) =
        c.recorded.resolve ctx args true
          { CASVersion := if c.useCAS then c.casVersion else "", AsyncMax := t' } (s, []) →
      ((c.client.DeleteNode ctx a
          (some { CASVersion := if c.useCAS then c.casVersion else "", AsyncMax := t' })
          s).1 = none →
        (c.recorded.runWithCtx ctx args (s, [])).2.2 =
          [Call.DeleteNode ctx a
              (some { CASVersion := if c.useCAS then c.casVersion else "", AsyncMax := t' }),
            last]) ∧
      (∀ err, (c.client.DeleteNode ctx a
          (some { CASVersion := if c.useCAS then c.casVersion else "", AsyncMax := t' })
          s).1 = some err →
        (c.recorded.runWithCtx ctx args (s, [])).1 = Outcome.returned (some err) ∧
        (c.recorded.runWithCtx ctx args (s, [])).2.2 =
          [Call.DeleteNode ctx a
            (some { CASVersion := if c.useCAS then c.casVersion else "", AsyncMax := t' })]) := by
    intro t' a rest last hlast hargs hres
    subst hargs
    rw [hres, node_resolve_ids]
    constructor
    · intro hnone
      rw [node_request_ok c ctx a _ s [] hnone, hlast]
      rfl
    · intro err herr
      rw [node_request_failed c ctx a _ s [] err herr]
      exact ⟨rfl, rfl⟩
  have hnames : ∀ (t' : time.Duration) (a : String) (rest : List String) (n : node.Resource)
      (last : Call Ctx W),
      (if c.useAsync then Call.DisplayAsyncRequest ctx c.writer
        else Call.DisplayDeleteNode ctx c.writer { ID := n.ID }) = last →
      args = a :: rest →
      (c.client.GetNodeByName ctx a s).1 = (some n, none) →
      c.recorded.runWithCtx ctx args (s, []) =
        c.recorded.resolve ctx args false
          { CASVersion := if c.useCAS then c.casVersion else "", AsyncMax := t' } (s, []) →
      ((c.client.DeleteNode ctx n.ID
          (some { CASVersion := if c.useCAS then c.casVersion else "", AsyncMax := t' })
          (c.client.GetNodeByName ctx a s).2).1 = none →
        (c.recorded.runWithCtx ctx args (s, [])).2.2 =
          [Call.GetNodeByName ctx a,
            Call.DeleteNode ctx n.ID
              (some { CASVersion := if c.useCAS then c.casVersion else "", AsyncMax := t' }),
            last]) ∧
      (∀ err, (c.client.DeleteNode ctx n.ID
          (some { CASVersion := if c.useCAS then c.casVersion else "", AsyncMax := t' })
          (c.client.GetNodeByName ctx a s).2).1 = some err →
        (c.recorded.runWithCtx ctx args (s, [])).1 = Outcome.returned (some err) ∧
        (c.recorded.runWithCtx ctx args (s, [])).2.2 =
          [Call.GetNodeByName ctx a,
            Call.DeleteNode ctx n.ID
              (some { CASVersion := if c.useCAS then c.casVersion else "",
                      AsyncMax := t' })]) := by
    intro t' a rest n last hlast hargs hlook hres
    subst hargs
    rw [hres, node_resolve_lookup_ok c ctx a rest _ s [] n hlook]
    constructor
    · intro hnone
      rw [node_request_ok c ctx n.ID _ _ _ hnone, hlast]
      rfl
    · intro err herr
      rw [node_request_failed c ctx n.ID _ _ _ err herr]
      exact ⟨rfl, rfl⟩
  constructor
  · intro t ha ht
    refine ⟨((node_async_calls c ctx args s).1 t ha ht).1,
      ((node_async_calls c ctx args s).1 t ha ht).2.1, ?_, ?_⟩
    · intro a rest hU hargs
      exact hids t a rest _ (by simp [ha]) hargs
        (hrun true t hU (fun _ => ht) t (by simp [ha]))
    · intro a rest n hU hargs hlook
      exact hnames t a rest n _ (by simp [ha]) hargs hlook
        (hrun false t hU (fun _ => ht) t (by simp [ha]))
  · intro ha
    refine ⟨((node_async_calls c ctx args s).2 ha).1,
      ((node_async_calls c ctx args s).2 ha).2.1, ?_, ?_⟩
    · intro a rest hU hargs
      exact hids 0 a rest _ (by simp [ha]) hargs
        (hrun true 0 hU (fun h => by rw [ha] at h; cases h) 0 (by simp))
    · intro a rest n hU hargs hlook
      exact hnames 0 a rest n _ (by simp [ha]) hargs hlook
        (hrun false 0 hU (fun h => by rw [ha] at h; cases h) 0 (by simp))

end

end delete

namespace delete

/-- Witness of C17 on a client that refuses the node "locked" only: in
asynchronous mode with a timeout of 15 seconds the run on "node-1" sends the
request with that timeout and displays the acknowledgment, the run on
"locked" returns the error of the request and displays nothing; in
synchronous mode, by name, the confirmation of the ID that was sent is
displayed. -/
theorem delete_node_async_witness :
    ((sampleLocked (true, none) (15000000000, none) false "" true).recorded.runWithCtx ()
        ["node-1"] ((), [])).2.2 =
      [Call.DeleteNode () "node-1" (some { CASVersion := "", AsyncMax := 15000000000 }),
        Call.DisplayAsyncRequest () ()] ∧
    (((sampleLocked (true, none) (15000000000, none) false "" true).recorded.runWithCtx ()
        ["locked"] ((), [])).1 = Outcome.returned (some "node is locked") ∧
      ((sampleLocked (true, none) (15000000000, none) false "" true).recorded.runWithCtx ()
        ["locked"] ((), [])).2.2 =
      [Call.DeleteNode () "locked" (some { CASVersion := "", AsyncMax := 15000000000 })]) ∧
    ((sampleLocked (false, none) (15000000000, none) false "" false).recorded.runWithCtx ()
        ["node-1"] ((), [])).2.2 =
      [Call.GetNodeByName () "node-1",
        Call.DeleteNode () "id-of-node-1" (some { CASVersion := "", AsyncMax := 0 }),
        Call.DisplayDeleteNode () () { ID := "id-of-node-1" }] :=
  ⟨(((delete_node_async (sampleLocked (true, none) (15000000000, none) false "" true) ()
      ["node-1"] ()).1 15000000000 rfl rfl).2.2.1 "node-1" [] rfl rfl).1 rfl,
   (((delete_node_async (sampleLocked (true, none) (15000000000, none) false "" true) ()
      ["locked"] ()).1 15000000000 rfl rfl).2.2.1 "locked" [] rfl rfl).2 "node is locked" rfl,
   (((delete_node_async (sampleLocked (false, none) (15000000000, none) false "" false) ()
      ["node-1"] ()).2 rfl).2.2.2 "node-1" [] (apiclient.mkNode "id-of-node-1" "node-1")
      rfl rfl rfl).1 rfl⟩

/-- C19, as stated, fails: with UseIDs resolving to false, asynchronous mode
selected and a command timeout that cannot be resolved, the command returns
the timeout error without any name lookup and without a delete request. -/
theorem delete_node_target_counterexample :
    (sampleNode (false, none) (0, some "invalid timeout") false "" true).config.UseIDs =
      (false, none) ∧
    (sampleNode (false, none) (0, some "invalid timeout") false "" true).recorded.runWithCtx ()
        ["node-1"] ((), []) =
      (Outcome.returned (some "invalid timeout"), ((), [])) := by
  exact ⟨rfl, by decide⟩

section

variable {Ctx W σ ε : Type}

/-- C19, amended: in the delete node command with the single argument `a`,
provided that in asynchronous mode the command timeout resolves without
error: when UseIDs resolves to true no lookup is made and the first and only
client call is DeleteNode with the node ID `a`; when UseIDs resolves to false
the first call is the one lookup GetNodeByName of `a` and, if it returns a
node, the next call is DeleteNode with the ID of that node; the calls after
the delete request are display calls. When UseIDs fails the error is returned
and no call is made; when the lookup fails its error is returned and the
lookup is the only call. -/
theorem delete_node_target (c : nodeCommand Ctx W σ ε) (ctx : Ctx) (a : String) (s : σ)
    (hT : c.useAsync = true → ∃ t, c.config.CommandTimeout = (t, none)) :
    (∀ b err, c.config.UseIDs = (b, some err) →
      c.recorded.runWithCtx ctx [a] (s, []) = (Outcome.returned (some err), (s, []))) ∧
    (c.config.UseIDs = (true, none) →
      ∃ params rest, (c.recorded.runWithCtx ctx [a] (s, [])).2.2 =
          Call.DeleteNode ctx a (some params) :: rest ∧
        ∀ call ∈ rest, call.isDisplay = true) ∧
    (c.config.UseIDs = (false, none) →
      (∀ r err, (c.client.GetNodeByName ctx a s).1 = (r, some err) →
        c.recorded.runWithCtx ctx [a] (s, []) =
          (Outcome.returned (some err),
            ((c.client.GetNodeByName ctx a s).2, [Call.GetNodeByName ctx a]))) ∧
      (∀ n : node.Resource, (c.client.GetNodeByName ctx a s).1 = (some n, none) →
        ∃ params rest, (c.recorded.runWithCtx ctx [a] (s, [])).2.2 =
            Call.GetNodeByName ctx a :: Call.DeleteNode ctx n.ID (some params) :: rest ∧
          ∀ call ∈ rest, call.isDisplay = true)) := by
  have ht : ∃ t, c.useAsync = true → c.config.CommandTimeout = (t, none) := by
    by_cases ha : c.useAsync = true
    · obtain ⟨t, h⟩ := hT ha
      exact ⟨t, fun _ => h⟩
    · exact ⟨0, fun h => absurd h ha⟩
  obtain ⟨t, ht⟩ := ht
  refine ⟨?_, ?_, ?_⟩
  · intro b err hU
    exact node_run_failed_useIDs c ctx [a] (s, []) b err hU
  · intro hU
    rw [node_run_resolve c ctx [a] (s, []) true t hU ht, node_resolve_ids]
    obtain ⟨rest, hlog, hdisp⟩ := node_request_shape c ctx a
      { CASVersion := if c.useCAS then c.casVersion else "",
        AsyncMax := if c.useAsync then t else 0 } s []
    exact ⟨_, rest, by rw [hlog]; rfl, hdisp⟩
  · intro hU
    constructor
    · intro r err hlook
      rw [node_run_resolve c ctx [a] (s, []) false t hU ht,
        node_resolve_lookup_failed c ctx a [] _ s [] r err hlook]
      rfl
    · intro n hlook
      rw [node_run_resolve c ctx [a] (s, []) false t hU ht,
        node_resolve_lookup_ok c ctx a [] _ s [] n hlook]
      obtain ⟨rest, hlog, hdisp⟩ := node_request_shape c ctx n.ID
        { CASVersion := if c.useCAS then c.casVersion else "",
          AsyncMax := if c.useAsync then t else 0 } (c.client.GetNodeByName ctx a s).2
        ([] ++ [Call.GetNodeByName ctx a])
      exact ⟨_, rest, by rw [hlog]; rfl, hdisp⟩

end

/-- Witness of the amended C19: the sample delete node command with UseIDs
true in asynchronous mode with a timeout of 15 seconds, and with UseIDs false
in synchronous mode. -/
theorem delete_node_target_witness :
    (∃ params rest,
      ((sampleNode (true, none) (15000000000, none) false "" true).recorded.runWithCtx ()
          ["node-1"] ((), [])).2.2 = Call.DeleteNode () "node-1" (some params) :: rest ∧
        ∀ call ∈ rest, call.isDisplay = true) ∧
    (∃ params rest,
      ((sampleNode (false, none) (0, none) false "" false).recorded.runWithCtx ()
          ["node-1"] ((), [])).2.2 =
        Call.GetNodeByName () "node-1" :: Call.DeleteNode () "id-of-node-1" (some params) ::
          rest ∧
        ∀ call ∈ rest, call.isDisplay = true) :=
  ⟨(delete_node_target (sampleNode (true, none) (15000000000, none) false "" true) () "node-1"
      () (fun _ => ⟨15000000000, rfl⟩)).2.1 rfl,
   ((delete_node_target (sampleNode (false, none) (0, none) false "" false) () "node-1" ()
      (fun h => by cases h)).2.2 rfl).2 (apiclient.mkNode "id-of-node-1" "node-1") rfl⟩

end delete

/-! ## The update volume size command and the asynchronous flag -/

namespace update

/-- C18 does not hold of the code: the update volume size command with
asynchronous mode selected, a command timeout of 15 seconds and a resize
request that succeeds displays the resize confirmation, not the
acknowledgment AsyncRequest, and sends parameters whose AsyncMax is zero. The
run is the same without asynchronous mode, and the same when the command
timeout cannot be resolved: the field `useAsync` and the timeout are never
read. -/
theorem resize_ignores_async :
    (sampleSize (true, none) (15000000000, none) false "" true).recorded.runWithCtx
        (fun _ => ()) () ((), []) =
      (Outcome.returned none,
        ((), [Call.ResizeVolume () "ns-1" "vol-1" 1024 (some { CASVersion := "", AsyncMax := 0 }),
          Call.DisplayResizeVolume () () ()])) ∧
    (sampleSize (true, none) (15000000000, none) false "" false).recorded.runWithCtx
        (fun _ => ()) () ((), []) =
      (sampleSize (true, none) (15000000000, none) false "" true).recorded.runWithCtx
        (fun _ => ()) () ((), []) ∧
    (sampleSize (true, none) (0, some "invalid timeout") false "" true).recorded.runWithCtx
        (fun _ => ()) () ((), []) =
      (sampleSize (true, none) (15000000000, none) false "" true).recorded.runWithCtx
        (fun _ => ()) () ((), []) ∧
    (sampleDescription (true, none) (15000000000, none) false "" true).recorded.runWithCtx
        (fun _ => ()) () ((), []) =
      (Outcome.returned none,
        ((), [Call.UpdateVolumeDescription () "ns-1" "vol-1" "new text"
            (some { CASVersion := "", AsyncMax := 15000000000 }),
          Call.DisplayAsyncRequest () ()])) := by
  refine ⟨by decide, by decide, by decide, by decide⟩

end update

/-! ## Run wrappers: namespace check, chaining and authentication -/

namespace runwrappers

/-- C21, as stated, fails: with the default namespace name "default", UseIDs
resolving to true and an empty namespace, the wrapped function does not
return ErrMustSpecifyNamespaceID; it runs the inner function once and returns
its result. -/
theorem EnsureNamespaceSetWhenUseIDs_counterexample :
    (sampleProvider (true, none) ("", none)).UseIDs = (true, none) ∧
    (sampleProvider (true, none) ("", none)).Namespace = ("", none) ∧
    EnsureNamespaceSetWhenUseIDs "default" (sampleProvider (true, none) ("", none))
        (countingRun none) "ctx" "cmd" ["vol-1"] (0, []) =
      (Outcome.returned none, (1, ["vol-1"])) ∧
    EnsureNamespaceSetWhenUseIDs "default" (sampleProvider (true, none) ("", none))
        (countingRun none) "ctx" "cmd" ["vol-1"] (0, []) ≠
      (Outcome.returned (some ErrMustSpecifyNamespaceID), (0, [])) := by
  refine ⟨rfl, rfl, by decide, by decide⟩

/-- C21, amended: the function wrapped by EnsureNamespaceSetWhenUseIDs
returns the error of the provider, leaving the state untouched and whatever
the inner function is, when UseIDs fails or, UseIDs having succeeded, when
Namespace fails; it returns ErrMustSpecifyNamespaceID in the same way when
UseIDs resolves to true and the namespace is the default namespace name; in
every other case, an empty namespace included when the default name is not
empty, it is the inner function applied once to the same context, command,
arguments and state. -/
theorem EnsureNamespaceSetWhenUseIDs_spec {Ctx Cmd σ : Type} (DefaultNamespaceName : String)
    (provider : config.Provider GoError) (next : RunEWithContext Ctx Cmd σ) (ctx : Ctx)
    (cmd : Cmd) (args : List String) (s : σ) :
    (∀ b err, provider.UseIDs = (b, some err) →
      EnsureNamespaceSetWhenUseIDs DefaultNamespaceName provider next ctx cmd args s =
        (Outcome.returned (some err), s)) ∧
    (∀ b ns err, provider.UseIDs = (b, none) → provider.Namespace = (ns, some err) →
      EnsureNamespaceSetWhenUseIDs DefaultNamespaceName provider next ctx cmd args s =
        (Outcome.returned (some err), s)) ∧
    (provider.UseIDs = (true, none) → provider.Namespace = (DefaultNamespaceName, none) →
      EnsureNamespaceSetWhenUseIDs DefaultNamespaceName provider next ctx cmd args s =
        (Outcome.returned (some ErrMustSpecifyNamespaceID), s)) ∧
    (∀ b ns, provider.UseIDs = (b, none) → provider.Namespace = (ns, none) →
      ¬ (b = true ∧ ns = DefaultNamespaceName) →
      EnsureNamespaceSetWhenUseIDs DefaultNamespaceName provider next ctx cmd args s =
        next ctx cmd args s) ∧
    (DefaultNamespaceName ≠ "" → provider.UseIDs = (true, none) →
      provider.Namespace = ("", none) →
      EnsureNamespaceSetWhenUseIDs DefaultNamespaceName provider next ctx cmd args s =
        next ctx cmd args s) := by
  have hpass : ∀ b ns, provider.UseIDs = (b, none) → provider.Namespace = (ns, none) →
      ¬ (b = true ∧ ns = DefaultNamespaceName) →
      EnsureNamespaceSetWhenUseIDs DefaultNamespaceName provider next ctx cmd args s =
        next ctx cmd args s := by
    intro b ns hU hN hnot
    simp only [EnsureNamespaceSetWhenUseIDs, hU, hN]
    rw [if_neg]
    simpa using hnot
  refine ⟨?_, ?_, ?_, hpass, ?_⟩
  · intro b err hU
    simp [EnsureNamespaceSetWhenUseIDs, hU]
  · intro b ns err hU hN
    simp [EnsureNamespaceSetWhenUseIDs, hU, hN]
  · intro hU hN
    simp [EnsureNamespaceSetWhenUseIDs, hU, hN]
  · intro hd hU hN
    exact hpass true "" hU hN (fun h => hd h.2.symm)

/-- Witness of the amended C21 with the default namespace name "default" and
an inner function that counts its invocations. -/
theorem EnsureNamespaceSetWhenUseIDs_spec_witness :
    EnsureNamespaceSetWhenUseIDs "default"
        (sampleProvider (false, some (GoError.errorString "no setting")) ("ns-1", none))
        (countingRun none) "ctx" "cmd" ["vol-1"] (0, []) =
      (Outcome.returned (some (GoError.errorString "no setting")), (0, [])) ∧
    EnsureNamespaceSetWhenUseIDs "default"
        (sampleProvider (false, none) ("", some (GoError.errorString "no namespace")))
        (countingRun none) "ctx" "cmd" ["vol-1"] (0, []) =
      (Outcome.returned (some (GoError.errorString "no namespace")), (0, [])) ∧
    EnsureNamespaceSetWhenUseIDs "default" (sampleProvider (true, none) ("default", none))
        (countingRun none) "ctx" "cmd" ["vol-1"] (0, []) =
      (Outcome.returned (some ErrMustSpecifyNamespaceID), (0, [])) ∧
    EnsureNamespaceSetWhenUseIDs "default" (sampleProvider (false, none) ("default", none))
        (countingRun none) "ctx" "cmd" ["vol-1"] (0, []) =
      (Outcome.returned none, (1, ["vol-1"])) ∧
    EnsureNamespaceSetWhenUseIDs "default" (sampleProvider (true, none) ("", none))
        (countingRun none) "ctx" "cmd" ["vol-1"] (0, []) =
      (Outcome.returned none, (1, ["vol-1"])) :=
  ⟨(EnsureNamespaceSetWhenUseIDs_spec "default"
      (sampleProvider (false, some (GoError.errorString "no setting")) ("ns-1", none))
      (countingRun none) "ctx" "cmd" ["vol-1"] (0, [])).1 false _ rfl,
   (EnsureNamespaceSetWhenUseIDs_spec "default"
      (sampleProvider (false, none) ("", some (GoError.errorString "no namespace")))
      (countingRun none) "ctx" "cmd" ["vol-1"] (0, [])).2.1 false "" _ rfl rfl,
   (EnsureNamespaceSetWhenUseIDs_spec "default" (sampleProvider (true, none) ("default", none))
      (countingRun none) "ctx" "cmd" ["vol-1"] (0, [])).2.2.1 rfl rfl,
   (EnsureNamespaceSetWhenUseIDs_spec "default" (sampleProvider (false, none) ("default", none))
      (countingRun none) "ctx" "cmd" ["vol-1"] (0, [])).2.2.2.1 false "default" rfl rfl
      (by decide),
   (EnsureNamespaceSetWhenUseIDs_spec "default" (sampleProvider (true, none) ("", none))
      (countingRun none) "ctx" "cmd" ["vol-1"] (0, [])).2.2.2.2 (by decide) rfl rfl⟩

theorem chainLoop_take {Ctx Cmd σ : Type} (wrappers : List (WrapRunEWithContext Ctx Cmd σ)) :
    ∀ (n : Nat), n ≤ wrappers.length → ∀ wrapped : RunEWithContext Ctx Cmd σ,
      chainLoop wrappers n wrapped = (wrappers.take n).foldr (fun w acc => w acc) wrapped := by
  intro n
  induction n with
  | zero => intro _ wrapped; rfl
  | succ n ih =>
    intro hn wrapped
    have hlt : n < wrappers.length := hn
    have hget : wrappers[n]? = some wrappers[n] := List.getElem?_eq_getElem hlt
    simp only [chainLoop, hget]
    rw [ih (Nat.le_of_lt hlt), List.take_succ, hget]
    simp only [Option.toList, List.foldr_append, List.foldr_cons, List.foldr_nil]

theorem Chain_eq_foldr {Ctx Cmd σ : Type} (wrappers : List (WrapRunEWithContext Ctx Cmd σ))
    (next : RunEWithContext Ctx Cmd σ) :
    Chain wrappers next = wrappers.foldr (fun w acc => w acc) next := by
  have h := chainLoop_take wrappers wrappers.length (Nat.le_refl _) next
  rw [List.take_length] at h
  exact h

/-- C22: Chain of the wrappers w1, ..., wn applied to `next` is
w1 (w2 (... (wn next))): the first wrapper is outermost. Chain of no wrapper
is the identity, and chaining `a` around the chain of `b` is the chain of `a`
followed by `b`. -/
theorem Chain_spec {Ctx Cmd σ : Type} :
    (∀ (wrappers : List (WrapRunEWithContext Ctx Cmd σ)) (next : RunEWithContext Ctx Cmd σ),
      Chain wrappers next = wrappers.foldr (fun w acc => w acc) next) ∧
    (∀ (w : WrapRunEWithContext Ctx Cmd σ) (wrappers : List (WrapRunEWithContext Ctx Cmd σ))
      (next : RunEWithContext Ctx Cmd σ), Chain (w :: wrappers) next = w (Chain wrappers next)) ∧
    (∀ next : RunEWithContext Ctx Cmd σ, Chain [] next = next) ∧
    (∀ (a b : List (WrapRunEWithContext Ctx Cmd σ)) (next : RunEWithContext Ctx Cmd σ),
      Chain a (Chain b next) = Chain (a ++ b) next) := by
  refine ⟨Chain_eq_foldr, ?_, ?_, ?_⟩
  · intro w wrappers next
    rw [Chain_eq_foldr, Chain_eq_foldr, List.foldr_cons]
  · intro next
    rw [Chain_eq_foldr]
    rfl
  · intro a b next
    rw [Chain_eq_foldr, Chain_eq_foldr, Chain_eq_foldr, List.foldr_append]

/-- Witness of C22 with wrappers that log their tag before running the
wrapped function: the tags appear in the order of the wrappers, before the
inner function. -/
theorem Chain_spec_witness :
    Chain [tagWrap "first", tagWrap "second", tagWrap "third"] tagRun () () [] [] =
      (Outcome.returned none, ["first", "second", "third", "run"]) ∧
    Chain [tagWrap "first"] (Chain [tagWrap "second", tagWrap "third"] tagRun) =
      Chain [tagWrap "first", tagWrap "second", tagWrap "third"] tagRun :=
  ⟨(congrFun (congrFun (congrFun (congrFun (Chain_spec.1
      [tagWrap "first", tagWrap "second", tagWrap "third"] tagRun) ()) ()) []) []).trans rfl,
   Chain_spec.2.2.2 [tagWrap "first"] [tagWrap "second", tagWrap "third"] tagRun⟩

end runwrappers

namespace runwrappers

/-- C23: the function wrapped by AuthenticateClient calls Username, then
Password, then Authenticate with exactly that username and password, and
only after the three have succeeded invokes the inner function, once and with
the same context, command and arguments. When one of the three fails its
error is returned unchanged, the later steps are not performed and the inner
function is not invoked. The calls are read off the log of the recorded
provider, client and inner function. -/
theorem AuthenticateClient_spec {Ctx Cmd σ Session : Type} (provider : CredentialsProvider σ)
    (client : AuthAPIClient Ctx σ Session) (next : RunEWithContext Ctx Cmd σ) (ctx : Ctx)
    (cmd : Cmd) (args : List String) (s : σ) :
    (∀ u err, (provider.Username s).1 = (u, some err) →
      AuthenticateClient provider.recorded client.recorded (recordedRun next) ctx cmd args
          (s, []) =
        (Outcome.returned (some err), ((provider.Username s).2, [AuthCall.Username]))) ∧
    (∀ u p err, (provider.Username s).1 = (u, none) →
      (provider.Password (provider.Username s).2).1 = (p, some err) →
      AuthenticateClient provider.recorded client.recorded (recordedRun next) ctx cmd args
          (s, []) =
        (Outcome.returned (some err),
          ((provider.Password (provider.Username s).2).2,
            [AuthCall.Username, AuthCall.Password]))) ∧
    (∀ u p session err, (provider.Username s).1 = (u, none) →
      (provider.Password (provider.Username s).2).1 = (p, none) →
      (client.Authenticate ctx u p (provider.Password (provider.Username s).2).2).1 =
        (session, some err) →
      AuthenticateClient provider.recorded client.recorded (recordedRun next) ctx cmd args
          (s, []) =
        (Outcome.returned (some err),
          ((client.Authenticate ctx u p (provider.Password (provider.Username s).2).2).2,
            [AuthCall.Username, AuthCall.Password, AuthCall.Authenticate ctx u p]))) ∧
    (∀ u p session, (provider.Username s).1 = (u, none) →
      (provider.Password (provider.Username s).2).1 = (p, none) →
      (client.Authenticate ctx u p (provider.Password (provider.Username s).2).2).1 =
        (session, none) →
      AuthenticateClient provider.recorded client.recorded (recordedRun next) ctx cmd args
          (s, []) =
        ((next ctx cmd args
            (client.Authenticate ctx u p (provider.Password (provider.Username s).2).2).2).1,
          ((next ctx cmd args
              (client.Authenticate ctx u p (provider.Password (provider.Username s).2).2).2).2,
            [AuthCall.Username, AuthCall.Password, AuthCall.Authenticate ctx u p,
              AuthCall.Next ctx cmd args]))) := by
  refine ⟨?_, ?_, ?_, ?_⟩
  · intro u err hU
    simp [AuthenticateClient, CredentialsProvider.recorded, hU]
  · intro u p err hU hP
    simp [AuthenticateClient, CredentialsProvider.recorded, hU, hP]
  · intro u p session err hU hP hA
    simp [AuthenticateClient, CredentialsProvider.recorded, AuthAPIClient.recorded, hU, hP, hA]
  · intro u p session hU hP hA
    simp [AuthenticateClient, CredentialsProvider.recorded, AuthAPIClient.recorded, recordedRun,
      hU, hP, hA]

/-- Witness of C23: the password fails, the authentication fails, and all
three succeed. -/
theorem AuthenticateClient_spec_witness :
    AuthenticateClient
        (fixedCredentials ("alice", none) ("", some (GoError.errorString "no password"))).recorded
        (fixedAuth none).recorded (recordedRun okRun) "ctx" "cmd" ["vol-1"] ((), []) =
      (Outcome.returned (some (GoError.errorString "no password")),
        ((), [AuthCall.Username, AuthCall.Password])) ∧
    AuthenticateClient (fixedCredentials ("alice", none) ("secret", none)).recorded
        (fixedAuth (some (GoError.errorString "denied"))).recorded (recordedRun okRun)
        "ctx" "cmd" ["vol-1"] ((), []) =
      (Outcome.returned (some (GoError.errorString "denied")),
        ((), [AuthCall.Username, AuthCall.Password,
          AuthCall.Authenticate "ctx" "alice" "secret"])) ∧
    AuthenticateClient (fixedCredentials ("alice", none) ("secret", none)).recorded
        (fixedAuth none).recorded (recordedRun okRun) "ctx" "cmd" ["vol-1"] ((), []) =
      (Outcome.returned none,
        ((), [AuthCall.Username, AuthCall.Password,
          AuthCall.Authenticate "ctx" "alice" "secret", AuthCall.Next "ctx" "cmd" ["vol-1"]])) :=
  ⟨(AuthenticateClient_spec
      (fixedCredentials ("alice", none) ("", some (GoError.errorString "no password")))
      (fixedAuth none) okRun "ctx" "cmd" ["vol-1"] ()).2.1 "alice" "" _ rfl rfl,
   (AuthenticateClient_spec (fixedCredentials ("alice", none) ("secret", none))
      (fixedAuth (some (GoError.errorString "denied"))) okRun "ctx" "cmd" ["vol-1"]
      ()).2.2.1 "alice" "secret" () _ rfl rfl rfl,
   (AuthenticateClient_spec (fixedCredentials ("alice", none) ("secret", none))
      (fixedAuth none) okRun "ctx" "cmd" ["vol-1"] ()).2.2.2 "alice" "secret" () rfl rfl rfl⟩

end runwrappers

/-! ## Volume label predicates and error messages -/

namespace volume

theorem ParseBool_values (value : String) :
    (value ∈ ["1", "t", "T", "TRUE", "true", "True"] →
      strconv.ParseBool value = (true, none)) ∧
    (value ∈ ["0", "f", "F", "FALSE", "false", "False"] →
      strconv.ParseBool value = (false, none)) ∧
    (value ∉ ["1", "t", "T", "TRUE", "true", "True"] →
      value ∉ ["0", "f", "F", "FALSE", "false", "False"] →
      strconv.ParseBool value =
        (false, some (GoError.numError "ParseBool" value "invalid syntax"))) := by
  refine ⟨?_, ?_, ?_⟩
  · intro h
    simp only [List.mem_cons, List.mem_singleton, List.not_mem_nil, or_false] at h
    rcases h with rfl | rfl | rfl | rfl | rfl | rfl <;> decide
  · intro h
    simp only [List.mem_cons, List.mem_singleton, List.not_mem_nil, or_false] at h
    rcases h with rfl | rfl | rfl | rfl | rfl | rfl <;> decide
  · intro h1 h2
    simp only [List.mem_cons, List.mem_singleton, List.not_mem_nil, or_false, not_or] at h1 h2
    obtain ⟨a1, a2, a3, a4, a5, a6⟩ := h1
    obtain ⟨b1, b2, b3, b4, b5, b6⟩ := h2
    simp [strconv.ParseBool, a1, a2, a3, a4, a5, a6, b1, b2, b3, b4, b5, b6]

/-- C24: IsCachingDisabled, IsCompressionDisabled and IsThrottleEnabled each
return (false, nil) when their label (storageos.com/nocache,
storageos.com/nocompress, storageos.com/throttle) is absent. When it is
present with value `v` they return true for exactly 1, t, T, TRUE, true, True,
false for exactly 0, f, F, FALSE, false, False, and a parse error for every
other value, the empty string included. Each depends on its own label only:
two volumes with the same binding of that label give the same result. -/
theorem label_predicates (r r' : Resource) :
    (labels.lookup r.Labels LabelNoCache = none → r.IsCachingDisabled = (false, none)) ∧
    (labels.lookup r.Labels LabelNoCompress = none →
      r.IsCompressionDisabled = (false, none)) ∧
    (labels.lookup r.Labels LabelThrottle = none → r.IsThrottleEnabled = (false, none)) ∧
    (∀ v, labels.lookup r.Labels LabelNoCache = some v ∨
        labels.lookup r.Labels LabelNoCompress = some v ∨
        labels.lookup r.Labels LabelThrottle = some v →
      (labels.lookup r.Labels LabelNoCache = some v →
        r.IsCachingDisabled = strconv.ParseBool v) ∧
      (labels.lookup r.Labels LabelNoCompress = some v →
        r.IsCompressionDisabled = strconv.ParseBool v) ∧
      (labels.lookup r.Labels LabelThrottle = some v →
        r.IsThrottleEnabled = strconv.ParseBool v) ∧
      (v ∈ ["1", "t", "T", "TRUE", "true", "True"] → strconv.ParseBool v = (true, none)) ∧
      (v ∈ ["0", "f", "F", "FALSE", "false", "False"] → strconv.ParseBool v = (false, none)) ∧
      (v ∉ ["1", "t", "T", "TRUE", "true", "True"] →
        v ∉ ["0", "f", "F", "FALSE", "false", "False"] →
        strconv.ParseBool v = (false, some (GoError.numError "ParseBool" v "invalid syntax")))) ∧
    strconv.ParseBool "" = (false, some (GoError.numError "ParseBool" "" "invalid syntax")) ∧
    (labels.lookup r.Labels LabelNoCache = labels.lookup r'.Labels LabelNoCache →
      r.IsCachingDisabled = r'.IsCachingDisabled) ∧
    (labels.lookup r.Labels LabelNoCompress = labels.lookup r'.Labels LabelNoCompress →
      r.IsCompressionDisabled = r'.IsCompressionDisabled) ∧
    (labels.lookup r.Labels LabelThrottle = labels.lookup r'.Labels LabelThrottle →
      r.IsThrottleEnabled = r'.IsThrottleEnabled) := by
  refine ⟨?_, ?_, ?_, ?_, by decide, ?_, ?_, ?_⟩
  · intro h; simp [Resource.IsCachingDisabled, h]
  · intro h; simp [Resource.IsCompressionDisabled, h]
  · intro h; simp [Resource.IsThrottleEnabled, h]
  · intro v _
    refine ⟨?_, ?_, ?_, (ParseBool_values v).1, (ParseBool_values v).2.1,
      (ParseBool_values v).2.2⟩
    · intro h; simp [Resource.IsCachingDisabled, h]
    · intro h; simp [Resource.IsCompressionDisabled, h]
    · intro h; simp [Resource.IsThrottleEnabled, h]
  · intro h; simp only [Resource.IsCachingDisabled, h]
  · intro h; simp only [Resource.IsCompressionDisabled, h]
  · intro h; simp only [Resource.IsThrottleEnabled, h]

/-- Witness of C24: a volume without labels, and a volume whose three labels
hold "TRUE", "f" and "yes". -/
theorem label_predicates_witness :
    (withLabels []).IsCachingDisabled = (false, none) ∧
    (withLabels []).IsCompressionDisabled = (false, none) ∧
    (withLabels []).IsThrottleEnabled = (false, none) ∧
    (withLabels [("storageos.com/nocache", "TRUE"), ("storageos.com/nocompress", "f"),
        ("storageos.com/throttle", "yes")]).IsCachingDisabled = (true, none) ∧
    (withLabels [("storageos.com/nocache", "TRUE"), ("storageos.com/nocompress", "f"),
        ("storageos.com/throttle", "yes")]).IsCompressionDisabled = (false, none) ∧
    (withLabels [("storageos.com/nocache", "TRUE"), ("storageos.com/nocompress", "f"),
        ("storageos.com/throttle", "yes")]).IsThrottleEnabled =
      (false, some (GoError.numError "ParseBool" "yes" "invalid syntax")) :=
  ⟨(label_predicates (withLabels []) (withLabels [])).1 rfl,
   (label_predicates (withLabels []) (withLabels [])).2.1 rfl,
   (label_predicates (withLabels []) (withLabels [])).2.2.1 rfl,
   (((label_predicates (withLabels [("storageos.com/nocache", "TRUE"),
      ("storageos.com/nocompress", "f"), ("storageos.com/throttle", "yes")])
      (withLabels [])).2.2.2.1 "TRUE" (Or.inl (by decide))).1 (by decide)).trans (by decide),
   (((label_predicates (withLabels [("storageos.com/nocache", "TRUE"),
      ("storageos.com/nocompress", "f"), ("storageos.com/throttle", "yes")])
      (withLabels [])).2.2.2.1 "f" (Or.inr (Or.inl (by decide)))).2.1 (by decide)).trans
      (by decide),
   (((label_predicates (withLabels [("storageos.com/nocache", "TRUE"),
      ("storageos.com/nocompress", "f"), ("storageos.com/throttle", "yes")])
      (withLabels [])).2.2.2.1 "yes" (Or.inr (Or.inr (by decide)))).2.2.1 (by decide)).trans
      (by decide)⟩

end volume

namespace apiclient

/-- C25: for a non-empty node ID `u` and a non-empty name `n`, the message
of NewNodeNotFoundError(u) is "node with ID u not found", that of
NewNodeNameNotFoundError(n) is "node with name n not found", and a
NodeNotFoundError with neither set reports "node not found"; the message of
NewUserNameNotFoundError(n) is "user with name n not found" for every name,
and that of NewUserNotFoundError(d, id) is exactly `d`. -/
theorem not_found_messages (u : id.Node) (n : String) (hu : u ≠ "") (hn : n ≠ "") :
    (NewNodeNotFoundError u).Error = "node with ID " ++ u ++ " not found" ∧
    (NewNodeNameNotFoundError n).Error = "node with name " ++ n ++ " not found" ∧
    ({ uid := "", name := "" } : NodeNotFoundError).Error = "node not found" ∧
    (∀ name : String,
      (NewUserNameNotFoundError name).Error = "user with name " ++ name ++ " not found") ∧
    (∀ (d : String) (uID : id.User), (NewUserNotFoundError d uID).Error = d) := by
  refine ⟨?_, ?_, rfl, fun _ => rfl, fun _ _ => rfl⟩
  · simp [NodeNotFoundError.Error, NewNodeNotFoundError, hu]
  · simp [NodeNotFoundError.Error, NewNodeNameNotFoundError, hn]

/-- Witness of C25 for the node ID "n-42" and the name "storage-1". -/
theorem not_found_messages_witness :
    (NewNodeNotFoundError "n-42").Error = "node with ID n-42 not found" ∧
    (NewNodeNameNotFoundError "storage-1").Error = "node with name storage-1 not found" ∧
    (NewUserNameNotFoundError "alice").Error = "user with name alice not found" ∧
    (NewUserNotFoundError "user not found" "u-7").Error = "user not found" :=
  ⟨(not_found_messages "n-42" "storage-1" (by decide) (by decide)).1,
   (not_found_messages "n-42" "storage-1" (by decide) (by decide)).2.1,
   (not_found_messages "n-42" "storage-1" (by decide) (by decide)).2.2.2.1 "alice",
   (not_found_messages "n-42" "storage-1" (by decide) (by decide)).2.2.2.2
     "user not found" "u-7"⟩

end apiclient

/-! ## Output forms of volumes and licences -/

namespace output

/-- C26: for every volume deployment and every map from node ID to node,
newDeployment copies ID, Node, Health, Promotable and SyncProgress unchanged,
and its NodeName is the Name of the node mapped at the deployment's Node when
that is a key of the map and "unknown" otherwise. NewVolume sets
AttachedOnName to the mapped node's Name or "unknown" in the same way, sets
NamespaceName to the Name of the given namespace, converts the replicas in
their input order (same length, the i-th output replica is the conversion of
the i-th input replica), and yields the empty list when the volume has no
replica. -/
theorem NewVolume_spec (dep : volume.Deployment) (vol : volume.Resource)
    (ns : namespace_.Resource) (nodes : GoMap id.Node node.Resource) :
    ((newDeployment dep nodes).ID = dep.ID ∧ (newDeployment dep nodes).Node = dep.Node ∧
      (newDeployment dep nodes).Health = dep.Health ∧
      (newDeployment dep nodes).Promotable = dep.Promotable ∧
      (newDeployment dep nodes).SyncProgress = dep.SyncProgress) ∧
    (∀ n, nodes.get dep.Node = some n → (newDeployment dep nodes).NodeName = n.Name) ∧
    (nodes.get dep.Node = none → (newDeployment dep nodes).NodeName = "unknown") ∧
    (∀ n, nodes.get vol.AttachedOn = some n → (NewVolume vol ns nodes).AttachedOnName = n.Name) ∧
    (nodes.get vol.AttachedOn = none → (NewVolume vol ns nodes).AttachedOnName = "unknown") ∧
    (NewVolume vol ns nodes).NamespaceName = ns.Name ∧
    (NewVolume vol ns nodes).Replicas.length = vol.Replicas.length ∧
    (∀ i : Nat, (NewVolume vol ns nodes).Replicas[i]? =
      (vol.Replicas[i]?).map (fun r => newDeployment r nodes)) ∧
    (NewVolume vol ns nodes).Replicas.map (fun r => r.ID) = vol.Replicas.map (fun r => r.ID) ∧
    (vol.Replicas = [] → (NewVolume vol ns nodes).Replicas = []) := by
  refine ⟨⟨rfl, rfl, rfl, rfl, rfl⟩, ?_, ?_, ?_, ?_, rfl, ?_, ?_, ?_, ?_⟩
  · intro n h; simp [newDeployment, nodeNameOf, h]
  · intro h; simp [newDeployment, nodeNameOf, h]
  · intro n h; simp [NewVolume, nodeNameOf, h]
  · intro h; simp [NewVolume, nodeNameOf, h]
  · simp [NewVolume]
  · intro i; simp [NewVolume]
  · simp [NewVolume, newDeployment, Function.comp_def]
  · intro h; simp [NewVolume, h]

/-- Witness of C26: the deployments and the volume of the tests, on the node
map of the tests; the volume is attached on a node that is not in the map. -/
theorem NewVolume_spec_witness :
    (newDeployment (testDeployment "deploy-id" "node-id" "online" true none) testNodes).NodeName =
      "node-name" ∧
    (newDeployment (testDeployment "deploy-id" "node-id" "online" true none)
      GoMap.empty).NodeName = "unknown" ∧
    (NewVolume testVolume (namespace_.mkNamespace "namespace-id" "namespace-name")
      testNodes).AttachedOnName = "unknown" ∧
    (NewVolume testVolume (namespace_.mkNamespace "namespace-id" "namespace-name")
      testNodes).NamespaceName = "namespace-name" ∧
    (NewVolume testVolume (namespace_.mkNamespace "namespace-id" "namespace-name")
      testNodes).Replicas.map (fun r => r.NodeName) = ["node-1-name", "node-2-name"] ∧
    (NewVolume (volume.mkVolume "vol-id" "vol-name" "namespace-id")
      (namespace_.mkNamespace "namespace-id" "namespace-name") testNodes).Replicas = [] :=
  ⟨(NewVolume_spec (testDeployment "deploy-id" "node-id" "online" true none) testVolume
      (namespace_.mkNamespace "namespace-id" "namespace-name") testNodes).2.1
      (apiclient.mkNode "" "node-name") (by decide),
   (NewVolume_spec (testDeployment "deploy-id" "node-id" "online" true none) testVolume
      (namespace_.mkNamespace "namespace-id" "namespace-name") GoMap.empty).2.2.1 (by decide),
   (NewVolume_spec (testDeployment "deploy-id" "node-id" "online" true none) testVolume
      (namespace_.mkNamespace "namespace-id" "namespace-name") testNodes).2.2.2.2.1 (by decide),
   (NewVolume_spec (testDeployment "deploy-id" "node-id" "online" true none) testVolume
      (namespace_.mkNamespace "namespace-id" "namespace-name") testNodes).2.2.2.2.2.1,
   by decide,
   (NewVolume_spec (testDeployment "deploy-id" "node-id" "online" true none)
      (volume.mkVolume "vol-id" "vol-name" "namespace-id")
      (namespace_.mkNamespace "namespace-id" "namespace-name") testNodes).2.2.2.2.2.2.2.2.2
      (by decide)⟩

end output

/-! ## Selection of the displayer -/

/-- C27: for every configuration provider the SelectDisplayer of each command
package (describe, delete, attach, detach, update, apply, create, nfs) returns
a displayer without failing: the JSON displayer exactly when OutputFormat
succeeds with JSON, the YAML displayer exactly when it succeeds with YAML, and
the text displayer in every other case, which includes every other format
value and every error of OutputFormat. -/
theorem SelectDisplayer_spec {ε : Type} (indent : String) (cp : config.Provider ε) :
    (∀ d ∈ [describe.SelectDisplayer indent cp, delete.SelectDisplayer indent cp,
        attach.SelectDisplayer cp, detach.SelectDisplayer cp, update.SelectDisplayer indent cp,
        apply.SelectDisplayer indent cp, create.SelectDisplayer indent cp,
        nfs.SelectDisplayer indent cp],
      (d.isJSON = true ↔ cp.OutputFormat = (output.Format.JSON, none)) ∧
      (d.isYAML = true ↔ cp.OutputFormat = (output.Format.YAML, none)) ∧
      (d.isText = true ↔
        cp.OutputFormat ≠ (output.Format.JSON, none) ∧
          cp.OutputFormat ≠ (output.Format.YAML, none))) ∧
    (∀ out e, cp.OutputFormat = (out, some e) →
      ∀ d ∈ [describe.SelectDisplayer indent cp, delete.SelectDisplayer indent cp,
          attach.SelectDisplayer cp, detach.SelectDisplayer cp,
          update.SelectDisplayer indent cp, apply.SelectDisplayer indent cp,
          create.SelectDisplayer indent cp, nfs.SelectDisplayer indent cp],
        d = SelectedDisplayer.textformat) ∧
    (∀ out, cp.OutputFormat = (out, none) → out ≠ output.Format.JSON →
      out ≠ output.Format.YAML →
      ∀ d ∈ [describe.SelectDisplayer indent cp, delete.SelectDisplayer indent cp,
          attach.SelectDisplayer cp, detach.SelectDisplayer cp,
          update.SelectDisplayer indent cp, apply.SelectDisplayer indent cp,
          create.SelectDisplayer indent cp, nfs.SelectDisplayer indent cp],
        d = SelectedDisplayer.textformat) := by
  rcases hof : cp.OutputFormat with ⟨out, err⟩
  cases err with
  | some e =>
    simp [describe.SelectDisplayer, delete.SelectDisplayer, attach.SelectDisplayer,
      detach.SelectDisplayer, update.SelectDisplayer, apply.SelectDisplayer,
      create.SelectDisplayer, nfs.SelectDisplayer, hof, SelectedDisplayer.isJSON,
      SelectedDisplayer.isYAML, SelectedDisplayer.isText]
  | none =>
    cases out <;>
      simp [describe.SelectDisplayer, delete.SelectDisplayer, attach.SelectDisplayer,
        detach.SelectDisplayer, update.SelectDisplayer, apply.SelectDisplayer,
        create.SelectDisplayer, nfs.SelectDisplayer, hof, SelectedDisplayer.isJSON,
        SelectedDisplayer.isYAML, SelectedDisplayer.isText]

/-- Witness of C27 on four configurations: JSON, YAML, the unknown format and
a failing OutputFormat. -/
theorem SelectDisplayer_spec_witness :
    describe.SelectDisplayer "\t" (config.withOutputFormat (output.Format.JSON, none)) =
      SelectedDisplayer.jsonformat "\t" ∧
    attach.SelectDisplayer (config.withOutputFormat (output.Format.YAML, none)) =
      SelectedDisplayer.yamlformat "" ∧
    delete.SelectDisplayer "\t" (config.withOutputFormat (output.Format.Unknown, none)) =
      SelectedDisplayer.textformat ∧
    update.SelectDisplayer "\t"
        (config.withOutputFormat (output.Format.JSON, some "no format")) =
      SelectedDisplayer.textformat :=
  ⟨by decide, by decide,
   (SelectDisplayer_spec "\t" (config.withOutputFormat (output.Format.Unknown, none))).2.2
      output.Format.Unknown rfl (by decide) (by decide) _ (by simp),
   (SelectDisplayer_spec "\t"
      (config.withOutputFormat (output.Format.JSON, some "no format"))).2.1
      output.Format.JSON "no format" rfl _ (by simp)⟩

/-! ## Bulk filter against the single lookup -/

namespace apiclient

theorem retrievedByName_scan (nodes : List node.Resource) (n : String)
    (hnodup : (nodes.map (fun r => r.Name)).Nodup) :
    ((retrievedByName nodes).get n = none ∧
      scanNodesByName n nodes =
        (none, some (Error.nodeNotFound (NewNodeNameNotFoundError n)))) ∨
    (∃ r, (retrievedByName nodes).get n = some r ∧ scanNodesByName n nodes = (some r, none)) := by
  rw [retrievedByName_eq]
  cases hg : (buildMap (fun r : node.Resource => r.Name) nodes).get n with
  | none =>
    left
    exact ⟨rfl, scanNodesByName_absent n nodes ((buildMap_none _ nodes n).1 hg)⟩
  | some r =>
    right
    obtain ⟨pre, post, hsplit, hr, _⟩ := buildMap_some _ nodes n r hg
    refine ⟨r, rfl, ?_⟩
    subst hsplit
    apply scanNodesByName_split n r post hr pre
    intro x hx hxn
    rw [List.map_append, List.map_cons, List.nodup_append] at hnodup
    exact hnodup.2.2 (List.mem_map_of_mem (fun r => r.Name) hx)
      (by rw [hxn, hr]; exact List.mem_cons_self _ _)

/-- C28: on a node collection whose Names are pairwise distinct, the bulk
filter filterNodesForNames(nodes, n) and the scan of GetNodeByName agree for
every name n: the bulk filter returns the one-element list [r] without error
exactly when the scan returns r, the two return the same error, and when no
node is called n both fail with the NodeNotFoundError that carries the name n
and no ID. The same holds of GetListNodesByName and GetNodeByName on a client
whose transport lists that collection. -/
theorem bulk_single_agree (nodes : List node.Resource) (n : String)
    (hnodup : (nodes.map (fun r => r.Name)).Nodup) :
    (∀ r, filterNodesForNames nodes [n] = ([r], none) ↔
      scanNodesByName n nodes = (some r, none)) ∧
    filterNodesForNames nodes [n] =
      ((scanNodesByName n nodes).1.toList, (scanNodesByName n nodes).2) ∧
    ((∀ r ∈ nodes, r.Name ≠ n) →
      filterNodesForNames nodes [n] =
          ([], some (Error.nodeNotFound { uid := "", name := n })) ∧
        scanNodesByName n nodes =
          (none, some (Error.nodeNotFound { uid := "", name := n }))) ∧
    ((∃ r, filterNodesForNames nodes [n] = ([r], none) ∧
        scanNodesByName n nodes = (some r, none)) ∨
      (filterNodesForNames nodes [n] =
          ([], some (Error.nodeNotFound { uid := "", name := n })) ∧
        scanNodesByName n nodes =
          (none, some (Error.nodeNotFound { uid := "", name := n })))) ∧
    (∀ (σ : Type) (c : Client σ) (s : σ), (c.Transport.ListNodes s).1 = (nodes, none) →
      c.GetListNodesByName [n] s =
        (((c.GetNodeByName n s).1.1.toList, (c.GetNodeByName n s).1.2),
          (c.GetNodeByName n s).2)) := by
  have hfilter : filterNodesForNames nodes [n] =
      match (retrievedByName nodes).get n with
      | none => ([], some (Error.nodeNotFound (NewNodeNameNotFoundError n)))
      | some r => ([r], none) := by
    simp only [filterNodesForNames, List.length_singleton, Nat.succ_ne_zero, if_false,
      filterNodesForNamesLoop]
    cases (retrievedByName nodes).get n <;> rfl
  have heq : filterNodesForNames nodes [n] =
      ((scanNodesByName n nodes).1.toList, (scanNodesByName n nodes).2) := by
    rcases retrievedByName_scan nodes n hnodup with ⟨hg, hs⟩ | ⟨r, hg, hs⟩
    · rw [hfilter, hg, hs]; rfl
    · rw [hfilter, hg, hs]; rfl
  refine ⟨?_, heq, ?_, ?_, ?_⟩
  · intro r
    rcases retrievedByName_scan nodes n hnodup with ⟨hg, hs⟩ | ⟨r', hg, hs⟩
    · rw [hfilter, hg, hs]; simp
    · rw [hfilter, hg, hs]; simp
  · intro habs
    have hs := scanNodesByName_absent n nodes habs
    rw [heq, hs]
    exact ⟨rfl, rfl⟩
  · rcases retrievedByName_scan nodes n hnodup with ⟨hg, hs⟩ | ⟨r, hg, hs⟩
    · right
      rw [hfilter, hg, hs]
      exact ⟨rfl, rfl⟩
    · left
      exact ⟨r, by rw [hfilter, hg], hs⟩
  · intro σ c s hlist
    rcases hl : c.Transport.ListNodes s with ⟨⟨l, e⟩, s'⟩
    rw [hl] at hlist
    simp only [Prod.mk.injEq] at hlist
    obtain ⟨rfl, rfl⟩ := hlist
    simp only [Client.GetListNodesByName, Client.GetNodeByName, hl]
    rw [heq]

/-- Witness of C28: two nodes with distinct names, looked up by the name of
the second. -/
theorem bulk_single_agree_witness :
    ([mkNode "n-1" "alpha", mkNode "n-2" "beta"].map (fun r => r.Name)).Nodup ∧
    filterNodesForNames [mkNode "n-1" "alpha", mkNode "n-2" "beta"] ["beta"] =
      ([mkNode "n-2" "beta"], none) ∧
    scanNodesByName "beta" [mkNode "n-1" "alpha", mkNode "n-2" "beta"] =
      (some (mkNode "n-2" "beta"), none) ∧
    filterNodesForNames [mkNode "n-1" "alpha", mkNode "n-2" "beta"] ["gamma"] =
      ([], some (Error.nodeNotFound { uid := "", name := "gamma" })) :=
  ⟨by decide,
   ((bulk_single_agree [mkNode "n-1" "alpha", mkNode "n-2" "beta"] "beta" (by decide)).1
      (mkNode "n-2" "beta")).2 (by decide),
   by decide,
   ((bulk_single_agree [mkNode "n-1" "alpha", mkNode "n-2" "beta"] "gamma" (by decide)).2.2.1
      (by decide)).1⟩

end apiclient

namespace output

theorem Strings_sorted (l : List String) : (sort.Strings l).Sorted (fun a b => a ≤ b) :=
  List.sorted_insertionSort (fun a b : String => a ≤ b) l

theorem Strings_perm (l : List String) : (sort.Strings l).Perm l :=
  List.perm_insertionSort (fun a b : String => a ≤ b) l

theorem Strings_eq_of_perm (l l' : List String) (h : l.Perm l') :
    sort.Strings l = sort.Strings l' :=
  List.eq_of_perm_of_sorted ((Strings_perm l).trans (h.trans (Strings_perm l').symm))
    (Strings_sorted l) (Strings_sorted l')

/-- C29: for every licence resource the Features of NewLicence are in
ascending string order and are a permutation of the Features of the resource
(same length, every string as often), and ClusterID, ExpiresAt,
ClusterCapacityBytes, UsedBytes, Kind and CustomerName are copied unchanged.
Two licences that differ only in the order of their features give the same
output. On a memory of backing arrays the sort works on a fresh copy: the
array of the resource, like every array that was there before, is unchanged,
and the fresh array holds the Features of the output. -/
theorem NewLicence_spec (l l' : licence.Resource) :
    (NewLicence l).Features.Sorted (fun a b => a ≤ b) ∧
    (NewLicence l).Features.Perm l.Features ∧
    (NewLicence l).Features.length = l.Features.length ∧
    (∀ s, (NewLicence l).Features.count s = l.Features.count s) ∧
    ((NewLicence l).ClusterID = l.ClusterID ∧ (NewLicence l).ExpiresAt = l.ExpiresAt ∧
      (NewLicence l).ClusterCapacityBytes = l.ClusterCapacityBytes ∧
      (NewLicence l).UsedBytes = l.UsedBytes ∧ (NewLicence l).Kind = l.Kind ∧
      (NewLicence l).CustomerName = l.CustomerName) ∧
    (l.Features.Perm l'.Features → l.ClusterID = l'.ClusterID → l.ExpiresAt = l'.ExpiresAt →
      l.ClusterCapacityBytes = l'.ClusterCapacityBytes → l.UsedBytes = l'.UsedBytes →
      l.Kind = l'.Kind → l.CustomerName = l'.CustomerName → NewLicence l = NewLicence l') ∧
    (∀ (mem : StringArrays) (src : Nat), src < mem.length → mem.getD src [] = l.Features →
      (NewLicenceFeatures mem src).2.getD src [] = l.Features ∧
      (∀ i, i < mem.length → (NewLicenceFeatures mem src).2.getD i [] = mem.getD i []) ∧
      (NewLicenceFeatures mem src).2.getD (NewLicenceFeatures mem src).1 [] =
        (NewLicence l).Features) := by
  have hperm : (NewLicence l).Features.Perm l.Features := by
    simpa [NewLicence] using Strings_perm l.Features
  refine ⟨?_, hperm, hperm.length_eq, fun s => hperm.count_eq s,
    ⟨rfl, rfl, rfl, rfl, rfl, rfl⟩, ?_, ?_⟩
  · simpa [NewLicence] using Strings_sorted l.Features
  · intro hp h1 h2 h3 h4 h5 h6
    simp only [NewLicence, List.nil_append, h1, h2, h3, h4, h5, h6,
      Strings_eq_of_perm _ _ hp]
  · intro mem src hsrc hmem
    have hold : ∀ i, i < mem.length → (NewLicenceFeatures mem src).2.getD i [] = mem.getD i [] := by
      intro i hi
      simp only [NewLicenceFeatures, List.getD_eq_getElem?_getD]
      rw [List.getElem?_set_ne (Nat.ne_of_gt hi), List.getElem?_append_left hi]
    refine ⟨(hold src hsrc).trans hmem, hold, ?_⟩
    simp only [NewLicenceFeatures, List.getD_eq_getElem?_getD, NewLicence, List.nil_append]
    rw [List.getElem?_set_self (by simp)]
    simp [← hmem]

/-- Witness of C29: three features out of order, in a memory that holds one
other array. -/
theorem NewLicence_spec_witness :
    (NewLicence (testLicence ["nfs", "caching", "ha"] "v1")).Features = ["caching", "ha", "nfs"] ∧
    NewLicence (testLicence ["nfs", "caching", "ha"] "v1") =
      NewLicence (testLicence ["ha", "nfs", "caching"] "v2") ∧
    (NewLicenceFeatures [["x"], ["nfs", "caching", "ha"]] 1).2 =
      [["x"], ["nfs", "caching", "ha"], ["caching", "ha", "nfs"]] :=
  ⟨by
     simp [NewLicence, testLicence, sort.Strings, List.insertionSort, List.orderedInsert]
     decide,
   (NewLicence_spec (testLicence ["nfs", "caching", "ha"] "v1")
      (testLicence ["ha", "nfs", "caching"] "v2")).2.2.2.2.2.1 (by decide) rfl rfl rfl rfl rfl rfl,
   by
     simp [NewLicenceFeatures, sort.Strings, List.insertionSort, List.orderedInsert]
     decide⟩

end output

/-! ## Asynchronous mode with a failing command timeout -/

namespace delete

section

variable {Ctx W σ ε : Type}

theorem node_async_timeout (c : nodeCommand Ctx W σ ε) (ctx : Ctx) (args : List String)
    (s : σ) (t : time.Duration) (e : ε) (ha : c.useAsync = true)
    (hT : c.config.CommandTimeout = (t, some e)) :
    (c.recorded.runWithCtx ctx args (s, [])).2 = (s, []) ∧
    (c.recorded.runWithCtx ctx args (s, [])).1 ≠ Outcome.returned none ∧
    (∀ u, c.config.UseIDs = (u, none) →
      c.recorded.runWithCtx ctx args (s, []) = (Outcome.returned (some e), (s, []))) := by
  rcases hU : c.config.UseIDs with ⟨u, _ | err⟩ <;>
    simp [nodeCommand.runWithCtx, nodeCommand.recorded, hU, ha, hT]

theorem volume_async_timeout (c : volumeCommand Ctx W σ ε)
    (NewVolumeDeletion : id.Volume → id.Namespace → output.VolumeDeletion) (ctx : Ctx)
    (args : List String) (s : σ) (t : time.Duration) (e : ε) (ha : c.useAsync = true)
    (hT : c.config.CommandTimeout = (t, some e)) :
    (c.recorded.runWithCtx NewVolumeDeletion ctx args (s, [])).2 = (s, []) ∧
    (c.recorded.runWithCtx NewVolumeDeletion ctx args (s, [])).1 ≠ Outcome.returned none ∧
    (∀ u, c.config.UseIDs = (u, none) →
      c.recorded.runWithCtx NewVolumeDeletion ctx args (s, []) =
        (Outcome.returned (some e), (s, []))) := by
  rcases hU : c.config.UseIDs with ⟨u, _ | err⟩ <;>
    simp [volumeCommand.runWithCtx, volumeCommand.recorded, hU, ha, hT]

end

end delete

namespace detach

section

variable {Ctx W σ ε : Type}

theorem detach_compose_async_timeout (c : detachCommand Ctx W σ ε) (t : time.Duration) (e : ε)
    (ha : c.useAsync = true) (hT : c.config.CommandTimeout = (t, some e)) (ctx : Ctx)
    (namespaceID : id.Namespace) (volumeID : id.Volume) (s : σ) :
    c.compose ctx namespaceID volumeID s = (Outcome.returned (some e), s) := by
  simp [detachCommand.compose, ha, hT]

theorem detach_async_timeout (c : detachCommand Ctx W σ ε) (ctx : Ctx) (args : List String)
    (s : σ) (t : time.Duration) (e : ε) (ha : c.useAsync = true)
    (hT : c.config.CommandTimeout = (t, some e)) :
    (∀ call ∈ (c.recorded.runWithCtx ctx args (s, [])).2.2,
      call.isMutating = false ∧ call.isDisplay = false) ∧
    (c.recorded.runWithCtx ctx args (s, [])).1 ≠ Outcome.returned none ∧
    (∀ a rest, c.config.UseIDs = (true, none) → args = a :: rest →
      c.recorded.runWithCtx ctx args (s, []) = (Outcome.returned (some e), (s, []))) ∧
    (∀ a rest ns vol, c.config.UseIDs = (false, none) → args = a :: rest →
      (c.client.GetNamespaceByName ctx c.namespace_ s).1 = (some ns, none) →
      (c.client.GetVolumeByName ctx ns.ID a
        (c.client.GetNamespaceByName ctx c.namespace_ s).2).1 = (some vol, none) →
      c.recorded.runWithCtx ctx args (s, []) =
        (Outcome.returned (some e),
          ((c.client.GetVolumeByName ctx ns.ID a
              (c.client.GetNamespaceByName ctx c.namespace_ s).2).2,
            [Call.GetNamespaceByName ctx c.namespace_, Call.GetVolumeByName ctx ns.ID a]))) := by
  have hc := detach_compose_async_timeout c.recorded t e ha hT
  refine ⟨?_, ?_, ?_, ?_⟩
  · intro call hcall
    simp only [detachCommand.runWithCtx, hc] at hcall
    simp only [detachCommand.recorded, Client.recorded] at hcall
    repeat' split at hcall
    all_goals (try simp only [Prod.mk.injEq] at *)
    all_goals (try casesm* _ ∧ _)
    all_goals (try subst_vars)
    all_goals (try simp only [List.mem_append, List.mem_cons, List.mem_singleton,
      List.not_mem_nil, List.nil_append, or_false, false_or] at hcall)
    all_goals (try casesm* _ ∨ _)
    all_goals (try subst_vars)
    all_goals (simp_all [Call.isMutating, Call.isDisplay])
  · simp only [detachCommand.runWithCtx, hc]
    simp only [detachCommand.recorded, Client.recorded]
    repeat' split
    all_goals simp
  · intro a rest hU hargs
    subst hargs
    simp only [detachCommand.runWithCtx, hc]
    simp [detachCommand.recorded, hU]
  · intro a rest ns vol hU hargs hns hvol
    subst hargs
    simp only [detachCommand.runWithCtx, hc]
    simp [detachCommand.recorded, Client.recorded, hU, hns, hvol]

end

end detach

namespace update

section

variable {Ctx W σ ε υ : Type}

theorem description_compose_async_timeout (c : volumeDescriptionCommand Ctx W σ ε υ)
    (NewVolumeUpdate : Option volume.Resource → υ) (t : time.Duration) (e : ε)
    (ha : c.useAsync = true) (hT : c.config.CommandTimeout = (t, some e)) (ctx : Ctx)
    (nsID : id.Namespace) (volID : id.Volume) (s : σ) :
    c.compose NewVolumeUpdate ctx nsID volID s = (Outcome.returned (some e), s) := by
  simp [volumeDescriptionCommand.compose, ha, hT]

theorem description_async_timeout (c : volumeDescriptionCommand Ctx W σ ε υ)
    (NewVolumeUpdate : Option volume.Resource → υ) (ctx : Ctx) (s : σ) (t : time.Duration)
    (e : ε) (ha : c.useAsync = true) (hT : c.config.CommandTimeout = (t, some e)) :
    (∀ call ∈ (c.recorded.runWithCtx NewVolumeUpdate ctx (s, [])).2.2,
      call.isMutating = false ∧ call.isDisplay = false) ∧
    (c.recorded.runWithCtx NewVolumeUpdate ctx (s, [])).1 ≠ Outcome.returned none ∧
    (c.config.UseIDs = (true, none) →
      c.recorded.runWithCtx NewVolumeUpdate ctx (s, []) =
        (Outcome.returned (some e), (s, []))) ∧
    (∀ ns vol, c.config.UseIDs = (false, none) →
      (c.client.GetNamespaceByName ctx c.namespace_ s).1 = (some ns, none) →
      (c.client.GetVolumeByName ctx ns.ID c.volumeID
        (c.client.GetNamespaceByName ctx c.namespace_ s).2).1 = (some vol, none) →
      c.recorded.runWithCtx NewVolumeUpdate ctx (s, []) =
        (Outcome.returned (some e),
          ((c.client.GetVolumeByName ctx ns.ID c.volumeID
              (c.client.GetNamespaceByName ctx c.namespace_ s).2).2,
            [Call.GetNamespaceByName ctx c.namespace_,
              Call.GetVolumeByName ctx ns.ID c.volumeID]))) := by
  have hc : c.recorded.compose NewVolumeUpdate ctx =
      fun _ _ sl => (Outcome.returned (some e), sl) := by
    funext nsID volID sl
    exact description_compose_async_timeout c.recorded NewVolumeUpdate t e ha hT ctx nsID volID sl
  refine ⟨?_, ?_, ?_, ?_⟩
  · intro call hcall
    simp only [volumeDescriptionCommand.runWithCtx, hc, resolveIDs] at hcall
    simp only [volumeDescriptionCommand.recorded, Client.recorded] at hcall
    repeat' split at hcall
    all_goals (try simp only [Prod.mk.injEq] at *)
    all_goals (try casesm* _ ∧ _)
    all_goals (try subst_vars)
    all_goals (try simp only [List.mem_append, List.mem_cons, List.mem_singleton,
      List.not_mem_nil, List.nil_append, or_false, false_or] at hcall)
    all_goals (try casesm* _ ∨ _)
    all_goals (try subst_vars)
    all_goals (simp_all [Call.isMutating, Call.isDisplay])
  · simp only [volumeDescriptionCommand.runWithCtx, hc, resolveIDs]
    simp only [volumeDescriptionCommand.recorded, Client.recorded]
    repeat' split
    all_goals simp
  · intro hU
    simp only [volumeDescriptionCommand.runWithCtx, hc, resolveIDs]
    simp [volumeDescriptionCommand.recorded, hU]
  · intro ns vol hU hns hvol
    simp only [volumeDescriptionCommand.runWithCtx, hc, resolveIDs]
    simp [volumeDescriptionCommand.recorded, Client.recorded, hU, hns, hvol]

end

end update

/-- C30: in the delete node, delete volume, detach and update volume
description commands run in asynchronous mode with a configuration whose
command timeout resolves to an error `e`, with the client and the displayer
recording their calls: no mutating call (DeleteNode, DeleteVolume,
DetachVolume, UpdateVolumeDescription) is issued and nothing is displayed,
the command never reports success, and whenever the run gets as far as
resolving the timeout it returns `e`. The two delete commands resolve the
timeout right after UseIDs and make no call at all; detach and update
description resolve it after the lookups, which with UseIDs false are the
only calls in the log. -/
theorem async_timeout_error {Ctx W σ ε υ : Type} (ctx : Ctx) (args : List String) (s : σ)
    (t : time.Duration) (e : ε)
    (NewVolumeDeletion : id.Volume → id.Namespace → output.VolumeDeletion)
    (NewVolumeUpdate : Option volume.Resource → υ) :
    (∀ (c : delete.nodeCommand Ctx W σ ε), c.useAsync = true →
      c.config.CommandTimeout = (t, some e) →
      (c.recorded.runWithCtx ctx args (s, [])).2 = (s, []) ∧
      (c.recorded.runWithCtx ctx args (s, [])).1 ≠ Outcome.returned none ∧
      (∀ u, c.config.UseIDs = (u, none) →
        c.recorded.runWithCtx ctx args (s, []) = (Outcome.returned (some e), (s, [])))) ∧
    (∀ (c : delete.volumeCommand Ctx W σ ε), c.useAsync = true →
      c.config.CommandTimeout = (t, some e) →
      (c.recorded.runWithCtx NewVolumeDeletion ctx args (s, [])).2 = (s, []) ∧
      (c.recorded.runWithCtx NewVolumeDeletion ctx args (s, [])).1 ≠ Outcome.returned none ∧
      (∀ u, c.config.UseIDs = (u, none) →
        c.recorded.runWithCtx NewVolumeDeletion ctx args (s, []) =
          (Outcome.returned (some e), (s, [])))) ∧
    (∀ (c : detach.detachCommand Ctx W σ ε), c.useAsync = true →
      c.config.CommandTimeout = (t, some e) →
      (∀ call ∈ (c.recorded.runWithCtx ctx args (s, [])).2.2,
        call.isMutating = false ∧ call.isDisplay = false) ∧
      (c.recorded.runWithCtx ctx args (s, [])).1 ≠ Outcome.returned none ∧
      (∀ a rest, c.config.UseIDs = (true, none) → args = a :: rest →
        c.recorded.runWithCtx ctx args (s, []) = (Outcome.returned (some e), (s, []))) ∧
      (∀ a rest ns vol, c.config.UseIDs = (false, none) → args = a :: rest →
        (c.client.GetNamespaceByName ctx c.namespace_ s).1 = (some ns, none) →
        (c.client.GetVolumeByName ctx ns.ID a
          (c.client.GetNamespaceByName ctx c.namespace_ s).2).1 = (some vol, none) →
        c.recorded.runWithCtx ctx args (s, []) =
          (Outcome.returned (some e),
            ((c.client.GetVolumeByName ctx ns.ID a
                (c.client.GetNamespaceByName ctx c.namespace_ s).2).2,
              [detach.Call.GetNamespaceByName ctx c.namespace_,
                detach.Call.GetVolumeByName ctx ns.ID a])))) ∧
    (∀ (c : update.volumeDescriptionCommand Ctx W σ ε υ), c.useAsync = true →
      c.config.CommandTimeout = (t, some e) →
      (∀ call ∈ (c.recorded.runWithCtx NewVolumeUpdate ctx (s, [])).2.2,
        call.isMutating = false ∧ call.isDisplay = false) ∧
      (c.recorded.runWithCtx NewVolumeUpdate ctx (s, [])).1 ≠ Outcome.returned none ∧
      (c.config.UseIDs = (true, none) →
        c.recorded.runWithCtx NewVolumeUpdate ctx (s, []) =
          (Outcome.returned (some e), (s, []))) ∧
      (∀ ns vol, c.config.UseIDs = (false, none) →
        (c.client.GetNamespaceByName ctx c.namespace_ s).1 = (some ns, none) →
        (c.client.GetVolumeByName ctx ns.ID c.volumeID
          (c.client.GetNamespaceByName ctx c.namespace_ s).2).1 = (some vol, none) →
        c.recorded.runWithCtx NewVolumeUpdate ctx (s, []) =
          (Outcome.returned (some e),
            ((c.client.GetVolumeByName ctx ns.ID c.volumeID
                (c.client.GetNamespaceByName ctx c.namespace_ s).2).2,
              [update.Call.GetNamespaceByName ctx c.namespace_,
                update.Call.GetVolumeByName ctx ns.ID c.volumeID])))) :=
  ⟨fun c ha hT => delete.node_async_timeout c ctx args s t e ha hT,
   fun c ha hT => delete.volume_async_timeout c NewVolumeDeletion ctx args s t e ha hT,
   fun c ha hT => detach.detach_async_timeout c ctx args s t e ha hT,
   fun c ha hT => update.description_async_timeout c NewVolumeUpdate ctx s t e ha hT⟩

/-- Witness of C30: the four commands in asynchronous mode on a
configuration whose command timeout fails with "bad timeout"; the delete
commands are given IDs, detach and update description look their target up
by name first. -/
theorem async_timeout_error_witness :
    (delete.sampleNode (true, none) (0, some "bad timeout") false "" true).recorded.runWithCtx ()
        ["node-1"] ((), []) = (Outcome.returned (some "bad timeout"), ((), [])) ∧
    (delete.sampleVolume (false, none) (0, some "bad timeout") false ""
        true).recorded.runWithCtx delete.sampleDeletion () ["vol-1"] ((), []) =
      (Outcome.returned (some "bad timeout"), ((), [])) ∧
    (detach.sampleDetach (false, none) (0, some "bad timeout") false "" true).recorded.runWithCtx
        () ["vol-1"] ((), []) =
      (Outcome.returned (some "bad timeout"),
        ((), [detach.Call.GetNamespaceByName () "ns-1",
          detach.Call.GetVolumeByName () "id-of-ns-1" "vol-1"])) ∧
    (update.sampleDescription (false, none) (0, some "bad timeout") false ""
        true).recorded.runWithCtx (fun _ => ()) () ((), []) =
      (Outcome.returned (some "bad timeout"),
        ((), [update.Call.GetNamespaceByName () "ns-1",
          update.Call.GetVolumeByName () "id-of-ns-1" "vol-1"])) :=
  ⟨((async_timeout_error (υ := Unit) () ["node-1"] () 0 "bad timeout" delete.sampleDeletion
      (fun _ => ())).1 (delete.sampleNode (true, none) (0, some "bad timeout") false "" true)
      rfl rfl).2.2 true rfl,
   ((async_timeout_error (υ := Unit) () ["vol-1"] () 0 "bad timeout" delete.sampleDeletion
      (fun _ => ())).2.1 (delete.sampleVolume (false, none) (0, some "bad timeout") false "" true)
      rfl rfl).2.2 false rfl,
   ((async_timeout_error (υ := Unit) () ["vol-1"] () 0 "bad timeout" delete.sampleDeletion
      (fun _ => ())).2.2.1 (detach.sampleDetach (false, none) (0, some "bad timeout") false ""
      true) rfl rfl).2.2.2 "vol-1" [] (namespace_.mkNamespace "id-of-ns-1" "ns-1")
      (volume.mkVolume "id-of-vol-1" "vol-1" "id-of-ns-1") rfl rfl rfl rfl,
   ((async_timeout_error () [] () 0 "bad timeout" delete.sampleDeletion
      (fun _ => ())).2.2.2 (update.sampleDescription (false, none) (0, some "bad timeout")
      false "" true) rfl rfl).2.2.2 (namespace_.mkNamespace "id-of-ns-1" "ns-1")
      (volume.mkVolume "id-of-vol-1" "vol-1" "id-of-ns-1") rfl rfl rfl⟩

/-! ## The mutating request of each command -/

theorem filter_single {α : Type} (p : α → Bool) (pre rest : List α) (m : α)
    (hpre : ∀ x ∈ pre, p x = false) (hm : p m = true) (hrest : ∀ x ∈ rest, p x = false) :
    (pre ++ m :: rest).filter p = [m] := by
  have h1 : pre.filter p = [] := List.filter_eq_nil_iff.2 (fun x hx => by simp [hpre x hx])
  have h2 : rest.filter p = [] := List.filter_eq_nil_iff.2 (fun x hx => by simp [hrest x hx])
  rw [List.filter_append, h1, List.filter_cons, hm, h2]
  rfl

namespace delete

section

variable {Ctx W σ ε : Type}

theorem delete_display_not_mutating (call : Call Ctx W) (h : call.isDisplay = true) :
    call.isMutating = false := by
  cases call <;> simp_all [Call.isDisplay, Call.isMutating]

theorem volume_request_shape (c : volumeCommand Ctx W σ ε)
    (NewVolumeDeletion : id.Volume → id.Namespace → output.VolumeDeletion) (ctx : Ctx)
    (nsID : id.Namespace) (volID : id.Volume) (params : apiclient.DeleteVolumeRequestParams)
    (s : σ) (log : List (Call Ctx W)) :
    ∃ rest, (c.recorded.request NewVolumeDeletion ctx nsID volID params (s, log)).2.2 =
        log ++ Call.DeleteVolume ctx nsID volID (some params) :: rest ∧
      ∀ call ∈ rest, call.isDisplay = true := by
  cases hres : (c.client.DeleteVolume ctx nsID volID (some params) s).1 with
  | some err =>
    exact ⟨[], by simp [volumeCommand.request, volumeCommand.recorded, Client.recorded, hres],
      by simp⟩
  | none =>
    by_cases ha : c.useAsync = true
    · exact ⟨[Call.DisplayAsyncRequest ctx c.writer],
        by simp [volumeCommand.request, volumeCommand.recorded, Client.recorded,
          Displayer.recorded, hres, ha],
        by simp [Call.isDisplay]⟩
    · exact ⟨[Call.DisplayDeleteVolume ctx c.writer (NewVolumeDeletion volID nsID)],
        by simp [volumeCommand.request, volumeCommand.recorded, Client.recorded,
          Displayer.recorded, hres, ha],
        by simp [Call.isDisplay]⟩

theorem volume_run_request_ids (c : volumeCommand Ctx W σ ε)
    (NewVolumeDeletion : id.Volume → id.Namespace → output.VolumeDeletion) (ctx : Ctx)
    (a : String) (rest : List String) (sl : σ × List (Call Ctx W)) (t : time.Duration)
    (hU : c.config.UseIDs = (true, none))
    (hT : c.useAsync = true → c.config.CommandTimeout = (t, none)) :
    c.recorded.runWithCtx NewVolumeDeletion ctx (a :: rest) sl =
      c.recorded.request NewVolumeDeletion ctx c.namespace_ a
        { CASVersion := if c.useCAS then c.casVersion else "",
          AsyncMax := if c.useAsync then t else 0, OfflineDelete := c.useOfflineDelete } sl := by
  by_cases ha : c.useAsync = true
  · have hT' := hT ha
    by_cases hc : c.useCAS = true <;>
      simp [volumeCommand.runWithCtx, volumeCommand.resolve, volumeCommand.recorded, hU, ha,
        hT', hc, version.FromString]
  · by_cases hc : c.useCAS = true <;>
      simp [volumeCommand.runWithCtx, volumeCommand.resolve, volumeCommand.recorded, hU, ha, hc,
        version.FromString]

theorem volume_run_request_names (c : volumeCommand Ctx W σ ε)
    (NewVolumeDeletion : id.Volume → id.Namespace → output.VolumeDeletion) (ctx : Ctx)
    (a : String) (rest : List String) (s : σ) (log : List (Call Ctx W)) (t : time.Duration)
    (ns : namespace_.Resource) (vol : volume.Resource)
    (hU : c.config.UseIDs = (false, none))
    (hT : c.useAsync = true → c.config.CommandTimeout = (t, none))
    (hns : (c.client.GetNamespaceByName ctx c.namespace_ s).1 = (some ns, none))
    (hvol : (c.client.GetVolumeByName ctx ns.ID a
      (c.client.GetNamespaceByName ctx c.namespace_ s).2).1 = (some vol, none)) :
    c.recorded.runWithCtx NewVolumeDeletion ctx (a :: rest) (s, log) =
      c.recorded.request NewVolumeDeletion ctx ns.ID vol.ID
        { CASVersion := if c.useCAS then c.casVersion else "",
          AsyncMax := if c.useAsync then t else 0, OfflineDelete := c.useOfflineDelete }
        ((c.client.GetVolumeByName ctx ns.ID a
            (c.client.GetNamespaceByName ctx c.namespace_ s).2).2,
          log ++ [Call.GetNamespaceByName ctx c.namespace_, Call.GetVolumeByName ctx ns.ID a]) := by
  by_cases ha : c.useAsync = true
  · have hT' := hT ha
    by_cases hc : c.useCAS = true <;>
      simp [volumeCommand.runWithCtx, volumeCommand.resolve, volumeCommand.recorded,
        Client.recorded, hU, ha, hT', hc, hns, hvol, version.FromString]
  · by_cases hc : c.useCAS = true <;>
      simp [volumeCommand.runWithCtx, volumeCommand.resolve, volumeCommand.recorded,
        Client.recorded, hU, ha, hc, hns, hvol, version.FromString]

end

end delete

namespace detach

section

variable {Ctx W σ ε : Type}

theorem detach_display_not_mutating (call : Call Ctx W) (h : call.isDisplay = true) :
    call.isMutating = false := by
  cases call <;> simp_all [Call.isDisplay, Call.isMutating]

theorem detach_request_shape (c : detachCommand Ctx W σ ε) (ctx : Ctx) (nsID : id.Namespace)
    (volID : id.Volume) (params : apiclient.DetachVolumeRequestParams) (s : σ)
    (log : List (Call Ctx W)) :
    ∃ rest, (c.recorded.request ctx nsID volID params (s, log)).2.2 =
        log ++ Call.DetachVolume ctx nsID volID (some params) :: rest ∧
      ∀ call ∈ rest, call.isDisplay = true := by
  cases hres : (c.client.DetachVolume ctx nsID volID (some params) s).1 with
  | some err =>
    exact ⟨[], by simp [detachCommand.request, detachCommand.recorded, Client.recorded, hres],
      by simp⟩
  | none =>
    by_cases ha : c.useAsync = true
    · exact ⟨[Call.DisplayAsyncRequest ctx c.writer],
        by simp [detachCommand.request, detachCommand.recorded, Client.recorded,
          Displayer.recorded, hres, ha],
        by simp [Call.isDisplay]⟩
    · exact ⟨[Call.DisplayDetachVolume ctx c.writer],
        by simp [detachCommand.request, detachCommand.recorded, Client.recorded,
          Displayer.recorded, hres, ha],
        by simp [Call.isDisplay]⟩

theorem detach_run_request_ids (c : detachCommand Ctx W σ ε) (ctx : Ctx) (a : String)
    (rest : List String) (sl : σ × List (Call Ctx W)) (t : time.Duration)
    (hU : c.config.UseIDs = (true, none))
    (hT : c.useAsync = true → c.config.CommandTimeout = (t, none)) :
    c.recorded.runWithCtx ctx (a :: rest) sl =
      c.recorded.request ctx c.namespace_ a
        { CASVersion := if c.useCAS then c.casVersion else "",
          AsyncMax := if c.useAsync then t else 0 } sl := by
  by_cases ha : c.useAsync = true
  · have hT' := hT ha
    by_cases hc : c.useCAS = true <;>
      simp [detachCommand.runWithCtx, detachCommand.compose, detachCommand.recorded, hU, ha,
        hT', hc, version.FromString]
  · by_cases hc : c.useCAS = true <;>
      simp [detachCommand.runWithCtx, detachCommand.compose, detachCommand.recorded, hU, ha, hc,
        version.FromString]

theorem detach_run_request_names (c : detachCommand Ctx W σ ε) (ctx : Ctx) (a : String)
    (rest : List String) (s : σ) (log : List (Call Ctx W)) (t : time.Duration)
    (ns : namespace_.Resource) (vol : volume.Resource)
    (hU : c.config.UseIDs = (false, none))
    (hT : c.useAsync = true → c.config.CommandTimeout = (t, none))
    (hns : (c.client.GetNamespaceByName ctx c.namespace_ s).1 = (some ns, none))
    (hvol : (c.client.GetVolumeByName ctx ns.ID a
      (c.client.GetNamespaceByName ctx c.namespace_ s).2).1 = (some vol, none)) :
    c.recorded.runWithCtx ctx (a :: rest) (s, log) =
      c.recorded.request ctx ns.ID vol.ID
        { CASVersion := if c.useCAS then c.casVersion else "",
          AsyncMax := if c.useAsync then t else 0 }
        ((c.client.GetVolumeByName ctx ns.ID a
            (c.client.GetNamespaceByName ctx c.namespace_ s).2).2,
          log ++ [Call.GetNamespaceByName ctx c.namespace_, Call.GetVolumeByName ctx ns.ID a]) := by
  by_cases ha : c.useAsync = true
  · have hT' := hT ha
    by_cases hc : c.useCAS = true <;>
      simp [detachCommand.runWithCtx, detachCommand.compose, detachCommand.recorded,
        Client.recorded, hU, ha, hT', hc, hns, hvol, version.FromString]
  · by_cases hc : c.useCAS = true <;>
      simp [detachCommand.runWithCtx, detachCommand.compose, detachCommand.recorded,
        Client.recorded, hU, ha, hc, hns, hvol, version.FromString]

end

end detach

namespace update

section

variable {Ctx W σ ε υ : Type}

theorem update_display_not_mutating (call : Call Ctx W υ) (h : call.isDisplay = true) :
    call.isMutating = false := by
  cases call <;> simp_all [Call.isDisplay, Call.isMutating]

theorem description_request_shape (c : volumeDescriptionCommand Ctx W σ ε υ)
    (NewVolumeUpdate : Option volume.Resource → υ) (ctx : Ctx) (nsID : id.Namespace)
    (volID : id.Volume) (params : apiclient.UpdateVolumeRequestParams) (s : σ)
    (log : List (Call Ctx W υ)) :
    ∃ rest, (c.recorded.request NewVolumeUpdate ctx nsID volID params (s, log)).2.2 =
        log ++ Call.UpdateVolumeDescription ctx nsID volID c.description (some params) :: rest ∧
      ∀ call ∈ rest, call.isDisplay = true := by
  rcases hres : (c.client.UpdateVolumeDescription ctx nsID volID c.description (some params)
    s).1 with ⟨updated, _ | err⟩
  · by_cases ha : c.useAsync = true
    · exact ⟨[Call.DisplayAsyncRequest ctx c.writer],
        by simp [volumeDescriptionCommand.request, volumeDescriptionCommand.recorded,
          Client.recorded, Displayer.recorded, hres, ha],
        by simp [Call.isDisplay]⟩
    · exact ⟨[Call.DisplayUpdateVolumeDescription ctx c.writer (NewVolumeUpdate updated)],
        by simp [volumeDescriptionCommand.request, volumeDescriptionCommand.recorded,
          Client.recorded, Displayer.recorded, hres, ha],
        by simp [Call.isDisplay]⟩
  · exact ⟨[], by simp [volumeDescriptionCommand.request, volumeDescriptionCommand.recorded,
      Client.recorded, hres], by simp⟩

theorem description_run_request_ids (c : volumeDescriptionCommand Ctx W σ ε υ)
    (NewVolumeUpdate : Option volume.Resource → υ) (ctx : Ctx)
    (sl : σ × List (Call Ctx W υ)) (t : time.Duration)
    (hU : c.config.UseIDs = (true, none))
    (hT : c.useAsync = true → c.config.CommandTimeout = (t, none)) :
    c.recorded.runWithCtx NewVolumeUpdate ctx sl =
      c.recorded.request NewVolumeUpdate ctx c.namespace_ c.volumeID
        { CASVersion := if c.useCAS then c.casVersion else "",
          AsyncMax := if c.useAsync then t else 0 } sl := by
  by_cases ha : c.useAsync = true
  · have hT' := hT ha
    by_cases hc : c.useCAS = true <;>
      simp [volumeDescriptionCommand.runWithCtx, volumeDescriptionCommand.compose, resolveIDs,
        volumeDescriptionCommand.recorded, hU, ha, hT', hc, version.FromString]
  · by_cases hc : c.useCAS = true <;>
      simp [volumeDescriptionCommand.runWithCtx, volumeDescriptionCommand.compose, resolveIDs,
        volumeDescriptionCommand.recorded, hU, ha, hc, version.FromString]

theorem description_run_request_names (c : volumeDescriptionCommand Ctx W σ ε υ)
    (NewVolumeUpdate : Option volume.Resource → υ) (ctx : Ctx) (s : σ)
    (log : List (Call Ctx W υ)) (t : time.Duration)
    (ns : namespace_.Resource) (vol : volume.Resource)
    (hU : c.config.UseIDs = (false, none))
    (hT : c.useAsync = true → c.config.CommandTimeout = (t, none))
    (hns : (c.client.GetNamespaceByName ctx c.namespace_ s).1 = (some ns, none))
    (hvol : (c.client.GetVolumeByName ctx ns.ID c.volumeID
      (c.client.GetNamespaceByName ctx c.namespace_ s).2).1 = (some vol, none)) :
    c.recorded.runWithCtx NewVolumeUpdate ctx (s, log) =
      c.recorded.request NewVolumeUpdate ctx ns.ID vol.ID
        { CASVersion := if c.useCAS then c.casVersion else "",
          AsyncMax := if c.useAsync then t else 0 }
        ((c.client.GetVolumeByName ctx ns.ID c.volumeID
            (c.client.GetNamespaceByName ctx c.namespace_ s).2).2,
          log ++ [Call.GetNamespaceByName ctx c.namespace_,
            Call.GetVolumeByName ctx ns.ID c.volumeID]) := by
  by_cases ha : c.useAsync = true
  · have hT' := hT ha
    by_cases hc : c.useCAS = true <;>
      simp [volumeDescriptionCommand.runWithCtx, volumeDescriptionCommand.compose, resolveIDs,
        volumeDescriptionCommand.recorded, Client.recorded, hU, ha, hT', hc, hns, hvol,
        version.FromString]
  · by_cases hc : c.useCAS = true <;>
      simp [volumeDescriptionCommand.runWithCtx, volumeDescriptionCommand.compose, resolveIDs,
        volumeDescriptionCommand.recorded, Client.recorded, hU, ha, hc, hns, hvol,
        version.FromString]

theorem size_request_shape (c : volumeSizeCommand Ctx W σ ε υ)
    (NewVolumeUpdate : Option volume.Resource → υ) (ctx : Ctx) (nsID : id.Namespace)
    (volID : id.Volume) (s : σ) (log : List (Call Ctx W υ)) :
    ∃ rest, (c.recorded.request NewVolumeUpdate ctx nsID volID (s, log)).2.2 =
        log ++ Call.ResizeVolume ctx nsID volID c.sizeBytes
          (some { CASVersion := if c.useCAS then c.casVersion else "", AsyncMax := 0 }) :: rest ∧
      ∀ call ∈ rest, call.isDisplay = true := by
  rcases hres : (c.client.ResizeVolume ctx nsID volID c.sizeBytes
    (some { CASVersion := if c.useCAS then c.casVersion else "", AsyncMax := 0 }) s).1 with
    ⟨updated, _ | err⟩
  · refine ⟨[Call.DisplayResizeVolume ctx c.writer (NewVolumeUpdate updated)], ?_,
      by simp [Call.isDisplay]⟩
    by_cases hc : c.useCAS = true <;>
      simp_all [volumeSizeCommand.request, volumeSizeCommand.recorded, Client.recorded,
        Displayer.recorded, version.FromString]
  · refine ⟨[], ?_, by simp⟩
    by_cases hc : c.useCAS = true <;>
      simp_all [volumeSizeCommand.request, volumeSizeCommand.recorded, Client.recorded,
        version.FromString]

theorem size_run_request_ids (c : volumeSizeCommand Ctx W σ ε υ)
    (NewVolumeUpdate : Option volume.Resource → υ) (ctx : Ctx)
    (sl : σ × List (Call Ctx W υ)) (hU : c.config.UseIDs = (true, none)) :
    c.recorded.runWithCtx NewVolumeUpdate ctx sl =
      c.recorded.request NewVolumeUpdate ctx c.namespace_ c.volumeID sl := by
  simp [volumeSizeCommand.runWithCtx, resolveIDs, volumeSizeCommand.recorded, hU]

theorem size_run_request_names (c : volumeSizeCommand Ctx W σ ε υ)
    (NewVolumeUpdate : Option volume.Resource → υ) (ctx : Ctx) (s : σ)
    (log : List (Call Ctx W υ)) (ns : namespace_.Resource) (vol : volume.Resource)
    (hU : c.config.UseIDs = (false, none))
    (hns : (c.client.GetNamespaceByName ctx c.namespace_ s).1 = (some ns, none))
    (hvol : (c.client.GetVolumeByName ctx ns.ID c.volumeID
      (c.client.GetNamespaceByName ctx c.namespace_ s).2).1 = (some vol, none)) :
    c.recorded.runWithCtx NewVolumeUpdate ctx (s, log) =
      c.recorded.request NewVolumeUpdate ctx ns.ID vol.ID
        ((c.client.GetVolumeByName ctx ns.ID c.volumeID
            (c.client.GetNamespaceByName ctx c.namespace_ s).2).2,
          log ++ [Call.GetNamespaceByName ctx c.namespace_,
            Call.GetVolumeByName ctx ns.ID c.volumeID]) := by
  simp [volumeSizeCommand.runWithCtx, resolveIDs, volumeSizeCommand.recorded, Client.recorded,
    hU, hns, hvol]

end

end update

namespace delete

section

variable {Ctx W σ ε : Type}

theorem node_mutating_call (c : nodeCommand Ctx W σ ε) (ctx : Ctx) (a : String)
    (rest : List String) (s : σ) (t : time.Duration)
    (hT : c.useAsync = true → c.config.CommandTimeout = (t, none)) :
    (c.config.UseIDs = (true, none) →
      ((c.recorded.runWithCtx ctx (a :: rest) (s, [])).2.2).filter Call.isMutating =
        [Call.DeleteNode ctx a
          (some { CASVersion := if c.useCAS then c.casVersion else "",
                  AsyncMax := if c.useAsync then t else 0 })]) ∧
    (∀ n : node.Resource, c.config.UseIDs = (false, none) →
      (c.client.GetNodeByName ctx a s).1 = (some n, none) →
      ((c.recorded.runWithCtx ctx (a :: rest) (s, [])).2.2).filter Call.isMutating =
        [Call.DeleteNode ctx n.ID
          (some { CASVersion := if c.useCAS then c.casVersion else "",
                  AsyncMax := if c.useAsync then t else 0 })]) := by
  constructor
  · intro hU
    rw [node_run_resolve c ctx (a :: rest) (s, []) true t hU hT, node_resolve_ids]
    obtain ⟨tail, hlog, hdisp⟩ := node_request_shape c ctx a
      { CASVersion := if c.useCAS then c.casVersion else "",
        AsyncMax := if c.useAsync then t else 0 } s []
    rw [hlog]
    exact filter_single _ [] tail _ (by simp) rfl
      (fun x hx => delete_display_not_mutating x (hdisp x hx))
  · intro n hU hlook
    rw [node_run_resolve c ctx (a :: rest) (s, []) false t hU hT,
      node_resolve_lookup_ok c ctx a rest _ s [] n hlook]
    obtain ⟨tail, hlog, hdisp⟩ := node_request_shape c ctx n.ID
      { CASVersion := if c.useCAS then c.casVersion else "",
        AsyncMax := if c.useAsync then t else 0 } (c.client.GetNodeByName ctx a s).2
      ([] ++ [Call.GetNodeByName ctx a])
    rw [hlog]
    exact filter_single _ _ tail _ (by simp [Call.isMutating]) rfl
      (fun x hx => delete_display_not_mutating x (hdisp x hx))

theorem volume_mutating_call (c : volumeCommand Ctx W σ ε)
    (NewVolumeDeletion : id.Volume → id.Namespace → output.VolumeDeletion) (ctx : Ctx)
    (a : String) (rest : List String) (s : σ) (t : time.Duration)
    (hT : c.useAsync = true → c.config.CommandTimeout = (t, none)) :
    (c.config.UseIDs = (true, none) →
      ((c.recorded.runWithCtx NewVolumeDeletion ctx (a :: rest) (s, [])).2.2).filter
          Call.isMutating =
        [Call.DeleteVolume ctx c.namespace_ a
          (some { CASVersion := if c.useCAS then c.casVersion else "",
                  AsyncMax := if c.useAsync then t else 0,
                  OfflineDelete := c.useOfflineDelete })]) ∧
    (∀ (ns : namespace_.Resource) (vol : volume.Resource), c.config.UseIDs = (false, none) →
      (c.client.GetNamespaceByName ctx c.namespace_ s).1 = (some ns, none) →
      (c.client.GetVolumeByName ctx ns.ID a
        (c.client.GetNamespaceByName ctx c.namespace_ s).2).1 = (some vol, none) →
      ((c.recorded.runWithCtx NewVolumeDeletion ctx (a :: rest) (s, [])).2.2).filter
          Call.isMutating =
        [Call.DeleteVolume ctx ns.ID vol.ID
          (some { CASVersion := if c.useCAS then c.casVersion else "",
                  AsyncMax := if c.useAsync then t else 0,
                  OfflineDelete := c.useOfflineDelete })]) := by
  constructor
  · intro hU
    rw [volume_run_request_ids c NewVolumeDeletion ctx a rest (s, []) t hU hT]
    obtain ⟨tail, hlog, hdisp⟩ := volume_request_shape c NewVolumeDeletion ctx c.namespace_ a
      { CASVersion := if c.useCAS then c.casVersion else "",
        AsyncMax := if c.useAsync then t else 0, OfflineDelete := c.useOfflineDelete } s []
    rw [hlog]
    exact filter_single _ [] tail _ (by simp) rfl
      (fun x hx => delete_display_not_mutating x (hdisp x hx))
  · intro ns vol hU hns hvol
    rw [volume_run_request_names c NewVolumeDeletion ctx a rest s [] t ns vol hU hT hns hvol]
    obtain ⟨tail, hlog, hdisp⟩ := volume_request_shape c NewVolumeDeletion ctx ns.ID vol.ID
      { CASVersion := if c.useCAS then c.casVersion else "",
        AsyncMax := if c.useAsync then t else 0, OfflineDelete := c.useOfflineDelete }
      (c.client.GetVolumeByName ctx ns.ID a (c.client.GetNamespaceByName ctx c.namespace_ s).2).2
      ([] ++ [Call.GetNamespaceByName ctx c.namespace_, Call.GetVolumeByName ctx ns.ID a])
    rw [hlog]
    exact filter_single _ _ tail _ (by simp [Call.isMutating]) rfl
      (fun x hx => delete_display_not_mutating x (hdisp x hx))

end

end delete

namespace detach

section

variable {Ctx W σ ε : Type}

theorem detach_mutating_call (c : detachCommand Ctx W σ ε) (ctx : Ctx) (a : String)
    (rest : List String) (s : σ) (t : time.Duration)
    (hT : c.useAsync = true → c.config.CommandTimeout = (t, none)) :
    (c.config.UseIDs = (true, none) →
      ((c.recorded.runWithCtx ctx (a :: rest) (s, [])).2.2).filter Call.isMutating =
        [Call.DetachVolume ctx c.namespace_ a
          (some { CASVersion := if c.useCAS then c.casVersion else "",
                  AsyncMax := if c.useAsync then t else 0 })]) ∧
    (∀ (ns : namespace_.Resource) (vol : volume.Resource), c.config.UseIDs = (false, none) →
      (c.client.GetNamespaceByName ctx c.namespace_ s).1 = (some ns, none) →
      (c.client.GetVolumeByName ctx ns.ID a
        (c.client.GetNamespaceByName ctx c.namespace_ s).2).1 = (some vol, none) →
      ((c.recorded.runWithCtx ctx (a :: rest) (s, [])).2.2).filter Call.isMutating =
        [Call.DetachVolume ctx ns.ID vol.ID
          (some { CASVersion := if c.useCAS then c.casVersion else "",
                  AsyncMax := if c.useAsync then t else 0 })]) := by
  constructor
  · intro hU
    rw [detach_run_request_ids c ctx a rest (s, []) t hU hT]
    obtain ⟨tail, hlog, hdisp⟩ := detach_request_shape c ctx c.namespace_ a
      { CASVersion := if c.useCAS then c.casVersion else "",
        AsyncMax := if c.useAsync then t else 0 } s []
    rw [hlog]
    exact filter_single _ [] tail _ (by simp) rfl
      (fun x hx => detach_display_not_mutating x (hdisp x hx))
  · intro ns vol hU hns hvol
    rw [detach_run_request_names c ctx a rest s [] t ns vol hU hT hns hvol]
    obtain ⟨tail, hlog, hdisp⟩ := detach_request_shape c ctx ns.ID vol.ID
      { CASVersion := if c.useCAS then c.casVersion else "",
        AsyncMax := if c.useAsync then t else 0 }
      (c.client.GetVolumeByName ctx ns.ID a (c.client.GetNamespaceByName ctx c.namespace_ s).2).2
      ([] ++ [Call.GetNamespaceByName ctx c.namespace_, Call.GetVolumeByName ctx ns.ID a])
    rw [hlog]
    exact filter_single _ _ tail _ (by simp [Call.isMutating]) rfl
      (fun x hx => detach_display_not_mutating x (hdisp x hx))

end

end detach

namespace update

section

variable {Ctx W σ ε υ : Type}

theorem description_mutating_call (c : volumeDescriptionCommand Ctx W σ ε υ)
    (NewVolumeUpdate : Option volume.Resource → υ) (ctx : Ctx) (s : σ) (t : time.Duration)
    (hT : c.useAsync = true → c.config.CommandTimeout = (t, none)) :
    (c.config.UseIDs = (true, none) →
      ((c.recorded.runWithCtx NewVolumeUpdate ctx (s, [])).2.2).filter Call.isMutating =
        [Call.UpdateVolumeDescription ctx c.namespace_ c.volumeID c.description
          (some { CASVersion := if c.useCAS then c.casVersion else "",
                  AsyncMax := if c.useAsync then t else 0 })]) ∧
    (∀ (ns : namespace_.Resource) (vol : volume.Resource), c.config.UseIDs = (false, none) →
      (c.client.GetNamespaceByName ctx c.namespace_ s).1 = (some ns, none) →
      (c.client.GetVolumeByName ctx ns.ID c.volumeID
        (c.client.GetNamespaceByName ctx c.namespace_ s).2).1 = (some vol, none) →
      ((c.recorded.runWithCtx NewVolumeUpdate ctx (s, [])).2.2).filter Call.isMutating =
        [Call.UpdateVolumeDescription ctx ns.ID vol.ID c.description
          (some { CASVersion := if c.useCAS then c.casVersion else "",
                  AsyncMax := if c.useAsync then t else 0 })]) := by
  constructor
  · intro hU
    rw [description_run_request_ids c NewVolumeUpdate ctx (s, []) t hU hT]
    obtain ⟨tail, hlog, hdisp⟩ := description_request_shape c NewVolumeUpdate ctx c.namespace_
      c.volumeID
      { CASVersion := if c.useCAS then c.casVersion else "",
        AsyncMax := if c.useAsync then t else 0 } s []
    rw [hlog]
    exact filter_single _ [] tail _ (by simp) rfl
      (fun x hx => update_display_not_mutating x (hdisp x hx))
  · intro ns vol hU hns hvol
    rw [description_run_request_names c NewVolumeUpdate ctx s [] t ns vol hU hT hns hvol]
    obtain ⟨tail, hlog, hdisp⟩ := description_request_shape c NewVolumeUpdate ctx ns.ID vol.ID
      { CASVersion := if c.useCAS then c.casVersion else "",
        AsyncMax := if c.useAsync then t else 0 }
      (c.client.GetVolumeByName ctx ns.ID c.volumeID
        (c.client.GetNamespaceByName ctx c.namespace_ s).2).2
      ([] ++ [Call.GetNamespaceByName ctx c.namespace_,
        Call.GetVolumeByName ctx ns.ID c.volumeID])
    rw [hlog]
    exact filter_single _ _ tail _ (by simp [Call.isMutating]) rfl
      (fun x hx => update_display_not_mutating x (hdisp x hx))

theorem size_mutating_call (c : volumeSizeCommand Ctx W σ ε υ)
    (NewVolumeUpdate : Option volume.Resource → υ) (ctx : Ctx) (s : σ) :
    (c.config.UseIDs = (true, none) →
      ((c.recorded.runWithCtx NewVolumeUpdate ctx (s, [])).2.2).filter Call.isMutating =
        [Call.ResizeVolume ctx c.namespace_ c.volumeID c.sizeBytes
          (some { CASVersion := if c.useCAS then c.casVersion else "", AsyncMax := 0 })]) ∧
    (∀ (ns : namespace_.Resource) (vol : volume.Resource), c.config.UseIDs = (false, none) →
      (c.client.GetNamespaceByName ctx c.namespace_ s).1 = (some ns, none) →
      (c.client.GetVolumeByName ctx ns.ID c.volumeID
        (c.client.GetNamespaceByName ctx c.namespace_ s).2).1 = (some vol, none) →
      ((c.recorded.runWithCtx NewVolumeUpdate ctx (s, [])).2.2).filter Call.isMutating =
        [Call.ResizeVolume ctx ns.ID vol.ID c.sizeBytes
          (some { CASVersion := if c.useCAS then c.casVersion else "", AsyncMax := 0 })]) := by
  constructor
  · intro hU
    rw [size_run_request_ids c NewVolumeUpdate ctx (s, []) hU]
    obtain ⟨tail, hlog, hdisp⟩ := size_request_shape c NewVolumeUpdate ctx c.namespace_
      c.volumeID s []
    rw [hlog]
    exact filter_single _ [] tail _ (by simp) rfl
      (fun x hx => update_display_not_mutating x (hdisp x hx))
  · intro ns vol hU hns hvol
    rw [size_run_request_names c NewVolumeUpdate ctx s [] ns vol hU hns hvol]
    obtain ⟨tail, hlog, hdisp⟩ := size_request_shape c NewVolumeUpdate ctx ns.ID vol.ID
      (c.client.GetVolumeByName ctx ns.ID c.volumeID
        (c.client.GetNamespaceByName ctx c.namespace_ s).2).2
      ([] ++ [Call.GetNamespaceByName ctx c.namespace_,
        Call.GetVolumeByName ctx ns.ID c.volumeID])
    rw [hlog]
    exact filter_single _ _ tail _ (by simp [Call.isMutating]) rfl
      (fun x hx => update_display_not_mutating x (hdisp x hx))

end

end update

/-- C16: in the delete node, delete volume, detach, update volume description
and update volume size commands, with the client and the displayer recording
their calls. Once the target is resolved (by ID, or by name lookups that
succeed) and, in asynchronous mode, the command timeout is resolved, the run
makes exactly one mutating call on the client, and the parameter struct of
that call has CASVersion equal to the supplied version string when the
version flag was supplied (`useCAS` is true) and empty when it was not,
whatever the field `casVersion` holds. Whatever the client and the
configuration do, no mutating call with another CASVersion is in the log. -/
theorem mutating_call_cas_version {Ctx W σ ε υ : Type} (ctx : Ctx) (args : List String) (s : σ)
    (NewVolumeDeletion : id.Volume → id.Namespace → output.VolumeDeletion)
    (NewVolumeUpdate : Option volume.Resource → υ) :
    (∀ (c : delete.nodeCommand Ctx W σ ε),
      (∀ call ∈ (c.recorded.runWithCtx ctx args (s, [])).2.2, call.isMutating = true →
        call.casVersion = some (if c.useCAS then c.casVersion else "")) ∧
      (∀ t a rest, (c.useAsync = true → c.config.CommandTimeout = (t, none)) →
        args = a :: rest →
        (c.config.UseIDs = (true, none) →
          ((c.recorded.runWithCtx ctx args (s, [])).2.2).filter delete.Call.isMutating =
            [delete.Call.DeleteNode ctx a
              (some { CASVersion := if c.useCAS then c.casVersion else "",
                      AsyncMax := if c.useAsync then t else 0 })]) ∧
        (∀ n : node.Resource, c.config.UseIDs = (false, none) →
          (c.client.GetNodeByName ctx a s).1 = (some n, none) →
          ((c.recorded.runWithCtx ctx args (s, [])).2.2).filter delete.Call.isMutating =
            [delete.Call.DeleteNode ctx n.ID
              (some { CASVersion := if c.useCAS then c.casVersion else "",
                      AsyncMax := if c.useAsync then t else 0 })]))) ∧
    (∀ (c : delete.volumeCommand Ctx W σ ε),
      (∀ call ∈ (c.recorded.runWithCtx NewVolumeDeletion ctx args (s, [])).2.2,
        call.isMutating = true →
        call.casVersion = some (if c.useCAS then c.casVersion else "")) ∧
      (∀ t a rest, (c.useAsync = true → c.config.CommandTimeout = (t, none)) →
        args = a :: rest →
        (c.config.UseIDs = (true, none) →
          ((c.recorded.runWithCtx NewVolumeDeletion ctx args (s, [])).2.2).filter
              delete.Call.isMutating =
            [delete.Call.DeleteVolume ctx c.namespace_ a
              (some { CASVersion := if c.useCAS then c.casVersion else "",
                      AsyncMax := if c.useAsync then t else 0,
                      OfflineDelete := c.useOfflineDelete })]) ∧
        (∀ (ns : namespace_.Resource) (vol : volume.Resource),
          c.config.UseIDs = (false, none) →
          (c.client.GetNamespaceByName ctx c.namespace_ s).1 = (some ns, none) →
          (c.client.GetVolumeByName ctx ns.ID a
            (c.client.GetNamespaceByName ctx c.namespace_ s).2).1 = (some vol, none) →
          ((c.recorded.runWithCtx NewVolumeDeletion ctx args (s, [])).2.2).filter
              delete.Call.isMutating =
            [delete.Call.DeleteVolume ctx ns.ID vol.ID
              (some { CASVersion := if c.useCAS then c.casVersion else "",
                      AsyncMax := if c.useAsync then t else 0,
                      OfflineDelete := c.useOfflineDelete })]))) ∧
    (∀ (c : detach.detachCommand Ctx W σ ε),
      (∀ call ∈ (c.recorded.runWithCtx ctx args (s, [])).2.2, call.isMutating = true →
        call.casVersion = some (if c.useCAS then c.casVersion else "")) ∧
      (∀ t a rest, (c.useAsync = true → c.config.CommandTimeout = (t, none)) →
        args = a :: rest →
        (c.config.UseIDs = (true, none) →
          ((c.recorded.runWithCtx ctx args (s, [])).2.2).filter detach.Call.isMutating =
            [detach.Call.DetachVolume ctx c.namespace_ a
              (some { CASVersion := if c.useCAS then c.casVersion else "",
                      AsyncMax := if c.useAsync then t else 0 })]) ∧
        (∀ (ns : namespace_.Resource) (vol : volume.Resource),
          c.config.UseIDs = (false, none) →
          (c.client.GetNamespaceByName ctx c.namespace_ s).1 = (some ns, none) →
          (c.client.GetVolumeByName ctx ns.ID a
            (c.client.GetNamespaceByName ctx c.namespace_ s).2).1 = (some vol, none) →
          ((c.recorded.runWithCtx ctx args (s, [])).2.2).filter detach.Call.isMutating =
            [detach.Call.DetachVolume ctx ns.ID vol.ID
              (some { CASVersion := if c.useCAS then c.casVersion else "",
                      AsyncMax := if c.useAsync then t else 0 })]))) ∧
    (∀ (c : update.volumeDescriptionCommand Ctx W σ ε υ),
      (∀ call ∈ (c.recorded.runWithCtx NewVolumeUpdate ctx (s, [])).2.2,
        call.isMutating = true →
        call.casVersion = some (if c.useCAS then c.casVersion else "")) ∧
      (∀ t, (c.useAsync = true → c.config.CommandTimeout = (t, none)) →
        (c.config.UseIDs = (true, none) →
          ((c.recorded.runWithCtx NewVolumeUpdate ctx (s, [])).2.2).filter
              update.Call.isMutating =
            [update.Call.UpdateVolumeDescription ctx c.namespace_ c.volumeID c.description
              (some { CASVersion := if c.useCAS then c.casVersion else "",
                      AsyncMax := if c.useAsync then t else 0 })]) ∧
        (∀ (ns : namespace_.Resource) (vol : volume.Resource),
          c.config.UseIDs = (false, none) →
          (c.client.GetNamespaceByName ctx c.namespace_ s).1 = (some ns, none) →
          (c.client.GetVolumeByName ctx ns.ID c.volumeID
            (c.client.GetNamespaceByName ctx c.namespace_ s).2).1 = (some vol, none) →
          ((c.recorded.runWithCtx NewVolumeUpdate ctx (s, [])).2.2).filter
              update.Call.isMutating =
            [update.Call.UpdateVolumeDescription ctx ns.ID vol.ID c.description
              (some { CASVersion := if c.useCAS then c.casVersion else "",
                      AsyncMax := if c.useAsync then t else 0 })]))) ∧
    (∀ (c : update.volumeSizeCommand Ctx W σ ε υ),
      (∀ call ∈ (c.recorded.runWithCtx NewVolumeUpdate ctx (s, [])).2.2,
        call.isMutating = true →
        call.casVersion = some (if c.useCAS then c.casVersion else "")) ∧
      (c.config.UseIDs = (true, none) →
        ((c.recorded.runWithCtx NewVolumeUpdate ctx (s, [])).2.2).filter
            update.Call.isMutating =
          [update.Call.ResizeVolume ctx c.namespace_ c.volumeID c.sizeBytes
            (some { CASVersion := if c.useCAS then c.casVersion else "", AsyncMax := 0 })]) ∧
      (∀ (ns : namespace_.Resource) (vol : volume.Resource),
        c.config.UseIDs = (false, none) →
        (c.client.GetNamespaceByName ctx c.namespace_ s).1 = (some ns, none) →
        (c.client.GetVolumeByName ctx ns.ID c.volumeID
          (c.client.GetNamespaceByName ctx c.namespace_ s).2).1 = (some vol, none) →
        ((c.recorded.runWithCtx NewVolumeUpdate ctx (s, [])).2.2).filter
            update.Call.isMutating =
          [update.Call.ResizeVolume ctx ns.ID vol.ID c.sizeBytes
            (some { CASVersion := if c.useCAS then c.casVersion else "", AsyncMax := 0 })])) := by
  refine ⟨fun c => ⟨delete.node_cas c ctx args s, ?_⟩,
    fun c => ⟨delete.volume_cas c NewVolumeDeletion ctx args s, ?_⟩,
    fun c => ⟨detach.detach_cas c ctx args s, ?_⟩,
    fun c => ⟨update.description_cas c NewVolumeUpdate ctx s,
      fun t hT => update.description_mutating_call c NewVolumeUpdate ctx s t hT⟩,
    fun c => ⟨update.size_cas c NewVolumeUpdate ctx s,
      update.size_mutating_call c NewVolumeUpdate ctx s⟩⟩
  · intro t a rest hT hargs
    subst hargs
    exact delete.node_mutating_call c ctx a rest s t hT
  · intro t a rest hT hargs
    subst hargs
    exact delete.volume_mutating_call c NewVolumeDeletion ctx a rest s t hT
  · intro t a rest hT hargs
    subst hargs
    exact detach.detach_mutating_call c ctx a rest s t hT

/-- Witness of C16: each of the five commands run once with the version flag
supplied as "v42" and once without the flag while the field `casVersion`
holds "stale"; the run makes exactly one mutating call, with the version
"v42" and with the empty version respectively. -/
theorem mutating_call_cas_version_witness :
    (((delete.sampleNode (true, none) (0, none) true "v42" false).recorded.runWithCtx ()
          ["node-1"] ((), [])).2.2.filter delete.Call.isMutating =
        [delete.Call.DeleteNode () "node-1" (some { CASVersion := "v42", AsyncMax := 0 })] ∧
      ((delete.sampleNode (false, none) (0, none) false "stale" false).recorded.runWithCtx ()
          ["node-1"] ((), [])).2.2.filter delete.Call.isMutating =
        [delete.Call.DeleteNode () "id-of-node-1" (some { CASVersion := "", AsyncMax := 0 })]) ∧
    (((delete.sampleVolume (true, none) (15000000000, none) true "v42"
          true).recorded.runWithCtx delete.sampleDeletion () ["vol-1"] ((), [])).2.2.filter
          delete.Call.isMutating =
        [delete.Call.DeleteVolume () "ns-1" "vol-1"
          (some { CASVersion := "v42", AsyncMax := 15000000000, OfflineDelete := false })] ∧
      ((delete.sampleVolume (true, none) (0, none) false "stale"
          false).recorded.runWithCtx delete.sampleDeletion () ["vol-1"] ((), [])).2.2.filter
          delete.Call.isMutating =
        [delete.Call.DeleteVolume () "ns-1" "vol-1"
          (some { CASVersion := "", AsyncMax := 0, OfflineDelete := false })]) ∧
    (((detach.sampleDetach (false, none) (0, none) true "v42" false).recorded.runWithCtx ()
          ["vol-1"] ((), [])).2.2.filter detach.Call.isMutating =
        [detach.Call.DetachVolume () "id-of-ns-1" "id-of-vol-1"
          (some { CASVersion := "v42", AsyncMax := 0 })] ∧
      ((detach.sampleDetach (true, none) (0, none) false "stale" false).recorded.runWithCtx ()
          ["vol-1"] ((), [])).2.2.filter detach.Call.isMutating =
        [detach.Call.DetachVolume () "ns-1" "vol-1"
          (some { CASVersion := "", AsyncMax := 0 })]) ∧
    (((update.sampleDescription (true, none) (0, none) true "v42"
          false).recorded.runWithCtx (fun _ => ()) () ((), [])).2.2.filter
          update.Call.isMutating =
        [update.Call.UpdateVolumeDescription () "ns-1" "vol-1" "new text"
          (some { CASVersion := "v42", AsyncMax := 0 })] ∧
      ((update.sampleDescription (true, none) (0, none) false "stale"
          false).recorded.runWithCtx (fun _ => ()) () ((), [])).2.2.filter
          update.Call.isMutating =
        [update.Call.UpdateVolumeDescription () "ns-1" "vol-1" "new text"
          (some { CASVersion := "", AsyncMax := 0 })]) ∧
    (((update.sampleSize (true, none) (0, none) true "v42" false).recorded.runWithCtx
          (fun _ => ()) () ((), [])).2.2.filter update.Call.isMutating =
        [update.Call.ResizeVolume () "ns-1" "vol-1" 1024
          (some { CASVersion := "v42", AsyncMax := 0 })] ∧
      ((update.sampleSize (false, none) (0, none) false "stale" false).recorded.runWithCtx
          (fun _ => ()) () ((), [])).2.2.filter update.Call.isMutating =
        [update.Call.ResizeVolume () "id-of-ns-1" "id-of-vol-1" 1024
          (some { CASVersion := "", AsyncMax := 0 })]) :=
  ⟨⟨((((mutating_call_cas_version (υ := Unit) () ["node-1"] () delete.sampleDeletion
        (fun _ => ())).1 (delete.sampleNode (true, none) (0, none) true "v42" false)).2
        0 "node-1" [] (fun h => absurd h (by decide)) rfl).1 rfl),
     ((((mutating_call_cas_version (υ := Unit) () ["node-1"] () delete.sampleDeletion
        (fun _ => ())).1 (delete.sampleNode (false, none) (0, none) false "stale" false)).2
        0 "node-1" [] (fun h => absurd h (by decide)) rfl).2
        (apiclient.mkNode "id-of-node-1" "node-1") rfl rfl)⟩,
   ⟨((((mutating_call_cas_version (υ := Unit) () ["vol-1"] () delete.sampleDeletion
        (fun _ => ())).2.1 (delete.sampleVolume (true, none) (15000000000, none) true "v42"
        true)).2 15000000000 "vol-1" [] (fun _ => rfl) rfl).1 rfl),
     ((((mutating_call_cas_version (υ := Unit) () ["vol-1"] () delete.sampleDeletion
        (fun _ => ())).2.1 (delete.sampleVolume (true, none) (0, none) false "stale"
        false)).2 0 "vol-1" [] (fun h => absurd h (by decide)) rfl).1 rfl)⟩,
   ⟨((((mutating_call_cas_version (υ := Unit) () ["vol-1"] () delete.sampleDeletion
        (fun _ => ())).2.2.1 (detach.sampleDetach (false, none) (0, none) true "v42"
        false)).2 0 "vol-1" [] (fun h => absurd h (by decide)) rfl).2
        (namespace_.mkNamespace "id-of-ns-1" "ns-1")
        (volume.mkVolume "id-of-vol-1" "vol-1" "id-of-ns-1") rfl rfl rfl),
     ((((mutating_call_cas_version (υ := Unit) () ["vol-1"] () delete.sampleDeletion
        (fun _ => ())).2.2.1 (detach.sampleDetach (true, none) (0, none) false "stale"
        false)).2 0 "vol-1" [] (fun h => absurd h (by decide)) rfl).1 rfl)⟩,
   ⟨((((mutating_call_cas_version () [] () delete.sampleDeletion
        (fun _ => ())).2.2.2.1 (update.sampleDescription (true, none) (0, none) true "v42"
        false)).2 0 (fun h => absurd h (by decide))).1 rfl),
     ((((mutating_call_cas_version () [] () delete.sampleDeletion
        (fun _ => ())).2.2.2.1 (update.sampleDescription (true, none) (0, none) false "stale"
        false)).2 0 (fun h => absurd h (by decide))).1 rfl)⟩,
   ⟨(((mutating_call_cas_version () [] () delete.sampleDeletion
        (fun _ => ())).2.2.2.2 (update.sampleSize (true, none) (0, none) true "v42"
        false)).2.1 rfl),
     (((mutating_call_cas_version () [] () delete.sampleDeletion
        (fun _ => ())).2.2.2.2 (update.sampleSize (false, none) (0, none) false "stale"
        false)).2.2 (namespace_.mkNamespace "id-of-ns-1" "ns-1")
        (volume.mkVolume "id-of-vol-1" "vol-1" "id-of-ns-1") rfl rfl rfl)⟩⟩
